import Mathlib

/-!
# Lockbox: password generation, strength labels, services and handlers

A shallow embedding of the client-side password generator and of `handleSubmit` of
`src/components/AddPassword.jsx`, of the strength label, the handlers and the search filter
of `src/components/Dashboard.jsx`, of `src/services/api.js` and of `handleLogout` and the
route table of `src/App.jsx`.

Conventions of the embedding:

* JavaScript strings are Lean strings; every string of the generator is ASCII,
  so UTF-16 code units and Lean characters coincide.
* JavaScript numbers are the rationals (`ℚ`) and integers (`Int`) that the
  binary64 format represents.  The product `Math.random() * chars.length` is
  rounded to the nearest double, ties to even (`roundDouble`).
* `Math.random` is a stream `random : Nat → ℚ` of draws in `[0, 1)`: its `k`-th
  call returns the double `toDouble (random k)`, the greatest double not above
  the draw, so that every double in `[0, 1)` is a possible value.  The loop of
  `generatePassword` makes its `i`-th call in iteration `i`.
* Bodies of requests and responses are dynamically typed values (`JsValue`); a
  property read on `null` or `undefined` throws, and a `try` block that throws
  runs its `catch` block with the state reached so far.
* An `async` handler is the sequence of its statements, the answer of the
  backend to each request being given by the platform.  A call that is not
  awaited (`fetchPasswords()` inside a handler) is recorded as an effect.
-/

namespace Lockbox

/-! ## Data model -/

/-- The `formData` state of the `AddPassword` component. -/
structure FormData where
  platform : String
  email : String
  password : String
  notes : String
  tags : String
  deriving DecidableEq, Repr

/-- The `generatorSettings` state of the `AddPassword` component. -/
structure GeneratorSettings where
  length : Int
  includeUppercase : Bool
  includeNumbers : Bool
  includeSymbols : Bool
  deriving DecidableEq, Repr

/-- The initial value of `generatorSettings` (the argument of `useState`). -/
def defaultGeneratorSettings : GeneratorSettings :=
  { length := 12, includeUppercase := true, includeNumbers := true, includeSymbols := true }

/-! ## `AddPassword.generatePassword` -/

/-- The constant `uppercase` of `generatePassword`. -/
def uppercase : String := "ABCDEFGHIJKLMNOPQRSTUVWXYZ"

/-- The constant `lowercase` of `generatePassword`. -/
def lowercase : String := "abcdefghijklmnopqrstuvwxyz"

/-- The constant `numbers` of `generatePassword`. -/
def numbers : String := "0123456789"

/-- The constant `symbols` of `generatePassword`. -/
def symbols : String := "!@#$%^&*()_+-=[]\x7b\x7d|;:,.<>?"

/-- The local `chars` of `generatePassword` once the three conditional appends have run. -/
def chars (g : GeneratorSettings) : String :=
  let chars := lowercase
  let chars := if g.includeUppercase then chars ++ uppercase else chars
  let chars := if g.includeNumbers then chars ++ numbers else chars
  let chars := if g.includeSymbols then chars ++ symbols else chars
  chars

/-- The method `String.prototype.charAt`: the one-character string at position `pos`, and the
empty string when `pos` is not an index of `s`. -/
def charAt (s : String) (pos : Int) : String :=
  if pos < 0 then ""
  else
    match s.data[pos.toNat]? with
    | some c => String.singleton c
    | none => ""

/-- The integer nearest to `y`, the even one of the two when `y` lies halfway. -/
def roundHalfEven (y : ℚ) : Int :=
  if y - (Int.floor y : ℚ) < 1 / 2 then Int.floor y
  else if 1 / 2 < y - (Int.floor y : ℚ) then Int.floor y + 1
  else if Int.floor y % 2 = 0 then Int.floor y
  else Int.floor y + 1

/-- The spacing of the binary64 numbers at `x`: `2 ^ (e - 52)` where `e` is the exponent of
`x`, not below `-1022`. -/
def ulp (x : ℚ) : ℚ :=
  (2 : ℚ) ^ (max (Int.log 2 x) (-1022) - 52)

/-- The binary64 number nearest to a value `x ≥ 0` below the overflow threshold, ties to the
even significand: the rounding of the result of an arithmetic operation. -/
def roundDouble (x : ℚ) : ℚ :=
  (roundHalfEven (x / ulp x) : ℚ) * ulp x

/-- The greatest binary64 number not above a value `x ≥ 0`; a binary64 number is left as it
is. -/
def toDouble (x : ℚ) : ℚ :=
  (Int.floor (x / ulp x) : ℚ) * ulp x

/-- The index expression `Math.floor(Math.random() * chars.length)` for a draw `r`: the call
of `Math.random` returns the double `toDouble r`, the product is rounded to a double and
`Math.floor` takes its integer part. -/
def randomIndex (r : ℚ) (pool : String) : Int :=
  Int.floor (roundDouble (toDouble r * (pool.length : ℚ)))

/-- The `for` loop of `generatePassword`, entered with loop counter `i` and accumulator
`password`: while `i < generatorSettings.length` it appends one drawn character. -/
def passwordLoop (g : GeneratorSettings) (pool : String) (random : Nat → ℚ)
    (i : Nat) (password : String) : String :=
  if (i : Int) < g.length then
    passwordLoop g pool random (i + 1) (password ++ charAt pool (randomIndex (random i) pool))
  else password
termination_by (g.length - (i : Int)).toNat
decreasing_by omega

/-- The value of the local `password` of `generatePassword` after the loop. -/
def generatedPassword (g : GeneratorSettings) (random : Nat → ℚ) : String :=
  passwordLoop g (chars g) random 0 ""

/-- The state update of `generatePassword`: `setFormData({ ...formData, password })`. -/
def generatePassword (formData : FormData) (g : GeneratorSettings) (random : Nat → ℚ) :
    FormData :=
  { formData with password := generatedPassword g random }

/-! ## `Dashboard.getStrengthText` -/

/-- The function `getStrengthText` of the dashboard, as a function of `passwordStrength`. -/
def getStrengthText (passwordStrength : Int) : String :=
  if passwordStrength ≤ 25 then "Weak"
  else if passwordStrength ≤ 50 then "Fair"
  else if passwordStrength ≤ 75 then "Good"
  else "Strong"

/-! ## JavaScript values, errors and effects

Values that cross the network boundary (request bodies, response bodies) and the props and
state that hold them are dynamically typed; they are modelled by `JsValue`.  A thrown value is
a `JsError`; a computation that may throw returns `Except JsError _`.  Effects on the outside
world are recorded, in order, in the `effects` of a `World`. -/

/-- A JavaScript value as produced by `JSON.parse`, plus `undefined`. -/
inductive JsValue where
  | undefined : JsValue
  | null : JsValue
  | bool (b : Bool) : JsValue
  | num (n : ℚ) : JsValue
  | str (s : String) : JsValue
  | arr (items : List JsValue) : JsValue
  | obj (props : List (String × JsValue)) : JsValue

/-- A thrown value: the `TypeError` raised by a property read on `null` or `undefined`, or any
other `Error` with its `message`. -/
inductive JsError where
  | typeError : JsError
  | error (message : String) : JsError
  deriving DecidableEq, Repr

/-- The test `error.message === m` of the `catch` blocks, for a message `m` of this program.
The engine-chosen message of a `TypeError` is none of them. -/
def JsError.messageIs (e : JsError) (m : String) : Bool :=
  match e with
  | .typeError => false
  | .error message => message == m

/-- The conversion to boolean used by `!`, `&&`, `||`, `if` and the conditional operator. -/
def truthy (v : JsValue) : Bool :=
  match v with
  | .undefined => false
  | .null => false
  | .bool b => b
  | .num n => n != 0
  | .str s => s != ""
  | .arr _ => true
  | .obj _ => true

/-- The property read `v.key`, for the property names this program reads (`code`, `data`,
`id`, `email`, `name`, `user_id`, `platform`, `password`, `created_at`, `tags`, `strength`,
`message`, `imported`): it throws a
`TypeError` on `null` and `undefined`, yields the own property of an object (or `undefined`
when the object has none of that name), and yields `undefined` on the other values, whose
prototypes define none of these names. -/
def getProp (v : JsValue) (key : String) : Except JsError JsValue :=
  match v with
  | .undefined => .error .typeError
  | .null => .error .typeError
  | .obj props => .ok ((props.lookup key).getD .undefined)
  | _ => .ok .undefined

/-- The comparison `v === n` with a number literal `n`. -/
def strictEqNum (v : JsValue) (n : ℚ) : Bool :=
  match v with
  | .num m => m == n
  | _ => false

/-- The comparison `v === s` with a string literal `s`. -/
def strictEqStr (v : JsValue) (s : String) : Bool :=
  match v with
  | .str t => t == s
  | _ => false

/-- The definition of property `key` with value `value` on an object given by its own
properties: an existing property keeps its place and gets the new value, a new one is added
last. -/
def setProp (props : List (String × JsValue)) (key : String) (value : JsValue) :
    List (String × JsValue) :=
  if props.any (fun p => p.1 == key) then
    props.map (fun p => if p.1 == key then (key, value) else p)
  else props ++ [(key, value)]

/-- A `File` chosen in the import dialog. -/
structure File where
  type : String
  name : String
  deriving DecidableEq, Repr

/-- The logged-in user object `{ email, name, id }` built by `authService.login` and
`authService.checkSession` and passed down as the `user` prop. -/
structure User where
  email : JsValue
  name : JsValue
  id : JsValue

/-- The object literal `{ email: ..., name: ..., id: ... }` of a `User`. -/
def User.toJs (u : User) : JsValue :=
  .obj [("email", u.email), ("name", u.name), ("id", u.id)]

/-- An observable effect of the client: a posted request, a notification, a call of a callback
of the parent component (`onAdd`, `onClose`, `onLogout`, which return normally) or of
`fetchPasswords`.  Output to the console is not recorded. -/
inductive Effect where
  | post (body : JsValue) : Effect
  | toastError (message : JsValue) : Effect
  | toastSuccess (message : JsValue) : Effect
  | preventDefault : Effect
  | onAdd (newPassword : JsValue) : Effect
  | onClose : Effect
  | onLogout : Effect
  | fetchPasswords : Effect
  | resetFileInput : Effect

/-- The effects by which a handler tells the user or its parent that the operation succeeded:
the success notification, the reload of the list, `onAdd` and `onClose`. -/
def Effect.reportsSuccess (e : Effect) : Bool :=
  match e with
  | .toastSuccess _ => true
  | .fetchPasswords => true
  | .onAdd _ => true
  | .onClose => true
  | _ => false

/-- The world outside the components: local storage, `window.location.href` and the effects
performed so far, oldest first. -/
structure World where
  localStorage : List (String × String)
  href : String
  effects : List Effect

/-- The platform the client runs on: the environment variable `REACT_APP_API_KEY`, the answer
of the HTTP layer to a posted body (`api.post` resolves with a response whose `data` is the
returned value, or rejects), `JSON.stringify`, the string conversion of template literals and
the text a `FileReader` reads from a file (`none` when reading fails). -/
structure Platform where
  REACT_APP_API_KEY : Option String
  post : JsValue → Except JsError JsValue
  stringify : JsValue → String
  toText : JsValue → String
  readAsText : File → Option String

/-- Append an effect to the record of the world. -/
def World.emit (w : World) (e : Effect) : World :=
  { w with effects := w.effects ++ [e] }

/-- The call `localStorage.removeItem(key)`. -/
def World.removeItem (w : World) (key : String) : World :=
  { w with localStorage := w.localStorage.filter (fun p => p.1 != key) }

/-- The call `localStorage.setItem(key, value)`. -/
def World.setItem (w : World) (key value : String) : World :=
  { w with localStorage := w.localStorage.filter (fun p => p.1 != key) ++ [(key, value)] }

/-- The call `localStorage.getItem(key)`. -/
def World.getItem (w : World) (key : String) : Option String :=
  w.localStorage.lookup key

/-- The assignment `window.location.href = url`. -/
def World.setHref (w : World) (url : String) : World :=
  { w with href := url }

/-! ## `services/api.js` -/

/-- The constant `API_KEY`: `process.env.REACT_APP_API_KEY || 'lock123'`. -/
def API_KEY (p : Platform) : String :=
  match p.REACT_APP_API_KEY with
  | some key => if key != "" then key else "lock123"
  | none => "lock123"

/-- The function `formatData` on the own properties of a request object:
`{ ...data, api_key: API_KEY }`. -/
def formatData (p : Platform) (data : List (String × JsValue)) : List (String × JsValue) :=
  setProp data "api_key" (.str (API_KEY p))

/-- The call `await api.post('', formatData(data))`: the request is recorded and the platform
answers it. -/
def apiPost (p : Platform) (data : List (String × JsValue)) (w : World) :
    Except JsError JsValue × World :=
  let body := JsValue.obj (formatData p data)
  (p.post body, w.emit (.post body))

/-- The object `{ error: 'Session expired. Please login again.' }`. -/
def sessionExpired : JsValue :=
  .obj [("error", .str "Session expired. Please login again.")]

/-- The statements that follow the `await` in the operations of `passwordService`, with the
`catch` block that rethrows: on code `401` the `user` entry is removed, the location is set to
`/login` and the error object is returned; otherwise `response.data` is returned. -/
def checkExpiry (reply : Except JsError JsValue) (w : World) :
    Except JsError JsValue × World :=
  match reply with
  | .error e => (.error e, w)
  | .ok data =>
    match getProp data "code" with
    | .error e => (.error e, w)
    | .ok code =>
      if strictEqNum code 401 then
        (.ok sessionExpired, (w.removeItem "user").setHref "/login")
      else (.ok data, w)

/-- The operation `passwordService.addPassword`. -/
def passwordService.addPassword (p : Platform) (userId password platform email : JsValue)
    (w : World) : Except JsError JsValue × World :=
  let (reply, w1) := apiPost p
    [("add_pass", .bool true), ("user_id", userId), ("pass", password), ("name", platform),
     ("email", email)] w
  checkExpiry reply w1

/-- The operation `passwordService.getPasswords`. -/
def passwordService.getPasswords (p : Platform) (email : JsValue) (w : World) :
    Except JsError JsValue × World :=
  let (reply, w1) := apiPost p [("email", email), ("get_pass", .bool true)] w
  checkExpiry reply w1

/-- The operation `passwordService.updatePassword`; `passwordData` is the edited record. -/
def passwordService.updatePassword (p : Platform) (passwordData : JsValue) (w : World) :
    Except JsError JsValue × World :=
  match getProp passwordData "id", getProp passwordData "platform",
      getProp passwordData "password" with
  | .ok id, .ok platform, .ok password =>
    let (reply, w1) := apiPost p
      [("id", id), ("name", platform), ("password", password), ("update_password", .bool true)] w
    checkExpiry reply w1
  | _, _, _ => (.error .typeError, w)

/-- The operation `passwordService.importPasswords`: the file is read, then its text is posted.
A failed read rejects with `Failed to read CSV file`. -/
def passwordService.importPasswords (p : Platform) (email : JsValue) (csvFile : File)
    (w : World) : Except JsError JsValue × World :=
  match p.readAsText csvFile with
  | none => (.error (.error "Failed to read CSV file"), w)
  | some csvData =>
    let (reply, w1) := apiPost p
      [("import_passwords", .bool true), ("email", email), ("csv_data", .str csvData)] w
    checkExpiry reply w1

/-- The operation `passwordService.deletePassword`. -/
def passwordService.deletePassword (p : Platform) (passwordId : JsValue) (w : World) :
    Except JsError JsValue × World :=
  let (reply, w1) := apiPost p [("delete_password", .bool true), ("id", passwordId)] w
  checkExpiry reply w1

/-- The operation `passwordService.generatePassword`. -/
def passwordService.generatePassword (p : Platform) (w : World) :
    Except JsError JsValue × World :=
  let (reply, w1) := apiPost p [("generate_password", .bool true)] w
  checkExpiry reply w1

/-- The result `{ valid: true, user: userData }` or `{ valid: false }` of `checkSession`. -/
structure SessionResult where
  valid : Bool
  user : Option User

/-- The operation `authService.checkSession`. -/
def authService.checkSession (p : Platform) (w : World) :
    Except JsError SessionResult × World :=
  let (reply, w1) := apiPost p [("check_session", .bool true)] w
  let failed : Except JsError SessionResult × World :=
    (.ok ⟨false, none⟩, w1.removeItem "user")
  match reply with
  | .error _ => failed
  | .ok data =>
    match getProp data "code" with
    | .error _ => failed
    | .ok code =>
      if strictEqNum code 200 then
        match getProp data "data" with
        | .error _ => failed
        | .ok inner =>
          match getProp inner "email", getProp inner "name", getProp inner "user_id" with
          | .ok email, .ok name, .ok id =>
            let userData : User := ⟨email, name, id⟩
            (.ok ⟨true, some userData⟩, w1.setItem "user" (p.stringify userData.toJs))
          | _, _, _ => failed
      else (.ok ⟨false, none⟩, w1.removeItem "user")

/-- The operation `authService.logout`. -/
def authService.logout (p : Platform) (w : World) : Except JsError JsValue × World :=
  let (reply, w1) := apiPost p [("logout", .bool true)] w
  match reply with
  | .ok _ => (.ok (.obj [("success", .bool true)]), w1.removeItem "user")
  | .error e => (.error e, w1.removeItem "user")

/-! ## `components/AddPassword.jsx`: the component and `handleSubmit` -/

/-- The state of the `AddPassword` component. -/
structure AddPasswordState where
  formData : FormData
  showPassword : Bool
  isLoading : Bool
  generatorSettings : GeneratorSettings

/-- The handler `generatePassword` of `AddPassword` on the component state.  Its body has no
`throw` and no operation that can throw, so it always completes. -/
def AddPassword.generatePassword (random : Nat → ℚ) (s : AddPasswordState) :
    Except JsError AddPasswordState :=
  .ok { s with formData := Lockbox.generatePassword s.formData s.generatorSettings random }

/-- The characters stripped by `String.prototype.trim`: white space and line terminators. -/
def isTrimChar (c : Char) : Bool :=
  [0x9, 0xA, 0xB, 0xC, 0xD, 0x20, 0xA0, 0x1680, 0x2028, 0x2029, 0x202F, 0x205F, 0x3000,
    0xFEFF].contains c.toNat
  || (0x2000 ≤ c.toNat && c.toNat ≤ 0x200A)

/-- The method `String.prototype.trim`. -/
def trim (s : String) : String :=
  ⟨((s.data.dropWhile isTrimChar).reverse.dropWhile isTrimChar).reverse⟩

/-- The segments of `split(',')` on the characters of a string. -/
def splitOnComma : List Char → List (List Char)
  | [] => [[]]
  | c :: cs =>
    if c = ',' then [] :: splitOnComma cs
    else
      match splitOnComma cs with
      | [] => [[c]]
      | segment :: rest => (c :: segment) :: rest

/-- The expression `formData.tags.split(',').map((tag) => tag.trim()).filter(Boolean)`. -/
def tagList (tags : String) : List String :=
  ((splitOnComma tags.data).map (fun segment => trim ⟨segment⟩)).filter (fun tag => tag != "")

/-- The object `newPassword` built by `handleSubmit` from the response's `id` and the form. -/
def newPassword (id : JsValue) (formData : FormData) : JsValue :=
  .obj [("id", id), ("platform", .str formData.platform), ("email", .str formData.email),
    ("password", .str formData.password), ("notes", .str formData.notes),
    ("tags", .arr ((tagList formData.tags).map .str))]

/-- The `catch` block of `handleSubmit`. -/
def AddPassword.submitFailed (w : World) : World :=
  w.emit (.toastError (.str "An error occurred while adding the password"))

/-- The `try` and `catch` blocks of `handleSubmit`. -/
def AddPassword.submit (p : Platform) (user : User) (formData : FormData) (w : World) : World :=
  match passwordService.addPassword p user.id (.str formData.password)
      (.str formData.platform) user.email w with
  | (.error _, w1) => AddPassword.submitFailed w1
  | (.ok response, w1) =>
    match getProp response "code" with
    | .error _ => AddPassword.submitFailed w1
    | .ok code =>
      if strictEqNum code 11 then
        match getProp response "data" with
        | .error _ => AddPassword.submitFailed w1
        | .ok data =>
          match getProp data "id" with
          | .error _ => AddPassword.submitFailed w1
          | .ok id =>
            ((w1.emit (.onAdd (newPassword id formData))).emit .onClose).emit
              (.toastSuccess (.str "Password added successfully!"))
      else w1.emit (.toastError (.str "Failed to add password. Please try again."))

/-- The handler `handleSubmit` of `AddPassword`. -/
def AddPassword.handleSubmit (p : Platform) (user : User) (s : AddPasswordState) (w : World) :
    AddPasswordState × World :=
  let w0 := w.emit .preventDefault
  if s.formData.platform == "" || s.formData.email == "" || s.formData.password == "" then
    (s, w0.emit (.toastError (.str "Please fill in all required fields")))
  else
    ({ s with isLoading := false }, AddPassword.submit p user s.formData w0)

/-! ## `components/Dashboard.jsx`: the handlers -/

/-- The state of the `Dashboard` component. -/
structure DashboardState where
  darkMode : Bool
  searchQuery : String
  visiblePasswords : List (String × Bool)
  passwords : List JsValue
  loading : Bool
  editingPassword : JsValue
  isImporting : Bool
  suggestedPassword : JsValue
  passwordStrength : JsValue

/-- The `catch` block shared by `fetchPasswords`, `handleUpdatePassword`, `handleFileChange`
and `handleDeletePassword`, with the message `failure` of the handler. -/
def Dashboard.handleError (failure : String) (e : JsError) (w : World) : World :=
  if e.messageIs "Session expired. Please login again." then
    (w.emit (.toastError (.str "Session expired. Please login again."))).emit .onLogout
  else w.emit (.toastError (.str failure))

/-- The callback of `response.data.map` in `fetchPasswords`. -/
def Dashboard.formatPassword (pass : JsValue) : Except JsError JsValue :=
  match getProp pass "id", getProp pass "name", getProp pass "email", getProp pass "password",
      getProp pass "created_at" with
  | .ok id, .ok name, .ok email, .ok password, .ok createdAt =>
    .ok (.obj [("id", id), ("platform", name), ("email", email), ("password", password),
      ("created_at", createdAt)])
  | _, _, _, _, _ => .error .typeError

/-- The `try` and `catch` blocks of `fetchPasswords` for a user with an email. -/
def Dashboard.fetch (p : Platform) (email : JsValue) (s : DashboardState) (w : World) :
    DashboardState × World :=
  match passwordService.getPasswords p email w with
  | (.error e, w1) => (s, Dashboard.handleError "Failed to fetch passwords" e w1)
  | (.ok response, w1) =>
    match getProp response "code" with
    | .error e => (s, Dashboard.handleError "Failed to fetch passwords" e w1)
    | .ok code =>
      if strictEqStr code "130" then
        match getProp response "data" with
        | .error e => (s, Dashboard.handleError "Failed to fetch passwords" e w1)
        | .ok (.arr items) =>
          match items.mapM Dashboard.formatPassword with
          | .error e => (s, Dashboard.handleError "Failed to fetch passwords" e w1)
          | .ok formattedPasswords => ({ s with passwords := formattedPasswords }, w1)
        | .ok _ => (s, Dashboard.handleError "Failed to fetch passwords" .typeError w1)
      else (s, w1)

/-- The function `fetchPasswords` of the dashboard. -/
def Dashboard.fetchPasswords (p : Platform) (user : Option User) (s : DashboardState)
    (w : World) : DashboardState × World :=
  match user with
  | none => (s, w)
  | some u =>
    if !truthy u.email then (s, w)
    else
      let (s1, w1) := Dashboard.fetch p u.email s w
      ({ s1 with loading := false }, w1)

/-- The handler `handleUpdatePassword` of the dashboard.  The call `fetchPasswords()` is not
awaited; it is recorded as an effect. -/
def Dashboard.handleUpdatePassword (p : Platform) (updatedPassword : JsValue)
    (s : DashboardState) (w : World) : DashboardState × World :=
  match passwordService.updatePassword p updatedPassword w with
  | (.error e, w1) => (s, Dashboard.handleError "Failed to update password" e w1)
  | (.ok response, w1) =>
    match getProp response "code" with
    | .error e => (s, Dashboard.handleError "Failed to update password" e w1)
    | .ok code =>
      if strictEqStr code "150" then
        ({ s with editingPassword := .null },
          (w1.emit (.toastSuccess (.str "Password updated successfully"))).emit .fetchPasswords)
      else (s, w1)

/-- The `try` and `catch` blocks of `handleFileChange`. -/
def Dashboard.importFile (p : Platform) (user : Option User) (file : File) (w : World) :
    World :=
  match user with
  | none => Dashboard.handleError "Failed to import passwords" .typeError w
  | some u =>
    match passwordService.importPasswords p u.email file w with
    | (.error e, w1) => Dashboard.handleError "Failed to import passwords" e w1
    | (.ok response, w1) =>
      match getProp response "code" with
      | .error e => Dashboard.handleError "Failed to import passwords" e w1
      | .ok code =>
        if strictEqStr code "172" then
          match getProp response "data" with
          | .error e => Dashboard.handleError "Failed to import passwords" e w1
          | .ok data =>
            match getProp data "imported" with
            | .error e => Dashboard.handleError "Failed to import passwords" e w1
            | .ok imported =>
              (w1.emit (.toastSuccess
                (.str ("Successfully imported " ++ p.toText imported ++ " passwords")))).emit
                .fetchPasswords
        else
          match getProp response "message" with
          | .error e => Dashboard.handleError "Failed to import passwords" e w1
          | .ok message =>
            w1.emit (.toastError
              (if truthy message then message else .str "Failed to import passwords"))

/-- The handler `handleFileChange` of the dashboard, for the first file of the event. -/
def Dashboard.handleFileChange (p : Platform) (user : Option User) (file : Option File)
    (s : DashboardState) (w : World) : DashboardState × World :=
  match file with
  | none => (s, w)
  | some f =>
    if f.type != "text/csv" && !(".csv".data.isSuffixOf f.name.data) then
      (s, w.emit (.toastError (.str "Please select a valid CSV file")))
    else
      ({ s with isImporting := false }, (Dashboard.importFile p user f w).emit .resetFileInput)

/-- The handler `handleDeletePassword` of the dashboard; `confirmed` is the answer of
`window.confirm`. -/
def Dashboard.handleDeletePassword (p : Platform) (passwordId : JsValue) (confirmed : Bool)
    (s : DashboardState) (w : World) : DashboardState × World :=
  if confirmed then
    match passwordService.deletePassword p passwordId w with
    | (.error e, w1) => (s, Dashboard.handleError "Failed to delete password" e w1)
    | (.ok response, w1) =>
      match getProp response "code" with
      | .error e => (s, Dashboard.handleError "Failed to delete password" e w1)
      | .ok code =>
        if strictEqStr code "160" then
          (s, (w1.emit (.toastSuccess (.str "Password deleted successfully"))).emit
            .fetchPasswords)
        else (s, w1)
  else (s, w)

/-- The `catch` block and the `else` branch of the dashboard's `generatePassword`. -/
def Dashboard.generateFailed (w : World) : World :=
  w.emit (.toastError (.str "Failed to generate password"))

/-- The function `generatePassword` of the dashboard.  The two setters run one after the other,
each after the property reads of its argument. -/
def Dashboard.generatePassword (p : Platform) (s : DashboardState) (w : World) :
    DashboardState × World :=
  match passwordService.generatePassword p w with
  | (.error _, w1) => (s, Dashboard.generateFailed w1)
  | (.ok response, w1) =>
    match getProp response "code" with
    | .error _ => (s, Dashboard.generateFailed w1)
    | .ok code =>
      if strictEqStr code "180" then
        match getProp response "data" with
        | .error _ => (s, Dashboard.generateFailed w1)
        | .ok data =>
          match getProp data "password" with
          | .error _ => (s, Dashboard.generateFailed w1)
          | .ok password =>
            let s1 := { s with suggestedPassword := password }
            match getProp response "data" with
            | .error _ => (s1, Dashboard.generateFailed w1)
            | .ok data2 =>
              match getProp data2 "strength" with
              | .error _ => (s1, Dashboard.generateFailed w1)
              | .ok strength => ({ s1 with passwordStrength := strength }, w1)
      else (s, Dashboard.generateFailed w1)

/-! ## `App.jsx`: `handleLogout` -/

/-- The state of `AppRoutes`. -/
structure AppState where
  isAuthenticated : Bool
  user : Option User
  isLoading : Bool

/-- The handler `handleLogout` of `AppRoutes`: the error of `authService.logout` is caught and
the `finally` block clears the state. -/
def App.handleLogout (p : Platform) (s : AppState) (w : World) :
    Except JsError Unit × AppState × World :=
  match authService.logout p w with
  | (.ok _, w1) =>
    (.ok (), { s with isAuthenticated := false, user := none }, w1.removeItem "user")
  | (.error _, w1) =>
    (.ok (), { s with isAuthenticated := false, user := none }, w1.removeItem "user")

/-- The request object of `passwordService.addPassword`, before `formatData`. -/
def addRequest (user : User) (formData : FormData) : List (String × JsValue) :=
  [("add_pass", .bool true), ("user_id", user.id), ("pass", .str formData.password),
    ("name", .str formData.platform), ("email", user.email)]

/-! ## `components/Dashboard.jsx`: `filteredPasswords` -/

/-- The method `String.prototype.includes`: `query` occurs in `text` as a run of consecutive
characters. -/
def includes (text query : String) : Bool :=
  decide (query.data <:+: text.data)

/-- The expression `v?.toLowerCase() || ''`: the empty string for `null` and `undefined`, the
lower-cased text for a string, a `TypeError` for another value, which has no method
`toLowerCase`.  The method `String.prototype.toLowerCase` is the parameter `toLowerCase`. -/
def lowerOrEmpty (toLowerCase : String → String) (v : JsValue) : Except JsError String :=
  match v with
  | .undefined => .ok ""
  | .null => .ok ""
  | .str s => .ok (toLowerCase s)
  | _ => .error .typeError

/-- The call `tags.some((tag) => tag.toLowerCase().includes(searchQuery.toLowerCase()))` on the
items of an array, from left to right, stopping at the first tag that includes the query. -/
def someTagIncludes (toLowerCase : String → String) (searchQuery : String) :
    List JsValue → Except JsError Bool
  | [] => .ok false
  | tag :: rest =>
    match tag with
    | .str t =>
      if includes (toLowerCase t) (toLowerCase searchQuery) then .ok true
      else someTagIncludes toLowerCase searchQuery rest
    | _ => .error .typeError

/-- The expression `pass.tags?.some(...) || false`. -/
def tagsInclude (toLowerCase : String → String) (searchQuery : String) (tags : JsValue) :
    Except JsError Bool :=
  match tags with
  | .undefined => .ok false
  | .null => .ok false
  | .arr items => someTagIncludes toLowerCase searchQuery items
  | _ => .error .typeError

/-- The callback of `passwords.filter` in `filteredPasswords`: the three tests joined by `||`,
evaluated from left to right. -/
def Dashboard.matchesSearch (toLowerCase : String → String) (searchQuery : String)
    (pass : JsValue) : Except JsError Bool :=
  match getProp pass "platform" with
  | .error e => .error e
  | .ok platform =>
    match lowerOrEmpty toLowerCase platform with
    | .error e => .error e
    | .ok loweredPlatform =>
      if includes loweredPlatform (toLowerCase searchQuery) then .ok true
      else
        match getProp pass "email" with
        | .error e => .error e
        | .ok email =>
          match lowerOrEmpty toLowerCase email with
          | .error e => .error e
          | .ok loweredEmail =>
            if includes loweredEmail (toLowerCase searchQuery) then .ok true
            else
              match getProp pass "tags" with
              | .error e => .error e
              | .ok tags => tagsInclude toLowerCase searchQuery tags

/-- The value `filteredPasswords` of the dashboard: `passwords.filter(...)`, which calls the
callback on the entries in order and throws as soon as one call throws. -/
def Dashboard.filteredPasswords (toLowerCase : String → String) (searchQuery : String) :
    List JsValue → Except JsError (List JsValue)
  | [] => .ok []
  | pass :: rest =>
    match Dashboard.matchesSearch toLowerCase searchQuery pass with
    | .error e => .error e
    | .ok keep =>
      match Dashboard.filteredPasswords toLowerCase searchQuery rest with
      | .error e => .error e
      | .ok kept => .ok (if keep then pass :: kept else kept)

/-- The text of a field of a password entry, a missing field counting as empty. -/
def textOf (v : JsValue) : String :=
  match v with
  | .str s => s
  | _ => ""

/-- The tags of a password entry, missing tags counting as none. -/
def tagsOf (v : JsValue) : List String :=
  match v with
  | .arr items => items.map textOf
  | _ => []

/-- The field `key` of a password entry, `undefined` when the entry has none. -/
def fieldOf (pass : JsValue) (key : String) : JsValue :=
  match pass with
  | .obj props => (props.lookup key).getD .undefined
  | _ => .undefined

/-- The selection of the claim: the platform, the email or some tag of the entry contains the
query, ignoring letter case. -/
def containsQuery (toLowerCase : String → String) (searchQuery : String) (pass : JsValue) :
    Bool :=
  includes (toLowerCase (textOf (fieldOf pass "platform"))) (toLowerCase searchQuery)
  || includes (toLowerCase (textOf (fieldOf pass "email"))) (toLowerCase searchQuery)
  || (tagsOf (fieldOf pass "tags")).any
      (fun tag => includes (toLowerCase tag) (toLowerCase searchQuery))

/-- A field that is a string or is missing. -/
def isTextOrMissing (v : JsValue) : Bool :=
  match v with
  | .undefined => true
  | .null => true
  | .str _ => true
  | _ => false

/-- A `tags` field that is an array of strings or is missing. -/
def isTagsOrMissing (v : JsValue) : Bool :=
  match v with
  | .undefined => true
  | .null => true
  | .arr items => items.all (fun tag => match tag with | .str _ => true | _ => false)
  | _ => false

/-- A password entry whose platform and email are strings or missing and whose tags are an
array of strings or missing. -/
def isPasswordEntry (pass : JsValue) : Bool :=
  match pass with
  | .obj props =>
    isTextOrMissing ((props.lookup "platform").getD .undefined)
    && isTextOrMissing ((props.lookup "email").getD .undefined)
    && isTagsOrMissing ((props.lookup "tags").getD .undefined)
  | _ => false

/-! ## `App.jsx`: the route table -/

/-- What a route of `AppRoutes` renders. -/
inductive Element where
  | spinner : Element
  | navigate (target : String) (replace : Bool) : Element
  | login : Element
  | register : Element
  | forgotPassword : Element
  | dashboard (user : Option User) : Element
  | addPassword (user : Option User) : Element

/-- The table of `<Route path=... element=... />` of `AppRoutes`, in source order. -/
def AppRoutes.routes (s : AppState) : List (String × Element) :=
  [("/", if s.isAuthenticated then .navigate "/dashboard" true else .login),
   ("/login", if s.isAuthenticated then .navigate "/dashboard" true else .login),
   ("/register", if s.isAuthenticated then .navigate "/dashboard" true else .register),
   ("/forgot-password",
     if s.isAuthenticated then .navigate "/dashboard" true else .forgotPassword),
   ("/dashboard", if s.isAuthenticated then .dashboard s.user else .navigate "/login" true),
   ("/add-password",
     if s.isAuthenticated then .addPassword s.user else .navigate "/login" true)]

/-- What `AppRoutes` renders for the route of path `path`: the spinner while loading, then the
element of that route; `none` when the table has no such route. -/
def AppRoutes.render (s : AppState) (path : String) : Option Element :=
  if s.isLoading then some .spinner else (AppRoutes.routes s).lookup path

/-! ## Requests seen by the backend -/

/-- The bodies of the requests among a list of effects, oldest first. -/
def requests (effects : List Effect) : List JsValue :=
  effects.filterMap (fun e => match e with | .post body => some body | _ => none)

/-! ## Sample inputs -/

/-- A platform whose HTTP layer answers every request with the body `data`. -/
def answering (data : JsValue) : Platform :=
  { REACT_APP_API_KEY := none, post := fun _ => .ok data, stringify := fun _ => "user-json",
    toText := fun _ => "?", readAsText := fun _ => some "name,password" }

/-- A platform whose HTTP layer rejects every request with an error of message `message`. -/
def rejecting (message : String) : Platform :=
  { REACT_APP_API_KEY := none, post := fun _ => .error (.error message),
    stringify := fun _ => "user-json", toText := fun _ => "?",
    readAsText := fun _ => some "name,password" }

/-- A world with a stored `user` entry, at `/dashboard`, before any effect. -/
def sampleWorld : World :=
  { localStorage := [("user", "user-json")], href := "/dashboard", effects := [] }

/-- A logged-in user. -/
def sampleUser : User :=
  { email := .str "me@example.com", name := .str "Me", id := .num 7 }

/-- A dashboard showing an earlier suggestion of strength 40. -/
def sampleDashboard : DashboardState :=
  { darkMode := false, searchQuery := "", visiblePasswords := [], passwords := [],
    loading := false, editingPassword := .null, isImporting := false,
    suggestedPassword := .str "old", passwordStrength := .num 40 }

/-- A filled-in form with the default generator settings. -/
def sampleForm : AddPasswordState :=
  { formData := ⟨"site", "me@example.com", "secret", "", "work, email"⟩, showPassword := false,
    isLoading := false, generatorSettings := defaultGeneratorSettings }

/-- A response of code `'180'` carrying a suggestion and its strength. -/
def generated (password : String) (strength : ℚ) : JsValue :=
  .obj [("code", .str "180"),
    ("data", .obj [("password", .str password), ("strength", .num strength)])]

/-- The answer of a backend whose session has expired. -/
def expired : JsValue :=
  .obj [("code", .num 401)]

/-- A record being edited on the dashboard. -/
def sampleRecord : JsValue :=
  .obj [("id", .num 3), ("platform", .str "site"), ("password", .str "secret")]

/-- A CSV file chosen for import. -/
def sampleFile : File :=
  { type := "text/csv", name := "passwords.csv" }

/-- A double in `[0, 1)` just below `24 / 88` whose product with `88` is rounded up to
`24`. -/
def roundingDraw : ℚ := 1228254443828317 / 4503599627370496

/-! ## Helper lemmas -/

theorem symbols_data : symbols.data =
    ['!', '@', '#', '$', '%', '^', '&', '*', '(', ')', '_', '+', '-', '=', '[', ']',
     '{', '}', '|', ';', ':', ',', '.', '<', '>', '?'] := by
  decide

theorem chars_eq (g : GeneratorSettings) :
    chars g = lowercase ++ (if g.includeUppercase then uppercase else "")
      ++ (if g.includeNumbers then numbers else "")
      ++ (if g.includeSymbols then symbols else "") := by
  rcases g with ⟨l, u, n, s⟩
  cases u <;> cases n <;> cases s <;> rfl

theorem lowercase_data : lowercase.data =
    ['a', 'b', 'c', 'd', 'e', 'f', 'g', 'h', 'i', 'j', 'k', 'l', 'm',
     'n', 'o', 'p', 'q', 'r', 's', 't', 'u', 'v', 'w', 'x', 'y', 'z'] := by
  decide

theorem uppercase_data : uppercase.data =
    ['A', 'B', 'C', 'D', 'E', 'F', 'G', 'H', 'I', 'J', 'K', 'L', 'M',
     'N', 'O', 'P', 'Q', 'R', 'S', 'T', 'U', 'V', 'W', 'X', 'Y', 'Z'] := by
  decide

theorem numbers_data : numbers.data =
    ['0', '1', '2', '3', '4', '5', '6', '7', '8', '9'] := by
  decide

/-- The pool has 26 characters plus 26, 10 and 26 for the enabled classes. -/
theorem chars_length (g : GeneratorSettings) :
    (chars g).length = 26 + (if g.includeUppercase then 26 else 0)
      + (if g.includeNumbers then 10 else 0) + (if g.includeSymbols then 26 else 0) := by
  rcases g with ⟨l, u, n, s⟩
  cases u <;> cases n <;> cases s <;> rfl

theorem chars_length_pos (g : GeneratorSettings) : 0 < (chars g).length := by
  rw [chars_length]; omega

/-- The pool does not depend on the `length` setting. -/
theorem chars_length_irrelevant (l : Int) (u n s : Bool) :
    chars ⟨l, u, n, s⟩ = chars ⟨0, u, n, s⟩ := rfl

set_option maxRecDepth 100000 in
theorem chars_nodup (g : GeneratorSettings) : (chars g).data.Nodup := by
  rcases g with ⟨l, u, n, s⟩
  rw [chars_length_irrelevant]
  cases u <;> cases n <;> cases s <;> decide

/-! ### `charAt` -/

theorem charAt_of_lt (s : String) (pos : Int) (h0 : 0 ≤ pos) (h1 : pos.toNat < s.data.length) :
    charAt s pos = String.singleton (s.data.get ⟨pos.toNat, h1⟩) := by
  unfold charAt
  rw [if_neg (not_lt.mpr h0), List.getElem?_eq_getElem h1]
  rfl

theorem charAt_of_neg (s : String) (pos : Int) (h : pos < 0) : charAt s pos = "" := by
  unfold charAt
  rw [if_pos h]

theorem charAt_of_ge (s : String) (pos : Int) (h : s.data.length ≤ pos.toNat) :
    charAt s pos = "" := by
  unfold charAt
  split
  · rfl
  · rw [List.getElem?_eq_none h]

theorem charAt_data_subset (s : String) (pos : Int) :
    ∀ c ∈ (charAt s pos).data, c ∈ s.data := by
  intro c hc
  by_cases h0 : pos < 0
  · rw [charAt_of_neg s pos h0] at hc
    exact absurd hc (List.not_mem_nil c)
  · by_cases h1 : pos.toNat < s.data.length
    · rw [charAt_of_lt s pos (not_lt.mp h0) h1] at hc
      have hc2 : c = s.data.get ⟨pos.toNat, h1⟩ := List.mem_singleton.mp hc
      rw [hc2]
      exact List.get_mem _ _ _
    · rw [charAt_of_ge s pos (not_lt.mp h1)] at hc
      exact absurd hc (List.not_mem_nil c)

/-! ### Rounding to binary64 -/

theorem floor_le_roundHalfEven (y : ℚ) : Int.floor y ≤ roundHalfEven y := by
  unfold roundHalfEven
  split_ifs <;> omega

theorem roundHalfEven_le (y : ℚ) : roundHalfEven y ≤ Int.floor y + 1 := by
  unfold roundHalfEven
  split_ifs <;> omega

theorem roundHalfEven_sub_le (y : ℚ) : (roundHalfEven y : ℚ) - y ≤ 1 / 2 := by
  have h1 := Int.floor_le y
  unfold roundHalfEven
  split_ifs with ha hb hc
  · linarith
  · push_cast; linarith [Int.lt_floor_add_one y]
  · linarith
  · push_cast
    have : y - (Int.floor y : ℚ) = 1 / 2 := le_antisymm (not_lt.mp hb) (not_lt.mp ha)
    linarith

theorem sub_roundHalfEven_le (y : ℚ) : y - (roundHalfEven y : ℚ) ≤ 1 / 2 := by
  have h1 := Int.floor_le y
  unfold roundHalfEven
  split_ifs with ha hb hc
  · linarith
  · push_cast; linarith [Int.lt_floor_add_one y]
  · have : y - (Int.floor y : ℚ) = 1 / 2 := le_antisymm (not_lt.mp hb) (not_lt.mp ha)
    linarith
  · push_cast; linarith [Int.lt_floor_add_one y]

theorem ulp_pos (x : ℚ) : 0 < ulp x := by
  unfold ulp
  exact zpow_pos (by norm_num) _

theorem log_le_of_lt (x : ℚ) (e : ℤ) (he : 0 ≤ e) (h : x < (2 : ℚ) ^ (e + 1)) :
    Int.log 2 x ≤ e := by
  by_cases hx : 0 < x
  · have h2 : x < ((2 : ℕ) : ℚ) ^ (e + 1) := by simpa using h
    have := (Int.lt_zpow_iff_log_lt (by norm_num : 1 < 2) hx).mp h2
    omega
  · rw [Int.log_of_right_le_zero 2 (not_lt.mp hx)]
    exact he

theorem log_eq_of_bounds (x : ℚ) (e : ℤ) (h1 : (2 : ℚ) ^ e ≤ x) (h2 : x < (2 : ℚ) ^ (e + 1)) :
    Int.log 2 x = e := by
  have hx : 0 < x := lt_of_lt_of_le (zpow_pos (by norm_num) _) h1
  have h1' : ((2 : ℕ) : ℚ) ^ e ≤ x := by simpa using h1
  have h2' : x < ((2 : ℕ) : ℚ) ^ (e + 1) := by simpa using h2
  have ha := (Int.zpow_le_iff_le_log (by norm_num : 1 < 2) hx).mp h1'
  have hb := (Int.lt_zpow_iff_log_lt (by norm_num : 1 < 2) hx).mp h2'
  omega

/-- Below 128 the spacing of the doubles is at most `2 ^ (-46)`. -/
theorem ulp_le (x : ℚ) (h : x < 128) : ulp x ≤ (2 : ℚ) ^ (-46 : ℤ) := by
  have hlog : Int.log 2 x ≤ 6 := log_le_of_lt x 6 (by norm_num) (by norm_num; linarith)
  unfold ulp
  apply zpow_le_zpow_right₀ (by norm_num)
  have : max (Int.log 2 x) (-1022) ≤ 6 := max_le hlog (by norm_num)
  omega

/-- Below 128 every integer is a multiple of the spacing of the doubles. -/
theorem ulp_eq_inv_nat (x : ℚ) (h : x < 128) : ∃ N : ℕ, 0 < N ∧ ulp x = 1 / (N : ℚ) := by
  have hlog : Int.log 2 x ≤ 6 := log_le_of_lt x 6 (by norm_num) (by norm_num; linarith)
  have hmax : max (Int.log 2 x) (-1022) ≤ 6 := max_le hlog (by norm_num)
  refine ⟨2 ^ (52 - max (Int.log 2 x) (-1022)).toNat, by positivity, ?_⟩
  unfold ulp
  have hexp : max (Int.log 2 x) (-1022) - 52
      = -(((52 - max (Int.log 2 x) (-1022)).toNat : ℕ) : ℤ) := by
    rw [Int.toNat_of_nonneg (by omega)]
    ring
  rw [hexp, zpow_neg, zpow_natCast]
  push_cast
  rw [one_div]

theorem abs_roundDouble_sub_le (x : ℚ) :
    roundDouble x - x ≤ ulp x / 2 ∧ x - roundDouble x ≤ ulp x / 2 := by
  have hu := ulp_pos x
  have h1 := roundHalfEven_sub_le (x / ulp x)
  have h2 := sub_roundHalfEven_le (x / ulp x)
  have hx : x = x / ulp x * ulp x := by field_simp
  unfold roundDouble
  constructor
  · have := mul_le_mul_of_nonneg_right h1 hu.le
    nlinarith [this, hx]
  · have := mul_le_mul_of_nonneg_right h2 hu.le
    nlinarith [this, hx]

/-- Rounding does not go below an integer that the value has reached. -/
theorem le_roundDouble_of_int_le (x : ℚ) (m : ℤ) (h : x < 128) (hm : (m : ℚ) ≤ x) :
    (m : ℚ) ≤ roundDouble x := by
  obtain ⟨N, hN, hu⟩ := ulp_eq_inv_nat x h
  have hNq : (0 : ℚ) < (N : ℚ) := by exact_mod_cast hN
  unfold roundDouble
  rw [hu]
  have hy : x / (1 / (N : ℚ)) = x * N := by field_simp
  rw [hy]
  have h1 : ((m * (N : ℤ) : ℤ) : ℚ) ≤ x * N := by
    push_cast
    exact mul_le_mul_of_nonneg_right hm hNq.le
  have h2 : m * (N : ℤ) ≤ Int.floor (x * N) := Int.le_floor.mpr h1
  have h3 : m * (N : ℤ) ≤ roundHalfEven (x * N) := le_trans h2 (floor_le_roundHalfEven _)
  have h4 : ((m * (N : ℤ) : ℤ) : ℚ) ≤ (roundHalfEven (x * N) : ℚ) := by exact_mod_cast h3
  push_cast at h4
  rw [mul_one_div, le_div_iff₀ hNq]
  exact h4

/-- Rounding does not go above an integer that the value has not passed. -/
theorem roundDouble_le_of_le_int (x : ℚ) (m : ℤ) (h : x < 128) (hm : x ≤ (m : ℚ)) :
    roundDouble x ≤ (m : ℚ) := by
  obtain ⟨N, hN, hu⟩ := ulp_eq_inv_nat x h
  have hNq : (0 : ℚ) < (N : ℚ) := by exact_mod_cast hN
  unfold roundDouble
  rw [hu]
  have hy : x / (1 / (N : ℚ)) = x * N := by field_simp
  rw [hy]
  have h1 : x * N ≤ ((m * (N : ℤ) : ℤ) : ℚ) := by
    push_cast
    exact mul_le_mul_of_nonneg_right hm hNq.le
  have h3 : roundHalfEven (x * N) ≤ m * (N : ℤ) := by
    by_cases hlt : Int.floor (x * N) < m * (N : ℤ)
    · have := roundHalfEven_le (x * N)
      omega
    · have hge : m * (N : ℤ) ≤ Int.floor (x * N) := not_lt.mp hlt
      have h5 : ((m * (N : ℤ) : ℤ) : ℚ) ≤ x * N := Int.le_floor.mp hge
      have heq : x * N = ((m * (N : ℤ) : ℤ) : ℚ) := le_antisymm h1 h5
      have hfl : Int.floor (x * N) = m * (N : ℤ) := by
        rw [heq, Int.floor_intCast]
      unfold roundHalfEven
      rw [hfl, heq]
      simp
  have h4 : (roundHalfEven (x * N) : ℚ) ≤ ((m * (N : ℤ) : ℤ) : ℚ) := by exact_mod_cast h3
  push_cast at h4
  rw [mul_one_div, div_le_iff₀ hNq]
  exact h4

theorem roundDouble_nonneg (x : ℚ) (h0 : 0 ≤ x) (h : x < 128) : 0 ≤ roundDouble x := by
  have := le_roundDouble_of_int_le x 0 h (by simpa using h0)
  simpa using this

/-- Below 128 rounding moves a value by at most `2 ^ (-47)`. -/
theorem roundDouble_close (x : ℚ) (h : x < 128) :
    roundDouble x - x ≤ (2 : ℚ) ^ (-47 : ℤ) ∧ x - roundDouble x ≤ (2 : ℚ) ^ (-47 : ℤ) := by
  have h1 := abs_roundDouble_sub_le x
  have h2 := ulp_le x h
  obtain ⟨ha, hb⟩ := h1
  norm_num at h2 ⊢
  constructor <;> linarith

/-- The greatest double not above a value in `[0, 1)` is at most `1 - 2 ^ (-53)`. -/
theorem toDouble_bounds (r : ℚ) (h0 : 0 ≤ r) (h1 : r < 1) :
    0 ≤ toDouble r ∧ toDouble r ≤ r ∧ toDouble r ≤ 1 - (2 : ℚ) ^ (-53 : ℤ) := by
  have hu := ulp_pos r
  have hle : toDouble r ≤ r := by
    unfold toDouble
    have := Int.floor_le (r / ulp r)
    have h2 := mul_le_mul_of_nonneg_right this hu.le
    have hx : r / ulp r * ulp r = r := by field_simp
    linarith
  have hnn : 0 ≤ toDouble r := by
    unfold toDouble
    have : (0 : ℤ) ≤ Int.floor (r / ulp r) := Int.floor_nonneg.mpr (div_nonneg h0 hu.le)
    have h2 : (0 : ℚ) ≤ (Int.floor (r / ulp r) : ℚ) := by exact_mod_cast this
    exact mul_nonneg h2 hu.le
  refine ⟨hnn, hle, ?_⟩
  by_cases hhalf : r < 1 / 2
  · norm_num
    linarith
  · have hlog : Int.log 2 r = -1 :=
      log_eq_of_bounds r (-1) (by norm_num; linarith [not_lt.mp hhalf]) (by norm_num; linarith)
    have hulp : ulp r = (2 : ℚ) ^ (-53 : ℤ) := by
      unfold ulp
      rw [hlog]
      norm_num
    unfold toDouble
    rw [hulp]
    have hlt : r / (2 : ℚ) ^ (-53 : ℤ) < ((2 ^ 53 : ℤ) : ℚ) := by
      rw [div_lt_iff₀ (by positivity)]
      norm_num
      linarith
    have hfl : Int.floor (r / (2 : ℚ) ^ (-53 : ℤ)) < 2 ^ 53 := Int.floor_lt.mpr hlt
    have hfl2 : Int.floor (r / (2 : ℚ) ^ (-53 : ℤ)) ≤ 2 ^ 53 - 1 := by omega
    have hfl3 : (Int.floor (r / (2 : ℚ) ^ (-53 : ℤ)) : ℚ) ≤ ((2 ^ 53 - 1 : ℤ) : ℚ) := by
      exact_mod_cast hfl2
    have h5 := mul_le_mul_of_nonneg_right hfl3 (by positivity : (0 : ℚ) ≤ (2 : ℚ) ^ (-53 : ℤ))
    norm_num at h5 ⊢
    linarith

/-- A value that is below `n ≤ 88` by the relative margin `2 ^ (-53)` rounds below `n`. -/
theorem roundDouble_lt (x : ℚ) (n : ℕ)
    (hxn : x ≤ (1 - (2 : ℚ) ^ (-53 : ℤ)) * n) (hn : 0 < n) (hn88 : n ≤ 88) :
    roundDouble x < n := by
  have hnq : (1 : ℚ) ≤ (n : ℚ) := by exact_mod_cast hn
  have hn88q : (n : ℚ) ≤ 88 := by exact_mod_cast hn88
  have hx128 : x < 128 := by
    norm_num at hxn
    linarith
  by_cases hhalf : x < 1 / 2
  · have hc := (roundDouble_close x hx128).1
    norm_num at hc
    linarith
  · have hge : (1 : ℚ) / 2 ≤ x := not_lt.mp hhalf
    have hxpos : 0 < x := by linarith
    have hlogge : (-1 : ℤ) ≤ Int.log 2 x := by
      apply (Int.zpow_le_iff_le_log (by norm_num : 1 < 2) hxpos).mp
      norm_num
      linarith
    have hpow : ((2 : ℕ) : ℚ) ^ Int.log 2 x ≤ x :=
      Int.zpow_log_le_self (by norm_num) hxpos
    have hulp : ulp x = (2 : ℚ) ^ Int.log 2 x * (2 : ℚ) ^ (-52 : ℤ) := by
      unfold ulp
      rw [max_eq_left (by omega), sub_eq_add_neg, zpow_add₀ (by norm_num)]
    have hulp2 : ulp x ≤ x * (2 : ℚ) ^ (-52 : ℤ) := by
      rw [hulp]
      apply mul_le_mul_of_nonneg_right _ (by positivity)
      simpa using hpow
    have hr := (abs_roundDouble_sub_le x).1
    norm_num at hulp2 hxn ⊢
    linarith

/-- The rounded product of a double below 1 and a length `n ≤ 88` stays below `n`. -/
theorem roundDouble_mul_lt (d : ℚ) (n : ℕ) (h1 : d ≤ 1 - (2 : ℚ) ^ (-53 : ℤ))
    (hn : 0 < n) (hn88 : n ≤ 88) : roundDouble (d * n) < n := by
  have hnq : (0 : ℚ) ≤ (n : ℚ) := Nat.cast_nonneg n
  exact roundDouble_lt (d * n) n (mul_le_mul_of_nonneg_right h1 hnq) hn hn88

/-- The double returned for a draw is less than one spacing below the draw. -/
theorem toDouble_gt (r : ℚ) : r - ulp r < toDouble r := by
  have hu := ulp_pos r
  unfold toDouble
  have h1 := Int.lt_floor_add_one (r / ulp r)
  have h2 : r / ulp r * ulp r = r := by field_simp
  have h3 : (r / ulp r - 1) * ulp r < (Int.floor (r / ulp r) : ℚ) * ulp r :=
    mul_lt_mul_of_pos_right (by linarith) hu
  linarith [h3, h2, sub_mul (r / ulp r) 1 (ulp r)]

/-- The double returned for a draw is returned unchanged when drawn again: `toDouble` is the
identity on its values, the binary64 numbers. -/
theorem toDouble_idem (r : ℚ) : toDouble (toDouble r) = toDouble r := by
  have hu := ulp_pos r
  have hkey : ulp (toDouble r) = ulp r ∨ toDouble r = 0 := by
    by_cases hm : Int.floor (r / ulp r) = 0
    · right
      unfold toDouble
      rw [hm]
      simp
    left
    by_cases hr : r ≤ 0
    · have hd : toDouble r ≤ 0 := by
        unfold toDouble
        have h1 : r / ulp r ≤ 0 := div_nonpos_of_nonpos_of_nonneg hr hu.le
        have h2 : ((Int.floor (r / ulp r) : ℤ) : ℚ) ≤ 0 := le_trans (Int.floor_le _) h1
        exact mul_nonpos_of_nonpos_of_nonneg h2 hu.le
      unfold ulp
      rw [Int.log_of_right_le_zero 2 hr, Int.log_of_right_le_zero 2 hd]
    · push_neg at hr
      have hfl0 : 0 ≤ Int.floor (r / ulp r) := Int.floor_nonneg.mpr (div_nonneg hr.le hu.le)
      have hm1 : (1 : ℤ) ≤ Int.floor (r / ulp r) := by omega
      have hm1q : (1 : ℚ) ≤ ((Int.floor (r / ulp r) : ℤ) : ℚ) := by exact_mod_cast hm1
      have hdpos : 0 < toDouble r := by
        unfold toDouble
        exact mul_pos (by linarith) hu
      have hdle : toDouble r ≤ r := by
        unfold toDouble
        have h1 := Int.floor_le (r / ulp r)
        have h2 : r / ulp r * ulp r = r := by field_simp
        calc ((Int.floor (r / ulp r) : ℤ) : ℚ) * ulp r ≤ r / ulp r * ulp r :=
              mul_le_mul_of_nonneg_right h1 hu.le
          _ = r := h2
      have hlogle : Int.log 2 (toDouble r) ≤ Int.log 2 r := Int.log_mono_right hdpos hdle
      have hmax : max (Int.log 2 (toDouble r)) (-1022) = max (Int.log 2 r) (-1022) := by
        by_cases hsub : Int.log 2 r < -1022
        · rw [max_eq_right (by omega), max_eq_right (by omega)]
        · push_neg at hsub
          have hge : Int.log 2 r ≤ Int.log 2 (toDouble r) := by
            rw [← Int.zpow_le_iff_le_log (by norm_num : 1 < 2) hdpos]
            push_cast
            have hur : ulp r = (2 : ℚ) ^ (Int.log 2 r - 52) := by
              unfold ulp
              rw [max_eq_left hsub]
            have hpow : (2 : ℚ) ^ (Int.log 2 r) = (2 : ℚ) ^ (52 : ℤ) * ulp r := by
              rw [hur, ← zpow_add₀ (by norm_num : (2 : ℚ) ≠ 0)]
              congr 1
              ring
            have h2e : (2 : ℚ) ^ (Int.log 2 r) ≤ r := by
              have := Int.zpow_log_le_self (b := 2) (by norm_num) hr
              simpa using this
            have h3 : (2 : ℚ) ^ (52 : ℤ) ≤ r / ulp r := by
              rw [le_div_iff₀ hu, ← hpow]
              exact h2e
            have h4 : ((2 ^ 52 : ℤ) : ℚ) ≤ r / ulp r := by
              norm_num at h3 ⊢
              exact h3
            have h5 : (2 ^ 52 : ℤ) ≤ Int.floor (r / ulp r) := Int.le_floor.mpr h4
            have h6 : ((2 ^ 52 : ℤ) : ℚ) ≤ ((Int.floor (r / ulp r) : ℤ) : ℚ) := by
              exact_mod_cast h5
            have h7 : (2 : ℚ) ^ (Int.log 2 r) ≤ toDouble r := by
              rw [hpow]
              unfold toDouble
              have := mul_le_mul_of_nonneg_right h6 hu.le
              norm_num at this ⊢
              exact this
            simpa using h7
          rw [le_antisymm hlogle hge]
      unfold ulp
      rw [hmax]
  rcases hkey with hk | hk
  · have hdiv : toDouble r / ulp r = ((Int.floor (r / ulp r) : ℤ) : ℚ) := by
      unfold toDouble
      field_simp
    show ((Int.floor (toDouble r / ulp (toDouble r)) : ℤ) : ℚ) * ulp (toDouble r) = toDouble r
    rw [hk, hdiv, Int.floor_intCast]
    rfl
  · rw [hk]
    simp [toDouble]

/-! ### The index `Math.floor(Math.random() * chars.length)` -/

theorem randomIndex_nonneg (r : ℚ) (pool : String) (h0 : 0 ≤ r) (h1 : r < 1)
    (hlen : pool.length ≤ 88) : 0 ≤ randomIndex r pool := by
  unfold randomIndex
  obtain ⟨hd0, hdr, -⟩ := toDouble_bounds r h0 h1
  have hn0 : (0 : ℚ) ≤ (pool.length : ℚ) := Nat.cast_nonneg _
  have hn88 : (pool.length : ℚ) ≤ 88 := by exact_mod_cast hlen
  have hx : toDouble r * (pool.length : ℚ) < 128 := by nlinarith
  exact Int.floor_nonneg.mpr (roundDouble_nonneg _ (mul_nonneg hd0 hn0) hx)

theorem randomIndex_lt (r : ℚ) (pool : String) (h0 : 0 ≤ r) (h1 : r < 1)
    (hn : 0 < pool.length) (hlen : pool.length ≤ 88) :
    randomIndex r pool < (pool.length : Int) := by
  unfold randomIndex
  rw [Int.floor_lt]
  obtain ⟨-, -, hd1⟩ := toDouble_bounds r h0 h1
  have h := roundDouble_mul_lt (toDouble r) pool.length hd1 hn hlen
  exact_mod_cast h

theorem randomIndex_toNat_lt (r : ℚ) (pool : String) (h0 : 0 ≤ r) (h1 : r < 1)
    (hn : 0 < pool.length) (hlen : pool.length ≤ 88) :
    (randomIndex r pool).toNat < pool.data.length := by
  have ha := randomIndex_nonneg r pool h0 h1 hlen
  have hb := randomIndex_lt r pool h0 h1 hn hlen
  have hl : pool.length = pool.data.length := rfl
  omega

/-- A draw in `[0, 1)` on a non-empty pool of at most 88 characters selects exactly one
character of the pool. -/
theorem charAt_randomIndex (r : ℚ) (pool : String) (h0 : 0 ≤ r) (h1 : r < 1)
    (hn : 0 < pool.length) (hlen : pool.length ≤ 88) :
    charAt pool (randomIndex r pool)
      = String.singleton (pool.data.get ⟨(randomIndex r pool).toNat,
          randomIndex_toNat_lt r pool h0 h1 hn hlen⟩) :=
  charAt_of_lt pool _ (randomIndex_nonneg r pool h0 h1 hlen) _

/-- A draw whose exact product with the pool length is at least `2 ^ (-38)` away from the
integers `k` and `k + 1` selects index `k`, whatever the rounding. -/
theorem randomIndex_eq_of_margin (r : ℚ) (pool : String) (k : ℤ) (h0 : 0 ≤ r) (h1 : r < 1)
    (hlen : pool.length ≤ 88)
    (hlo : (k : ℚ) + (2 : ℚ) ^ (-38 : ℤ) ≤ r * (pool.length : ℚ))
    (hhi : r * (pool.length : ℚ) ≤ (k : ℚ) + 1 - (2 : ℚ) ^ (-38 : ℤ)) :
    randomIndex r pool = k := by
  unfold randomIndex
  obtain ⟨hd0, hdr, -⟩ := toDouble_bounds r h0 h1
  have hgt := toDouble_gt r
  have hu := ulp_le r (by linarith)
  have hn0 : (0 : ℚ) ≤ (pool.length : ℚ) := Nat.cast_nonneg _
  have hn88 : (pool.length : ℚ) ≤ 88 := by exact_mod_cast hlen
  have hx : toDouble r * (pool.length : ℚ) < 128 := by nlinarith
  have hclose := roundDouble_close (toDouble r * (pool.length : ℚ)) hx
  have hup : toDouble r * (pool.length : ℚ) ≤ r * (pool.length : ℚ) :=
    mul_le_mul_of_nonneg_right hdr hn0
  have hdown : r * (pool.length : ℚ) - 88 * (2 : ℚ) ^ (-46 : ℤ)
      ≤ toDouble r * (pool.length : ℚ) := by
    have hgap : r - toDouble r ≤ (2 : ℚ) ^ (-46 : ℤ) := by linarith
    have hgap0 : 0 ≤ r - toDouble r := by linarith
    have := mul_le_mul hgap hn88 hn0 (by positivity : (0 : ℚ) ≤ (2 : ℚ) ^ (-46 : ℤ))
    nlinarith
  obtain ⟨hc1, hc2⟩ := hclose
  rw [Int.floor_eq_iff]
  norm_num at hlo hhi hdown hc1 hc2 ⊢
  constructor <;> linarith

theorem chars_length_le (g : GeneratorSettings) : (chars g).length ≤ 88 := by
  rw [chars_length]
  split <;> split <;> split <;> omega

/-! ### The loop -/

/-- Closed form of the loop: started at counter `i` with `k` iterations left, it appends to the
accumulator the results of `charAt` for the draws `i, i + 1, ..., i + k - 1`, in this order. -/
theorem passwordLoop_data (g : GeneratorSettings) (pool : String) (random : Nat → ℚ) :
    ∀ (k i : Nat) (password : String), (g.length - (i : Int)).toNat = k →
      (passwordLoop g pool random i password).data
        = password.data ++ ((List.range' i k).map
            (fun j => (charAt pool (randomIndex (random j) pool)).data)).flatten := by
  intro k
  induction k with
  | zero =>
    intro i password hk
    rw [passwordLoop, if_neg (by omega)]
    simp
  | succ k ih =>
    intro i password hk
    rw [passwordLoop, if_pos (by omega), ih (i + 1) _ (by omega)]
    simp [List.range'_succ, String.data_append, List.append_assoc]

theorem generatedPassword_data (g : GeneratorSettings) (random : Nat → ℚ) :
    (generatedPassword g random).data
      = ((List.range' 0 g.length.toNat).map
          (fun j => (charAt (chars g) (randomIndex (random j) (chars g))).data)).flatten := by
  unfold generatedPassword
  rw [passwordLoop_data g (chars g) random g.length.toNat 0 "" (by simp)]
  rfl

/-- With every draw in `[0, 1)` each iteration appends exactly one character. -/
theorem generatedPassword_length (g : GeneratorSettings) (random : Nat → ℚ)
    (hr : ∀ i, 0 ≤ random i ∧ random i < 1) :
    (generatedPassword g random).length = g.length.toNat := by
  have h : (generatedPassword g random).length = (generatedPassword g random).data.length := rfl
  rw [h, generatedPassword_data, List.length_flatten, List.map_map]
  have hone : (List.length ∘ fun j => (charAt (chars g) (randomIndex (random j) (chars g))).data)
      = fun _ => 1 := by
    funext j
    simp only [Function.comp]
    rw [charAt_randomIndex _ _ (hr j).1 (hr j).2 (chars_length_pos g) (chars_length_le g)]
    rfl
  rw [hone]
  simp

/-- Whatever the draws, the loop only ever appends characters of the pool. -/
theorem generatedPassword_mem_chars (g : GeneratorSettings) (random : Nat → ℚ) :
    ∀ c ∈ (generatedPassword g random).data, c ∈ (chars g).data := by
  intro c hc
  rw [generatedPassword_data, List.mem_flatten] at hc
  obtain ⟨l, hl, hcl⟩ := hc
  rw [List.mem_map] at hl
  obtain ⟨j, _, hj⟩ := hl
  rw [← hj] at hcl
  exact charAt_data_subset _ _ c hcl

/-- Membership in the pool, class by class. -/
theorem mem_chars_iff (g : GeneratorSettings) (c : Char) :
    c ∈ (chars g).data ↔
      c ∈ lowercase.data ∨ (g.includeUppercase = true ∧ c ∈ uppercase.data)
        ∨ (g.includeNumbers = true ∧ c ∈ numbers.data)
        ∨ (g.includeSymbols = true ∧ c ∈ symbols.data) := by
  rw [chars_eq]
  rcases g with ⟨l, u, n, s⟩
  cases u <;> cases n <;> cases s <;>
    simp [String.data_append, List.mem_append, or_assoc]

theorem uppercase_disjoint :
    ∀ c ∈ uppercase.data, c ∉ lowercase.data ∧ c ∉ numbers.data ∧ c ∉ symbols.data := by
  decide

theorem numbers_disjoint :
    ∀ c ∈ numbers.data, c ∉ lowercase.data ∧ c ∉ uppercase.data ∧ c ∉ symbols.data := by
  decide

theorem symbols_disjoint :
    ∀ c ∈ symbols.data, c ∉ lowercase.data ∧ c ∉ uppercase.data ∧ c ∉ numbers.data := by
  decide

theorem lowercase_range : ∀ c ∈ lowercase.data, 'a' ≤ c ∧ c ≤ 'z' := by
  decide

theorem singleton_inj (c d : Char) : String.singleton c = String.singleton d ↔ c = d := by
  constructor
  · intro h
    have h2 : (String.singleton c).data = (String.singleton d).data := congrArg String.data h
    exact List.singleton_injective h2
  · intro h
    rw [h]

/-! ## The generator: length and alphabet of the result -/

/-- C1: for a policy whose length is a non-negative integer `L`, any class flags and any
sequence of draws in `[0, 1)`, the password stored by `generatePassword` has exactly `L`
characters. -/
theorem generatePassword_length (formData : FormData) (g : GeneratorSettings)
    (random : Nat → ℚ) (hL : 0 ≤ g.length) (hr : ∀ i, 0 ≤ random i ∧ random i < 1) :
    ((generatePassword formData g random).password.length : Int) = g.length := by
  show ((generatedPassword g random).length : Int) = g.length
  rw [generatedPassword_length g random hr]
  exact Int.toNat_of_nonneg hL

theorem generatePassword_length_witness :
    (0 : Int) ≤ defaultGeneratorSettings.length ∧
    (∀ i : Nat, (0 : ℚ) ≤ (fun _ => (1 / 2 : ℚ)) i ∧ (fun _ => (1 / 2 : ℚ)) i < 1) ∧
    ((generatePassword ⟨"", "", "", "", ""⟩ defaultGeneratorSettings
        (fun _ => (1 / 2 : ℚ))).password.length : Int) = 12 :=
  ⟨by decide, fun _ => by norm_num,
    generatePassword_length ⟨"", "", "", "", ""⟩ defaultGeneratorSettings (fun _ => (1 / 2 : ℚ))
      (by decide) (fun _ => by norm_num)⟩

/-- C2: whatever the policy and the draws, every character of the password stored by
`generatePassword` belongs to the pool of that policy, which holds the lowercase letters and
exactly the enabled optional classes; a character of a disabled class never appears. -/
theorem generatePassword_chars_in_pool (formData : FormData) (g : GeneratorSettings)
    (random : Nat → ℚ) (c : Char)
    (hc : c ∈ (generatePassword formData g random).password.data) :
    c ∈ (chars g).data
      ∧ (c ∈ lowercase.data ∨ (g.includeUppercase = true ∧ c ∈ uppercase.data)
          ∨ (g.includeNumbers = true ∧ c ∈ numbers.data)
          ∨ (g.includeSymbols = true ∧ c ∈ symbols.data))
      ∧ (g.includeUppercase = false → c ∉ uppercase.data)
      ∧ (g.includeNumbers = false → c ∉ numbers.data)
      ∧ (g.includeSymbols = false → c ∉ symbols.data) := by
  have hpool : c ∈ (chars g).data := generatedPassword_mem_chars g random c hc
  have hcls := (mem_chars_iff g c).mp hpool
  refine ⟨hpool, hcls, ?_, ?_, ?_⟩
  · intro hu hmem
    have hd := uppercase_disjoint c hmem
    rcases hcls with h | h | h | h
    · exact hd.1 h
    · rw [hu] at h; exact Bool.false_ne_true h.1
    · exact hd.2.1 h.2
    · exact hd.2.2 h.2
  · intro hu hmem
    have hd := numbers_disjoint c hmem
    rcases hcls with h | h | h | h
    · exact hd.1 h
    · exact hd.2.1 h.2
    · rw [hu] at h; exact Bool.false_ne_true h.1
    · exact hd.2.2 h.2
  · intro hu hmem
    have hd := symbols_disjoint c hmem
    rcases hcls with h | h | h | h
    · exact hd.1 h
    · exact hd.2.1 h.2
    · exact hd.2.2 h.2
    · rw [hu] at h; exact Bool.false_ne_true h.1

/-- With length 3, uppercase and digits enabled and the draws `0, 1/3, 2/3`, the loop picks the
indices `0, 20, 41` of the 62-character pool. -/
theorem generatedPassword_example :
    generatedPassword ⟨3, true, true, false⟩ (fun i => (i : ℚ) / 3) = "auP" := by
  apply String.ext
  rw [generatedPassword_data]
  have hlen : (chars ⟨3, true, true, false⟩).length = 62 := rfl
  have h0 : randomIndex (((0 : Nat) : ℚ) / 3) (chars ⟨3, true, true, false⟩) = 0 := by
    unfold randomIndex toDouble roundDouble
    norm_num [roundHalfEven]
  have h1 : randomIndex (((1 : Nat) : ℚ) / 3) (chars ⟨3, true, true, false⟩) = 20 := by
    apply randomIndex_eq_of_margin _ _ 20 (by norm_num) (by norm_num) (by decide)
    · rw [hlen]; norm_num
    · rw [hlen]; norm_num
  have h2 : randomIndex (((2 : Nat) : ℚ) / 3) (chars ⟨3, true, true, false⟩) = 41 := by
    apply randomIndex_eq_of_margin _ _ 41 (by norm_num) (by norm_num) (by decide)
    · rw [hlen]; norm_num
    · rw [hlen]; norm_num
  simp only [Int.toNat_ofNat, List.range', List.map, h0, h1, h2]
  rfl

theorem generatePassword_chars_in_pool_witness :
    'P' ∈ (generatePassword ⟨"mail", "me", "old", "", ""⟩ ⟨3, true, true, false⟩
        (fun i => (i : ℚ) / 3)).password.data
      ∧ 'P' ∈ (chars ⟨3, true, true, false⟩).data
      ∧ 'P' ∉ symbols.data := by
  have hmem : 'P' ∈ (generatePassword ⟨"mail", "me", "old", "", ""⟩ ⟨3, true, true, false⟩
      (fun i => (i : ℚ) / 3)).password.data := by
    show 'P' ∈ (generatedPassword ⟨3, true, true, false⟩ (fun i => (i : ℚ) / 3)).data
    rw [generatedPassword_example]
    decide
  have h := generatePassword_chars_in_pool ⟨"mail", "me", "old", "", ""⟩
    ⟨3, true, true, false⟩ (fun i => (i : ℚ) / 3) 'P' hmem
  exact ⟨hmem, h.1, h.2.2.2.2 rfl⟩

/-- C3: with the three optional classes disabled, for every length and every sequence of
draws, the password stored by `generatePassword` consists solely of the 26 lowercase
letters `a` to `z`. -/
theorem generatePassword_lowercase_only (formData : FormData) (g : GeneratorSettings)
    (random : Nat → ℚ) (hu : g.includeUppercase = false) (hn : g.includeNumbers = false)
    (hs : g.includeSymbols = false) :
    ∀ c ∈ (generatePassword formData g random).password.data,
      c ∈ lowercase.data ∧ 'a' ≤ c ∧ c ≤ 'z' := by
  intro c hc
  have hcls := (mem_chars_iff g c).mp (generatedPassword_mem_chars g random c hc)
  rw [hu, hn, hs] at hcls
  have hlow : c ∈ lowercase.data := by
    rcases hcls with h | h | h | h
    · exact h
    · exact absurd h.1 Bool.false_ne_true
    · exact absurd h.1 Bool.false_ne_true
    · exact absurd h.1 Bool.false_ne_true
  exact ⟨hlow, lowercase_range c hlow⟩

theorem generatePassword_lowercase_only_witness :
    (false = false ∧ false = false ∧ false = false) ∧ ∀ c ∈ (generatePassword ⟨"mail", "me", "", "", ""⟩ ⟨8, false, false, false⟩
        (fun i => (i : ℚ) / 10)).password.data,
      c ∈ lowercase.data ∧ 'a' ≤ c ∧ c ≤ 'z' :=
  ⟨⟨rfl, rfl, rfl⟩,
    generatePassword_lowercase_only ⟨"mail", "me", "", "", ""⟩ ⟨8, false, false, false⟩
      (fun i => (i : ℚ) / 10) rfl rfl rfl⟩

/-! ## The generator: the character pool -/

/-- C4: the pool is the concatenation, in this order, of the 26 lowercase letters, the 26
uppercase letters exactly when `includeUppercase`, the 10 digits exactly when `includeNumbers`,
and the symbol string exactly when `includeSymbols`. -/
theorem chars_assembly (g : GeneratorSettings) :
    chars g = lowercase ++ (if g.includeUppercase then uppercase else "")
        ++ (if g.includeNumbers then numbers else "")
        ++ (if g.includeSymbols then symbols else "")
      ∧ lowercase.data = (List.range 26).map (fun i => Char.ofNat ('a'.toNat + i))
      ∧ uppercase.data = (List.range 26).map (fun i => Char.ofNat ('A'.toNat + i))
      ∧ numbers.data = (List.range 10).map (fun i => Char.ofNat ('0'.toNat + i))
      ∧ symbols = "!@#$%^&*()_+-=[]\x7b\x7d|;:,.<>?" :=
  ⟨chars_eq g, by decide, by decide, by decide, rfl⟩

/-- C5, as stated, fails: the symbol string appended by `generatePassword` does not have 19
characters. -/
theorem symbols_length_ne_nineteen : symbols.length ≠ 19 := by
  decide

/-- C5, amended: the symbol string appended by `generatePassword` when `includeSymbols` is
true has exactly 26 characters, pairwise distinct. -/
theorem symbols_length : symbols.length = 26 ∧ symbols.data.Nodup := by
  decide

/-- C6, as stated, fails: with the default settings (length 12 and the three classes enabled)
the pool does not have 83 characters. -/
theorem default_pool_length_ne_eighty_three :
    (chars defaultGeneratorSettings).length ≠ 83 := by
  decide

/-- C6, amended: with the three optional classes enabled, as in the default settings of
length 12, the pool has exactly 88 characters (26 + 26 + 10 + 26). -/
theorem all_classes_pool_length (length : Int) :
    (chars ⟨length, true, true, true⟩).length = 88
      ∧ defaultGeneratorSettings = ⟨12, true, true, true⟩
      ∧ (chars defaultGeneratorSettings).length = 88 :=
  ⟨rfl, rfl, rfl⟩

/-- C9: whatever the three optional flags, the pool is non-empty and has at least 26
characters. -/
theorem chars_length_ge (g : GeneratorSettings) :
    26 ≤ (chars g).length ∧ chars g ≠ "" := by
  have h := chars_length g
  refine ⟨by omega, ?_⟩
  intro he
  rw [he] at h
  have h0 : ("" : String).length = 0 := rfl
  omega

/-! ## The generator: selection of one character -/

/-- C7, as stated, fails: the draw `r = 1228254443828317 / 2 ^ 52` is a double in `[0, 1)` with
`23 / 88 ≤ r < 24 / 88`, yet on the default pool of 88 characters the loop body selects index
24, the character `y`, and not `pool[23] = x`: the exact product `24 - 2 ^ (-49)` lies
halfway between two doubles and is rounded to `24`. -/
theorem selection_interval_rounding :
    (0 ≤ roundingDraw ∧ roundingDraw < 1)
      ∧ toDouble roundingDraw = roundingDraw
      ∧ ((23 : ℚ) / ((chars defaultGeneratorSettings).length : ℚ) ≤ roundingDraw
          ∧ roundingDraw < ((23 : ℚ) + 1) / ((chars defaultGeneratorSettings).length : ℚ))
      ∧ randomIndex roundingDraw (chars defaultGeneratorSettings) = 24
      ∧ charAt (chars defaultGeneratorSettings)
          (randomIndex roundingDraw (chars defaultGeneratorSettings)) = "y"
      ∧ charAt (chars defaultGeneratorSettings) 23 = "x" := by
  have hlen : (chars defaultGeneratorSettings).length = 88 := rfl
  have hlog : Int.log 2 roundingDraw = -2 :=
    log_eq_of_bounds _ (-2) (by norm_num [roundingDraw]) (by norm_num [roundingDraw])
  have hd : toDouble roundingDraw = roundingDraw := by
    unfold toDouble ulp
    rw [hlog]
    norm_num [roundingDraw]
  have hlog2 : Int.log 2 (roundingDraw * 88) = 4 :=
    log_eq_of_bounds _ 4 (by norm_num [roundingDraw]) (by norm_num [roundingDraw])
  have hidx : randomIndex roundingDraw (chars defaultGeneratorSettings) = 24 := by
    unfold randomIndex
    rw [hd, hlen]
    unfold roundDouble ulp
    push_cast
    rw [hlog2]
    norm_num [roundingDraw, roundHalfEven]
  refine ⟨⟨by norm_num [roundingDraw], by norm_num [roundingDraw]⟩, hd, ?_, hidx, ?_, rfl⟩
  · rw [hlen]
    norm_num [roundingDraw]
  · rw [hidx]
    rfl

/-- C7, amended: the characters of the pool are pairwise distinct and, for an index `k` below
the pool length `n` and a draw in `[0, 1)` returned as the double `d`, the loop body selects
index `k`, that is the character `pool[k]`, exactly when the product rounded to a double lies
in `[k, k + 1)`.  Every `d` with `k / n ≤ d < (k + 1) / n - 2 ^ (-47) / n` selects `pool[k]`,
every `d` that selects `pool[k]` has `k / n - 2 ^ (-47) / n ≤ d < (k + 1) / n`, and a `d`
with `k / n ≤ d < (k + 1) / n` selects `pool[k]` or `pool[k + 1]`: the draws of each
character fill an interval of length `1 / n` up to `2 ^ (-47) / n` at its ends. -/
theorem selection_interval (g : GeneratorSettings) (k : Nat)
    (hk : k < (chars g).data.length) (r : ℚ) (h0 : 0 ≤ r) (h1 : r < 1) :
    (chars g).data.Nodup
      ∧ (randomIndex r (chars g) = (k : Int)
          ↔ (k : ℚ) ≤ roundDouble (toDouble r * ((chars g).length : ℚ))
            ∧ roundDouble (toDouble r * ((chars g).length : ℚ)) < (k : ℚ) + 1)
      ∧ (charAt (chars g) (randomIndex r (chars g))
            = String.singleton ((chars g).data.get ⟨k, hk⟩)
          ↔ randomIndex r (chars g) = (k : Int))
      ∧ ((k : ℚ) / ((chars g).length : ℚ) ≤ toDouble r
            ∧ toDouble r < ((k : ℚ) + 1) / ((chars g).length : ℚ)
                - (2 : ℚ) ^ (-47 : ℤ) / ((chars g).length : ℚ)
          → randomIndex r (chars g) = (k : Int))
      ∧ (randomIndex r (chars g) = (k : Int)
          → (k : ℚ) / ((chars g).length : ℚ) - (2 : ℚ) ^ (-47 : ℤ) / ((chars g).length : ℚ)
              ≤ toDouble r
            ∧ toDouble r < ((k : ℚ) + 1) / ((chars g).length : ℚ))
      ∧ ((k : ℚ) / ((chars g).length : ℚ) ≤ toDouble r
            ∧ toDouble r < ((k : ℚ) + 1) / ((chars g).length : ℚ)
          → randomIndex r (chars g) = (k : Int) ∨ randomIndex r (chars g) = (k : Int) + 1) := by
  have hpos := chars_length_pos g
  have hle := chars_length_le g
  have hnd := chars_nodup g
  obtain ⟨hd0, hdr, -⟩ := toDouble_bounds r h0 h1
  have hn : (0 : ℚ) < ((chars g).length : ℚ) := by exact_mod_cast hpos
  have hn88 : ((chars g).length : ℚ) ≤ 88 := by exact_mod_cast hle
  have hx : toDouble r * ((chars g).length : ℚ) < 128 := by nlinarith
  obtain ⟨hc1, hc2⟩ := roundDouble_close _ hx
  have hidx : randomIndex r (chars g) = (k : Int)
      ↔ (k : ℚ) ≤ roundDouble (toDouble r * ((chars g).length : ℚ))
        ∧ roundDouble (toDouble r * ((chars g).length : ℚ)) < (k : ℚ) + 1 := by
    unfold randomIndex
    rw [Int.floor_eq_iff]
    push_cast
    rfl
  have hup : ∀ m : ℤ, (m : ℚ) ≤ toDouble r * ((chars g).length : ℚ)
      → (m : ℚ) ≤ roundDouble (toDouble r * ((chars g).length : ℚ)) :=
    fun m hm => le_roundDouble_of_int_le _ m hx hm
  refine ⟨hnd, hidx, ?_, ?_, ?_, ?_⟩
  · rw [charAt_randomIndex r (chars g) h0 h1 hpos hle, singleton_inj,
      List.Nodup.get_inj_iff hnd, Fin.mk.injEq]
    have hnn := randomIndex_nonneg r (chars g) h0 h1 hle
    omega
  · rintro ⟨hlo, hhi⟩
    rw [hidx]
    rw [div_le_iff₀ hn] at hlo
    rw [← sub_div, lt_div_iff₀ hn] at hhi
    have h3 := hup (k : ℤ) (by exact_mod_cast hlo)
    norm_num at hhi hc1 h3 ⊢
    exact ⟨h3, by linarith⟩
  · intro hsel
    rw [hidx] at hsel
    obtain ⟨hlo, hhi⟩ := hsel
    rw [← sub_div, div_le_iff₀ hn, lt_div_iff₀ hn]
    constructor
    · norm_num at hc1 ⊢
      linarith
    · by_contra hcon
      have h3 := hup ((k : ℤ) + 1) (by push_cast; linarith)
      push_cast at h3
      linarith
  · rintro ⟨hlo, hhi⟩
    rw [div_le_iff₀ hn] at hlo
    rw [lt_div_iff₀ hn] at hhi
    have h3 := hup (k : ℤ) (by exact_mod_cast hlo)
    have h4 := roundDouble_le_of_le_int _ ((k : ℤ) + 1) hx (by push_cast; linarith)
    have h5 : (k : ℤ) ≤ randomIndex r (chars g) := by
      unfold randomIndex
      exact Int.le_floor.mpr h3
    have h6 : randomIndex r (chars g) ≤ (k : ℤ) + 1 := by
      unfold randomIndex
      have := Int.floor_le (roundDouble (toDouble r * ((chars g).length : ℚ)))
      have h7 : ((Int.floor (roundDouble (toDouble r * ((chars g).length : ℚ))) : ℤ) : ℚ)
          ≤ (((k : ℤ) + 1 : ℤ) : ℚ) := le_trans this h4
      exact_mod_cast h7
    omega

theorem selection_interval_witness :
    (44 < (chars defaultGeneratorSettings).data.length ∧ (0 : ℚ) ≤ 1 / 2 ∧ (1 / 2 : ℚ) < 1)
      ∧ toDouble (1 / 2) = 1 / 2
      ∧ randomIndex (1 / 2) (chars defaultGeneratorSettings) = 44
      ∧ charAt (chars defaultGeneratorSettings)
          (randomIndex (1 / 2) (chars defaultGeneratorSettings)) = "S" := by
  have h := selection_interval defaultGeneratorSettings 44 (by decide) (1 / 2)
    (by norm_num) (by norm_num)
  have hlen : (chars defaultGeneratorSettings).length = 88 := rfl
  have hlog : Int.log 2 (1 / 2 : ℚ) = -1 :=
    log_eq_of_bounds _ (-1) (by norm_num) (by norm_num)
  have hd : toDouble (1 / 2) = 1 / 2 := by
    unfold toDouble ulp
    rw [hlog]
    norm_num
  have hidx : randomIndex (1 / 2) (chars defaultGeneratorSettings) = ((44 : Nat) : Int) := by
    apply h.2.2.2.1
    rw [hd, hlen]
    norm_num
  refine ⟨⟨by decide, by norm_num, by norm_num⟩, hd, hidx, ?_⟩
  rw [h.2.2.1.mpr hidx]
  rfl

/-- C10: for every policy and every draw `r` in `[0, 1)` the index `floor (r * chars.length)`
is a valid index of the pool, so `charAt` returns a one-character string taken from the pool
and never the empty string. -/
theorem randomIndex_valid (g : GeneratorSettings) (r : ℚ) (h0 : 0 ≤ r) (h1 : r < 1) :
    0 ≤ randomIndex r (chars g)
      ∧ randomIndex r (chars g) < ((chars g).length : Int)
      ∧ charAt (chars g) (randomIndex r (chars g)) ≠ ""
      ∧ ∃ c ∈ (chars g).data, charAt (chars g) (randomIndex r (chars g)) = String.singleton c := by
  have hpos := chars_length_pos g
  have hle := chars_length_le g
  have hc := charAt_randomIndex r (chars g) h0 h1 hpos hle
  refine ⟨randomIndex_nonneg r (chars g) h0 h1 hle, randomIndex_lt r (chars g) h0 h1 hpos hle,
    ?_, ⟨_, List.get_mem _ _ _, hc⟩⟩
  rw [hc]
  intro he
  have h2 : (1 : Nat) = 0 := congrArg String.length he
  exact Nat.one_ne_zero h2

theorem randomIndex_valid_witness :
    ((0 : ℚ) ≤ 99 / 100 ∧ (99 / 100 : ℚ) < 1)
      ∧ randomIndex (99 / 100) (chars defaultGeneratorSettings) < 88
      ∧ charAt (chars defaultGeneratorSettings)
          (randomIndex (99 / 100) (chars defaultGeneratorSettings)) ≠ "" :=
  have h := randomIndex_valid defaultGeneratorSettings (99 / 100) (by norm_num) (by norm_num)
  ⟨⟨by norm_num, by norm_num⟩, h.2.1, h.2.2.1⟩

/-! ## The strength label -/

/-- C8: for an integer score `s` with `0 ≤ s ≤ 100`, `getStrengthText` is `Weak` iff `s ≤ 25`,
`Fair` iff `26 ≤ s ≤ 50`, `Good` iff `51 ≤ s ≤ 75` and `Strong` iff `76 ≤ s ≤ 100`; the eight
boundary values 10, 25, 26, 50, 51, 75, 76, 100 get the labels of the specification. -/
theorem getStrengthText_tiers (s : Int) (h0 : 0 ≤ s) (h100 : s ≤ 100) :
    (getStrengthText s = "Weak" ↔ s ≤ 25)
      ∧ (getStrengthText s = "Fair" ↔ 26 ≤ s ∧ s ≤ 50)
      ∧ (getStrengthText s = "Good" ↔ 51 ≤ s ∧ s ≤ 75)
      ∧ (getStrengthText s = "Strong" ↔ 76 ≤ s ∧ s ≤ 100)
      ∧ getStrengthText 10 = "Weak" ∧ getStrengthText 25 = "Weak"
      ∧ getStrengthText 26 = "Fair" ∧ getStrengthText 50 = "Fair"
      ∧ getStrengthText 51 = "Good" ∧ getStrengthText 75 = "Good"
      ∧ getStrengthText 76 = "Strong" ∧ getStrengthText 100 = "Strong" := by
  refine ⟨?_, ?_, ?_, ?_, by decide, by decide, by decide, by decide, by decide, by decide,
    by decide, by decide⟩
  all_goals
    unfold getStrengthText
    split_ifs
    all_goals
      constructor
      · intro h
        first
          | omega
          | exact absurd h (by decide)
      · intro h
        first
          | rfl
          | omega

theorem getStrengthText_tiers_witness :
    ((0 : Int) ≤ 26 ∧ (26 : Int) ≤ 100) ∧ (getStrengthText 26 = "Fair" ↔ (26 : Int) ≤ 26 ∧ (26 : Int) ≤ 50) :=
  ⟨⟨by decide, by decide⟩, (getStrengthText_tiers 26 (by decide) (by decide)).2.1⟩

/-! ## Helper lemmas: values, storage and the session check -/

/-- A property read that succeeds for one name succeeds for every name. -/
theorem getProp_ok_of_ok (v : JsValue) (key key2 : String) (a : JsValue)
    (h : getProp v key = .ok a) : ∃ b, getProp v key2 = .ok b := by
  cases v <;> simp [getProp] at h ⊢

theorem lookup_filter_ne (key : String) (l : List (String × String)) :
    (l.filter (fun p => p.1 != key)).lookup key = none := by
  induction l with
  | nil => rfl
  | cons q rest ih =>
    obtain ⟨a, b⟩ := q
    by_cases hq : a = key
    · simp [List.filter_cons, hq, ih]
    · have hne : (key == a) = false := by
        simpa using fun h => hq h.symm
      rw [List.filter_cons]
      simp only [bne_iff_ne, ne_eq, hq, not_false_eq_true, decide_True, ↓reduceIte]
      rw [List.lookup_cons, hne]
      exact ih

theorem lookup_filter_append (key value : String) (l : List (String × String)) :
    (l.filter (fun p => p.1 != key) ++ [(key, value)]).lookup key = some value := by
  induction l with
  | nil => simp [List.lookup]
  | cons q rest ih =>
    obtain ⟨a, b⟩ := q
    by_cases hq : a = key
    · simp [List.filter_cons, hq, ih]
    · have hne : (key == a) = false := by
        simpa using fun h => hq h.symm
      rw [List.filter_cons]
      simp only [bne_iff_ne, ne_eq, hq, not_false_eq_true, decide_True, ↓reduceIte]
      rw [List.cons_append, List.lookup_cons, hne]
      exact ih

theorem getItem_removeItem (w : World) (key : String) :
    (w.removeItem key).getItem key = none :=
  lookup_filter_ne key w.localStorage

theorem getItem_setItem (w : World) (key value : String) :
    (w.setItem key value).getItem key = some value :=
  lookup_filter_append key value w.localStorage

/-- With no iteration to run, the loop leaves the accumulator as it is. -/
theorem generatedPassword_of_nonpos (g : GeneratorSettings) (random : Nat → ℚ)
    (h : g.length ≤ 0) : generatedPassword g random = "" := by
  unfold generatedPassword
  rw [passwordLoop, if_neg (by omega)]

/-! ## The generator: non-positive lengths -/

/-- C11, as stated, fails: with the length setting 0 the handler `generatePassword` of
`AddPassword` raises no error; it completes and stores the empty password. -/
theorem generatePassword_zero_length_completes :
    AddPassword.generatePassword (fun _ => 0)
        ⟨⟨"site", "me", "old", "", ""⟩, false, false, ⟨0, true, true, true⟩⟩
      = .ok ⟨⟨"site", "me", "", "", ""⟩, false, false, ⟨0, true, true, true⟩⟩
    ∧ ¬ ∃ e, AddPassword.generatePassword (fun _ => 0)
        ⟨⟨"site", "me", "old", "", ""⟩, false, false, ⟨0, true, true, true⟩⟩ = .error e := by
  have h : generatedPassword ⟨0, true, true, true⟩ (fun _ => 0) = "" :=
    generatedPassword_of_nonpos _ _ (by decide)
  constructor
  · simp [AddPassword.generatePassword, generatePassword, h]
  · rintro ⟨e, he⟩
    simp [AddPassword.generatePassword] at he

/-- C11, amended: for every policy whose length is non-positive, `generatePassword` raises no
error: it completes and stores the empty password, leaving the rest of the state as it was. -/
theorem generatePassword_nonpositive_length (random : Nat → ℚ) (s : AddPasswordState)
    (h : s.generatorSettings.length ≤ 0) :
    AddPassword.generatePassword random s
      = .ok { s with formData := { s.formData with password := "" } } := by
  simp [AddPassword.generatePassword, generatePassword,
    generatedPassword_of_nonpos s.generatorSettings random h]

theorem generatePassword_nonpositive_length_witness :
    ((-3 : Int) ≤ 0)
      ∧ AddPassword.generatePassword (fun _ => 1 / 2)
          ⟨⟨"site", "me", "old", "", ""⟩, false, false, ⟨-3, true, false, true⟩⟩
        = .ok ⟨⟨"site", "me", "", "", ""⟩, false, false, ⟨-3, true, false, true⟩⟩ :=
  ⟨by decide, generatePassword_nonpositive_length (fun _ => 1 / 2)
    ⟨⟨"site", "me", "old", "", ""⟩, false, false, ⟨-3, true, false, true⟩⟩ (by decide)⟩

/-! ## The dashboard's `generatePassword` -/

theorem strictEqStr_iff (v : JsValue) (t : String) : strictEqStr v t = true ↔ v = .str t := by
  cases v <;> simp [strictEqStr]

theorem strictEqNum_iff (v : JsValue) (n : ℚ) : strictEqNum v n = true ↔ v = .num n := by
  cases v <;> simp [strictEqNum]

/-- The session check lets through every response whose code is not the number 401. -/
theorem checkExpiry_pass (response code : JsValue) (w : World)
    (hcode : getProp response "code" = .ok code) (h401 : strictEqNum code 401 = false) :
    checkExpiry (.ok response) w = (.ok response, w) := by
  simp [checkExpiry, hcode, h401]

/-- On the code 401 the session check clears the `user` entry and redirects. -/
theorem checkExpiry_expired (response code : JsValue) (w : World)
    (hcode : getProp response "code" = .ok code) (h401 : strictEqNum code 401 = true) :
    checkExpiry (.ok response) w
      = (.ok sessionExpired, (w.removeItem "user").setHref "/login") := by
  simp [checkExpiry, hcode, h401]

/-- The dashboard's `generatePassword` on a response of code `'180'` whose data can be read. -/
theorem dashboard_generate_replaced (p : Platform) (s : DashboardState) (w : World)
    (response data password strength : JsValue)
    (hpost : p.post (.obj (formatData p [("generate_password", .bool true)])) = .ok response)
    (hcode : getProp response "code" = .ok (.str "180"))
    (hdata : getProp response "data" = .ok data)
    (hpassword : getProp data "password" = .ok password)
    (hstrength : getProp data "strength" = .ok strength) :
    Dashboard.generatePassword p s w
      = ({ s with suggestedPassword := password, passwordStrength := strength },
          w.emit (.post (.obj (formatData p [("generate_password", .bool true)])))) := by
  simp [Dashboard.generatePassword, passwordService.generatePassword, apiPost, hpost,
    checkExpiry, hcode, strictEqNum, strictEqStr, hdata, hpassword, hstrength]

theorem sessionExpired_code : getProp sessionExpired "code" = .ok .undefined := rfl

theorem sessionExpired_message : getProp sessionExpired "message" = .ok .undefined := rfl

theorem checkExpiry_error (e : JsError) (w : World) :
    checkExpiry (.error e) w = (.error e, w) := rfl

theorem checkExpiry_unreadable (response : JsValue) (e : JsError) (w : World)
    (hcode : getProp response "code" = .error e) :
    checkExpiry (.ok response) w = (.error e, w) := by
  simp [checkExpiry, hcode]

/-- The dashboard's `generatePassword` leaves its state as it was unless the response has code
`'180'` and data whose `password` can be read. -/
theorem dashboard_generate_unchanged (p : Platform) (s : DashboardState) (w : World)
    (h : ∀ response data password,
      p.post (.obj (formatData p [("generate_password", .bool true)])) = .ok response →
      getProp response "code" = .ok (.str "180") →
      getProp response "data" = .ok data → getProp data "password" = .ok password → False) :
    (Dashboard.generatePassword p s w).1 = s := by
  unfold Dashboard.generatePassword passwordService.generatePassword apiPost
  simp only
  cases hpost : p.post (.obj (formatData p [("generate_password", .bool true)])) with
  | error e => rw [checkExpiry_error]
  | ok response =>
    cases hcode : getProp response "code" with
    | error e => rw [checkExpiry_unreadable _ _ _ hcode]
    | ok code =>
      by_cases h401 : strictEqNum code 401 = true
      · rw [checkExpiry_expired _ _ _ hcode h401]
        simp only [sessionExpired_code]
        rfl
      · have h401f : strictEqNum code 401 = false := by simpa using h401
        rw [checkExpiry_pass _ _ _ hcode h401f]
        simp only [hcode]
        by_cases h180 : strictEqStr code "180" = true
        · have hc : code = .str "180" := (strictEqStr_iff code "180").mp h180
          subst hc
          rw [if_pos h180]
          cases hdata : getProp response "data" with
          | error e => rfl
          | ok data =>
            cases hpw : getProp data "password" with
            | error e => simp only [hpw]
            | ok password => exact absurd (h response data password hpost hcode hdata hpw) id
        · rw [if_neg h180]

/-- C12, as stated, fails: on an answer of code `'180'` that carries no `data`, the dashboard's
`generatePassword` replaces neither `suggestedPassword` nor `passwordStrength`. -/
theorem dashboard_generate_code_180_without_data :
    getProp (.obj [("code", .str "180")]) "code" = .ok (.str "180")
    ∧ (Dashboard.generatePassword (answering (.obj [("code", .str "180")])) sampleDashboard
        sampleWorld).1 = sampleDashboard
    ∧ (Dashboard.generatePassword (answering (.obj [("code", .str "180")])) sampleDashboard
        sampleWorld).2.effects
      = [.post (.obj (formatData (answering (.obj [("code", .str "180")]))
          [("generate_password", .bool true)])),
         .toastError (.str "Failed to generate password")] :=
  ⟨rfl, rfl, rfl⟩

/-- C12, amended: for every prior state and every answer of the backend, the dashboard's
`generatePassword` either replaces `suggestedPassword` and `passwordStrength` together by the
response's password and strength, which happens when the response has code `'180'` and a
`data` that is neither `null` nor missing, or leaves the state as it was, which happens for
any other code, for a response of code `'180'` without `data` and for a rejected request; it
never updates one of the two without the other. -/
theorem dashboard_generatePassword_both_or_neither (p : Platform) (s : DashboardState)
    (w : World) :
    ((∃ response data password strength,
        p.post (.obj (formatData p [("generate_password", .bool true)])) = .ok response
        ∧ getProp response "code" = .ok (.str "180")
        ∧ getProp response "data" = .ok data
        ∧ getProp data "password" = .ok password
        ∧ getProp data "strength" = .ok strength
        ∧ (Dashboard.generatePassword p s w).1
            = { s with suggestedPassword := password, passwordStrength := strength })
      ∨ (Dashboard.generatePassword p s w).1 = s)
    ∧ (∀ e, p.post (.obj (formatData p [("generate_password", .bool true)])) = .error e →
        (Dashboard.generatePassword p s w).1 = s)
    ∧ (∀ response code,
        p.post (.obj (formatData p [("generate_password", .bool true)])) = .ok response →
        getProp response "code" = .ok code → code ≠ .str "180" →
        (Dashboard.generatePassword p s w).1 = s)
    ∧ (∀ response data password strength,
        p.post (.obj (formatData p [("generate_password", .bool true)])) = .ok response →
        getProp response "code" = .ok (.str "180") →
        getProp response "data" = .ok data →
        getProp data "password" = .ok password →
        getProp data "strength" = .ok strength →
        (Dashboard.generatePassword p s w).1
          = { s with suggestedPassword := password, passwordStrength := strength })
    ∧ (∀ response data e,
        p.post (.obj (formatData p [("generate_password", .bool true)])) = .ok response →
        getProp response "data" = .ok data →
        getProp data "password" = .error e →
        (Dashboard.generatePassword p s w).1 = s) := by
  refine ⟨?_, ?_, ?_, ?_, ?_⟩
  · by_cases hex : ∃ response data password,
        p.post (.obj (formatData p [("generate_password", .bool true)])) = .ok response
        ∧ getProp response "code" = .ok (.str "180")
        ∧ getProp response "data" = .ok data ∧ getProp data "password" = .ok password
    · obtain ⟨response, data, password, hpost, hcode, hdata, hpw⟩ := hex
      obtain ⟨strength, hst⟩ := getProp_ok_of_ok data "password" "strength" password hpw
      left
      refine ⟨response, data, password, strength, hpost, hcode, hdata, hpw, hst, ?_⟩
      rw [dashboard_generate_replaced p s w response data password strength hpost hcode hdata
        hpw hst]
    · right
      apply dashboard_generate_unchanged
      intro response data password hpost hcode hdata hpw
      exact hex ⟨response, data, password, hpost, hcode, hdata, hpw⟩
  · intro e he
    apply dashboard_generate_unchanged
    intro response data password hpost
    rw [he] at hpost
    exact absurd hpost (by simp)
  · intro response code hpost hcode hne
    apply dashboard_generate_unchanged
    intro response2 data password hpost2 hcode2
    rw [hpost] at hpost2
    have hr : response = response2 := by simpa using hpost2
    subst hr
    rw [hcode] at hcode2
    have hc : code = .str "180" := by simpa using hcode2
    exact absurd hc hne
  · intro response data password strength hpost hcode hdata hpw hst
    rw [dashboard_generate_replaced p s w response data password strength hpost hcode hdata
      hpw hst]
  · intro response data e hpost hdata hpw
    apply dashboard_generate_unchanged
    intro response2 data2 password hpost2 _ hdata2 hpw2
    rw [hpost] at hpost2
    have hr : response = response2 := by simpa using hpost2
    subst hr
    rw [hdata] at hdata2
    have hd : data = data2 := by simpa using hdata2
    subst hd
    rw [hpw] at hpw2
    simp at hpw2

theorem dashboard_generatePassword_both_or_neither_witness :
    (Dashboard.generatePassword (answering (generated "Xk9!qT" 82)) sampleDashboard
        sampleWorld).1
      = { sampleDashboard with suggestedPassword := .str "Xk9!qT", passwordStrength := .num 82 }
    ∧ (Dashboard.generatePassword (rejecting "Network Error") sampleDashboard sampleWorld).1
      = sampleDashboard :=
  have h := dashboard_generatePassword_both_or_neither
  ⟨(h (answering (generated "Xk9!qT" 82)) sampleDashboard sampleWorld).2.2.2.1
      (generated "Xk9!qT" 82) _ _ _ rfl rfl rfl rfl rfl,
    (h (rejecting "Network Error") sampleDashboard sampleWorld).2.1 _ rfl⟩

/-- C13, as stated, fails: a response of code `'180'` with strength 150 makes the dashboard
store 150 in `passwordStrength`, which is outside `[0, 100]`. -/
theorem dashboard_strength_out_of_range :
    (Dashboard.generatePassword (answering (generated "Xk9!qT" 150)) sampleDashboard
        sampleWorld).1.passwordStrength = .num 150
    ∧ ¬ ∃ n : ℚ, (Dashboard.generatePassword (answering (generated "Xk9!qT" 150))
          sampleDashboard sampleWorld).1.passwordStrength = .num n ∧ 0 ≤ n ∧ n ≤ 100 := by
  have h := dashboard_generate_replaced (answering (generated "Xk9!qT" 150)) sampleDashboard
    sampleWorld (generated "Xk9!qT" 150)
    (.obj [("password", .str "Xk9!qT"), ("strength", .num 150)]) (.str "Xk9!qT") (.num 150)
    rfl rfl rfl rfl rfl
  rw [h]
  refine ⟨rfl, ?_⟩
  rintro ⟨n, hn, h0, h100⟩
  have h150 : (150 : ℚ) = n := JsValue.num.inj hn
  rw [← h150] at h100
  norm_num at h100

/-- C13, amended: after the dashboard's `generatePassword` handles a response of code `'180'`
whose data can be read, the value stored in `passwordStrength` is the response's
`data.strength` as it came, without clamping; it lies in `[0, 100]` exactly when the strength
sent by the backend does. -/
theorem dashboard_strength_is_response_strength (p : Platform) (s : DashboardState)
    (w : World) (response data strength : JsValue)
    (hpost : p.post (.obj (formatData p [("generate_password", .bool true)])) = .ok response)
    (hcode : getProp response "code" = .ok (.str "180"))
    (hdata : getProp response "data" = .ok data)
    (hstrength : getProp data "strength" = .ok strength) :
    (Dashboard.generatePassword p s w).1.passwordStrength = strength
    ∧ ((∃ n : ℚ, (Dashboard.generatePassword p s w).1.passwordStrength = .num n
          ∧ 0 ≤ n ∧ n ≤ 100)
        ↔ ∃ n : ℚ, strength = .num n ∧ 0 ≤ n ∧ n ≤ 100) := by
  obtain ⟨password, hpw⟩ := getProp_ok_of_ok data "strength" "password" strength hstrength
  rw [dashboard_generate_replaced p s w response data password strength hpost hcode hdata hpw
    hstrength]
  exact ⟨rfl, Iff.rfl⟩

theorem dashboard_strength_is_response_strength_witness :
    (Dashboard.generatePassword (answering (generated "Xk9!qT" 82)) sampleDashboard
        sampleWorld).1.passwordStrength = .num 82 :=
  (dashboard_strength_is_response_strength (answering (generated "Xk9!qT" 82)) sampleDashboard
    sampleWorld (generated "Xk9!qT" 82) _ _ rfl rfl rfl rfl).1

/-! ## Request bodies: `formatData` -/

theorem lookup_map_set (l : List (String × JsValue)) (key : String) (value : JsValue)
    (h : l.any (fun p => p.1 == key) = true) :
    (l.map (fun p => if p.1 == key then (key, value) else p)).lookup key = some value := by
  induction l with
  | nil => simp at h
  | cons q rest ih =>
    obtain ⟨a, b⟩ := q
    by_cases hq : a = key
    · simp [hq, List.lookup_cons]
    · have hne : (key == a) = false := by simpa using fun h => hq h.symm
      have hrest : rest.any (fun p => p.1 == key) = true := by
        simpa [List.any_cons, hq] using h
      simp only [List.map_cons, beq_iff_eq, hq, ↓reduceIte, List.lookup_cons, hne]
      simpa using ih hrest

theorem lookup_append_new (l : List (String × JsValue)) (key : String) (value : JsValue)
    (h : l.any (fun p => p.1 == key) = false) :
    (l ++ [(key, value)]).lookup key = some value := by
  induction l with
  | nil => simp [List.lookup_cons]
  | cons q rest ih =>
    obtain ⟨a, b⟩ := q
    rw [List.any_cons, Bool.or_eq_false_iff] at h
    have hne : (key == a) = false := by
      have h1 : ¬ a = key := by simpa using h.1
      simpa using fun h => h1 h.symm
    simp only [List.cons_append, List.lookup_cons, hne]
    exact ih h.2

theorem lookup_map_ne (l : List (String × JsValue)) (key other : String) (value : JsValue)
    (hne : other ≠ key) :
    (l.map (fun p => if p.1 == key then (key, value) else p)).lookup other
      = l.lookup other := by
  have hb : (other == key) = false := by simpa using hne
  induction l with
  | nil => rfl
  | cons q rest ih =>
    obtain ⟨a, b⟩ := q
    by_cases hq : a = key
    · subst hq
      simp only [List.map_cons, beq_self_eq_true, ↓reduceIte, List.lookup_cons, hb]
      exact ih
    · have hqb : (a == key) = false := by simpa using hq
      simp only [List.map_cons, hqb, Bool.false_eq_true, ↓reduceIte, List.lookup_cons]
      rw [ih]

theorem lookup_append_ne (l : List (String × JsValue)) (key other : String) (value : JsValue)
    (hne : other ≠ key) : (l ++ [(key, value)]).lookup other = l.lookup other := by
  have hb : (other == key) = false := by simpa using hne
  induction l with
  | nil => simp [List.lookup_cons, hb]
  | cons q rest ih =>
    obtain ⟨a, b⟩ := q
    simp only [List.cons_append, List.lookup_cons]
    rw [ih]

theorem filter_map_set (l : List (String × JsValue)) (key : String) (value : JsValue) :
    (l.map (fun p => if p.1 == key then (key, value) else p)).filter (fun q => q.1 != key)
      = l.filter (fun q => q.1 != key) := by
  induction l with
  | nil => rfl
  | cons q rest ih =>
    obtain ⟨a, b⟩ := q
    by_cases hq : a = key
    · subst hq
      simpa [List.filter_cons] using ih
    · simpa [List.filter_cons, hq] using ih

theorem lookup_setProp_self (l : List (String × JsValue)) (key : String) (value : JsValue) :
    (setProp l key value).lookup key = some value := by
  unfold setProp
  split
  · next h => exact lookup_map_set l key value h
  · next h => exact lookup_append_new l key value ((Bool.not_eq_true _).mp h)

theorem lookup_setProp_ne (l : List (String × JsValue)) (key other : String) (value : JsValue)
    (hne : other ≠ key) : (setProp l key value).lookup other = l.lookup other := by
  unfold setProp
  split
  · exact lookup_map_ne l key other value hne
  · exact lookup_append_ne l key other value hne

theorem filter_setProp (l : List (String × JsValue)) (key : String) (value : JsValue) :
    (setProp l key value).filter (fun q => q.1 != key) = l.filter (fun q => q.1 != key) := by
  unfold setProp
  split
  · exact filter_map_set l key value
  · simp [List.filter_append, List.filter_cons]

theorem keys_setProp (l : List (String × JsValue)) (key : String) (value : JsValue) (k : String) :
    k ∈ (setProp l key value).map Prod.fst ↔ k ∈ l.map Prod.fst ∨ k = key := by
  unfold setProp
  split
  · next h =>
    have hmem : key ∈ l.map Prod.fst := by
      simpa [List.any_eq_true] using h
    have hkeys : (l.map (fun p => if p.1 == key then (key, value) else p)).map Prod.fst
        = l.map Prod.fst := by
      rw [List.map_map]
      apply List.map_congr_left
      intro q _
      by_cases hq : q.1 = key <;> simp [hq]
    rw [hkeys]
    constructor
    · intro hk; exact Or.inl hk
    · rintro (hk | hk)
      · exact hk
      · rw [hk]; exact hmem
  · simp

/-- C14: for every request object `d`, `formatData d` has the field `api_key` equal to the
configured `API_KEY`, also when `d` carries an `api_key` of its own; every other field of `d`
is in the result with its value, in the same order, and the result has no field besides those
of `d` and `api_key`. -/
theorem formatData_api_key (p : Platform) (d : List (String × JsValue)) :
    getProp (.obj (formatData p d)) "api_key" = .ok (.str (API_KEY p))
    ∧ (∀ key, key ≠ "api_key" → getProp (.obj (formatData p d)) key = getProp (.obj d) key)
    ∧ (formatData p d).filter (fun q => q.1 != "api_key")
        = d.filter (fun q => q.1 != "api_key")
    ∧ (∀ key, key ∈ (formatData p d).map Prod.fst ↔ key ∈ d.map Prod.fst ∨ key = "api_key")
    ∧ (p.REACT_APP_API_KEY = none → API_KEY p = "lock123") := by
  refine ⟨?_, ?_, ?_, ?_, ?_⟩
  · simp only [getProp, formatData]
    rw [lookup_setProp_self]
    rfl
  · intro key hkey
    simp only [getProp, formatData]
    rw [lookup_setProp_ne d "api_key" key _ hkey]
  · exact filter_setProp d "api_key" _
  · intro key
    exact keys_setProp d "api_key" _ key
  · intro h
    simp [API_KEY, h]

theorem formatData_api_key_witness :
    getProp (.obj (formatData (answering .null)
        [("api_key", .str "other"), ("email", .str "me@example.com")])) "api_key"
      = .ok (.str "lock123")
    ∧ getProp (.obj (formatData (answering .null)
        [("api_key", .str "other"), ("email", .str "me@example.com")])) "email"
      = .ok (.str "me@example.com") :=
  have h := formatData_api_key (answering .null)
    [("api_key", .str "other"), ("email", .str "me@example.com")]
  ⟨h.1.trans rfl, (h.2.1 "email" (by decide)).trans rfl⟩

/-! ## The session check of `passwordService` -/

/-- What the session check does with an answer `data` whose `code` can be read. -/
theorem checkExpiry_handled (p : Platform) (w : World) (body data code : JsValue)
    (hpost : p.post body = .ok data) (hcode : getProp data "code" = .ok code) :
    (code = .num 401 →
        (checkExpiry (p.post body) (w.emit (.post body))).1
            = .ok (.obj [("error", .str "Session expired. Please login again.")])
        ∧ (checkExpiry (p.post body) (w.emit (.post body))).2.getItem "user" = none
        ∧ (checkExpiry (p.post body) (w.emit (.post body))).2.href = "/login")
    ∧ (code ≠ .num 401 →
        (checkExpiry (p.post body) (w.emit (.post body))).1 = .ok data
        ∧ (checkExpiry (p.post body) (w.emit (.post body))).2.localStorage = w.localStorage
        ∧ (checkExpiry (p.post body) (w.emit (.post body))).2.href = w.href) := by
  rw [hpost]
  constructor
  · intro h401
    rw [checkExpiry_expired data code _ hcode ((strictEqNum_iff code 401).mpr h401)]
    exact ⟨rfl, getItem_removeItem (w.emit (.post body)) "user", rfl⟩
  · intro h401
    have hf : strictEqNum code 401 = false := by
      rw [← Bool.not_eq_true]
      exact fun h => h401 ((strictEqNum_iff code 401).mp h)
    rw [checkExpiry_pass data code _ hcode hf]
    exact ⟨rfl, rfl, rfl⟩

/-- C15: for each of `addPassword`, `getPasswords`, `updatePassword`, `deletePassword`,
`importPasswords` and `generatePassword` of `passwordService`, and every answer `data` of the
backend to the request of the operation whose `code` is read as `code`: when `code` is the
number 401 the operation returns the session-expired error object, the `user` entry is gone
from local storage and the location is `/login`; for any other code it returns `data` itself
and local storage and the location are as before. -/
theorem passwordService_session_expiry (p : Platform) (w : World) (data code : JsValue)
    (hcode : getProp data "code" = .ok code) :
    let handled : JsValue → Except JsError JsValue × World → Prop := fun body out =>
      p.post body = .ok data →
        (code = .num 401 →
            out.1 = .ok (.obj [("error", .str "Session expired. Please login again.")])
            ∧ out.2.getItem "user" = none ∧ out.2.href = "/login")
        ∧ (code ≠ .num 401 →
            out.1 = .ok data ∧ out.2.localStorage = w.localStorage ∧ out.2.href = w.href)
    (∀ userId password platform email,
        handled
          (.obj (formatData p [("add_pass", .bool true), ("user_id", userId),
            ("pass", password), ("name", platform), ("email", email)]))
          (passwordService.addPassword p userId password platform email w))
    ∧ (∀ email,
        handled (.obj (formatData p [("email", email), ("get_pass", .bool true)]))
          (passwordService.getPasswords p email w))
    ∧ (∀ passwordData id platform password,
        getProp passwordData "id" = .ok id →
        getProp passwordData "platform" = .ok platform →
        getProp passwordData "password" = .ok password →
        handled
          (.obj (formatData p [("id", id), ("name", platform), ("password", password),
            ("update_password", .bool true)]))
          (passwordService.updatePassword p passwordData w))
    ∧ (∀ passwordId,
        handled (.obj (formatData p [("delete_password", .bool true), ("id", passwordId)]))
          (passwordService.deletePassword p passwordId w))
    ∧ (∀ email csvFile csvData, p.readAsText csvFile = some csvData →
        handled
          (.obj (formatData p [("import_passwords", .bool true), ("email", email),
            ("csv_data", .str csvData)]))
          (passwordService.importPasswords p email csvFile w))
    ∧ handled (.obj (formatData p [("generate_password", .bool true)]))
        (passwordService.generatePassword p w) := by
  intro handled
  refine ⟨?_, ?_, ?_, ?_, ?_, ?_⟩
  · intro userId password platform email hpost
    exact checkExpiry_handled p w _ data code hpost hcode
  · intro email hpost
    exact checkExpiry_handled p w _ data code hpost hcode
  · intro passwordData id platform password hid hplatform hpassword hpost
    have h := checkExpiry_handled p w _ data code hpost hcode
    simpa only [passwordService.updatePassword, hid, hplatform, hpassword, apiPost] using h
  · intro passwordId hpost
    exact checkExpiry_handled p w _ data code hpost hcode
  · intro email csvFile csvData hread hpost
    have h := checkExpiry_handled p w _ data code hpost hcode
    simpa only [passwordService.importPasswords, hread, apiPost] using h
  · intro hpost
    exact checkExpiry_handled p w _ data code hpost hcode

theorem passwordService_session_expiry_witness :
    getProp (.obj [("code", .num 401)]) "code" = .ok (.num 401)
    ∧ (passwordService.getPasswords (answering (.obj [("code", .num 401)]))
          (.str "me@example.com") sampleWorld).1
        = .ok (.obj [("error", .str "Session expired. Please login again.")])
    ∧ (passwordService.getPasswords (answering (.obj [("code", .num 401)]))
          (.str "me@example.com") sampleWorld).2.getItem "user" = none
    ∧ (passwordService.getPasswords (answering (.obj [("code", .num 401)]))
          (.str "me@example.com") sampleWorld).2.href = "/login" :=
  have h := (passwordService_session_expiry (answering (.obj [("code", .num 401)])) sampleWorld
    (.obj [("code", .num 401)]) (.num 401) rfl).2.1 (.str "me@example.com") rfl
  ⟨rfl, h.1 rfl⟩

/-! ## Session expiry seen from the dashboard -/

/-- C16 at the failing input: the backend answers with code 401.  `passwordService` returns the
error object instead of throwing, so the `catch` blocks of the dashboard do not run:
`fetchPasswords`, `handleUpdatePassword` and `handleDeletePassword` post their request and do
nothing else, `handleFileChange` reports `Failed to import passwords`; none of them shows
`Session expired. Please login again.` nor calls `onLogout`. -/
theorem dashboard_session_expiry_unnoticed :
    (Dashboard.fetchPasswords (answering expired) (some sampleUser) sampleDashboard
        sampleWorld).2.effects
      = [.post (.obj (formatData (answering expired)
          [("email", .str "me@example.com"), ("get_pass", .bool true)]))]
    ∧ (Dashboard.handleUpdatePassword (answering expired) sampleRecord sampleDashboard
        sampleWorld).2.effects
      = [.post (.obj (formatData (answering expired)
          [("id", .num 3), ("name", .str "site"), ("password", .str "secret"),
            ("update_password", .bool true)]))]
    ∧ (Dashboard.handleDeletePassword (answering expired) (.num 3) true sampleDashboard
        sampleWorld).2.effects
      = [.post (.obj (formatData (answering expired)
          [("delete_password", .bool true), ("id", .num 3)]))]
    ∧ (Dashboard.handleFileChange (answering expired) (some sampleUser) (some sampleFile)
        sampleDashboard sampleWorld).2.effects
      = [.post (.obj (formatData (answering expired)
          [("import_passwords", .bool true), ("email", .str "me@example.com"),
            ("csv_data", .str "name,password")])),
         .toastError (.str "Failed to import passwords"), .resetFileInput]
    ∧ (Dashboard.fetchPasswords (answering expired) (some sampleUser) sampleDashboard
        sampleWorld).2.getItem "user" = none
    ∧ (Dashboard.fetchPasswords (answering expired) (some sampleUser) sampleDashboard
        sampleWorld).2.href = "/login" := by
  refine ⟨?_, ?_, ?_, ?_, ?_, ?_⟩ <;> rfl

/-! ## `authService.checkSession` and `handleLogout` -/

/-- C17, as stated, fails: on an answer of code 200 that carries no `data`, `checkSession`
returns `{ valid: false }`. -/
theorem checkSession_code_200_without_data :
    getProp (.obj [("code", .num 200)]) "code" = .ok (.num 200)
    ∧ ∃ r, (authService.checkSession (answering (.obj [("code", .num 200)])) sampleWorld).1
        = .ok r ∧ r.valid = false :=
  ⟨rfl, ⟨false, none⟩, rfl, rfl⟩

/-- The result of `checkSession` on an answer of code 200 whose `data` can be read. -/
theorem checkSession_valid (p : Platform) (w : World) (data inner email name id : JsValue)
    (hpost : p.post (.obj (formatData p [("check_session", .bool true)])) = .ok data)
    (hcode : getProp data "code" = .ok (.num 200))
    (hdata : getProp data "data" = .ok inner)
    (hemail : getProp inner "email" = .ok email)
    (hname : getProp inner "name" = .ok name)
    (hid : getProp inner "user_id" = .ok id) :
    authService.checkSession p w
      = (.ok ⟨true, some ⟨email, name, id⟩⟩,
          (w.emit (.post (.obj (formatData p [("check_session", .bool true)])))).setItem "user"
            (p.stringify (User.toJs ⟨email, name, id⟩))) := by
  simp [authService.checkSession, apiPost, hpost, hcode, strictEqNum, hdata, hemail, hname,
    hid]

/-- The result of `checkSession` in every other case. -/
theorem checkSession_invalid (p : Platform) (w : World)
    (h : ¬ ∃ data inner email,
      p.post (.obj (formatData p [("check_session", .bool true)])) = .ok data
      ∧ getProp data "code" = .ok (.num 200)
      ∧ getProp data "data" = .ok inner
      ∧ getProp inner "email" = .ok email) :
    authService.checkSession p w
      = (.ok ⟨false, none⟩,
          (w.emit (.post (.obj (formatData p [("check_session", .bool true)])))).removeItem
            "user") := by
  unfold authService.checkSession apiPost
  simp only
  cases hpost : p.post (.obj (formatData p [("check_session", .bool true)])) with
  | error e => rfl
  | ok data =>
    cases hcode : getProp data "code" with
    | error e => simp only [hcode]
    | ok code =>
      simp only [hcode]
      by_cases h200 : strictEqNum code 200 = true
      · have hc : code = .num 200 := (strictEqNum_iff code 200).mp h200
        subst hc
        rw [if_pos h200]
        cases hdata : getProp data "data" with
        | error e => rfl
        | ok inner =>
          cases hemail : getProp inner "email" with
          | error e => simp only [hemail]
          | ok email => exact absurd ⟨data, inner, email, hpost, hcode, hdata, hemail⟩ h
      · rw [if_neg h200]

/-- C17, amended: `checkSession` never throws.  It returns `{ valid: true, user }` exactly when
the answer has code 200 and a `data` that is neither `null` nor missing, in which case `user`
is `{ email, name, id }` taken from `data.email`, `data.name` and `data.user_id` and the `user`
entry of local storage is set to its JSON text; in every other case, a rejected request and an
answer of code 200 without `data` included, it returns `{ valid: false }` and the `user` entry
is absent. -/
theorem checkSession_valid_iff (p : Platform) (w : World) :
    ∃ r, (authService.checkSession p w).1 = .ok r
      ∧ ((r.valid = true
          ∧ ∃ data inner email name id,
            p.post (.obj (formatData p [("check_session", .bool true)])) = .ok data
            ∧ getProp data "code" = .ok (.num 200)
            ∧ getProp data "data" = .ok inner
            ∧ getProp inner "email" = .ok email
            ∧ getProp inner "name" = .ok name
            ∧ getProp inner "user_id" = .ok id
            ∧ r.user = some ⟨email, name, id⟩
            ∧ (authService.checkSession p w).2.getItem "user"
                = some (p.stringify (User.toJs ⟨email, name, id⟩)))
        ∨ (r.valid = false ∧ r.user = none
          ∧ (authService.checkSession p w).2.getItem "user" = none
          ∧ ¬ ∃ data inner email,
            p.post (.obj (formatData p [("check_session", .bool true)])) = .ok data
            ∧ getProp data "code" = .ok (.num 200)
            ∧ getProp data "data" = .ok inner
            ∧ getProp inner "email" = .ok email)) := by
  by_cases hex : ∃ data inner email,
      p.post (.obj (formatData p [("check_session", .bool true)])) = .ok data
      ∧ getProp data "code" = .ok (.num 200)
      ∧ getProp data "data" = .ok inner
      ∧ getProp inner "email" = .ok email
  · obtain ⟨data, inner, email, hpost, hcode, hdata, hemail⟩ := hex
    obtain ⟨name, hname⟩ := getProp_ok_of_ok inner "email" "name" email hemail
    obtain ⟨id, hid⟩ := getProp_ok_of_ok inner "email" "user_id" email hemail
    rw [checkSession_valid p w data inner email name id hpost hcode hdata hemail hname hid]
    exact ⟨⟨true, some ⟨email, name, id⟩⟩, rfl, Or.inl ⟨rfl, data, inner, email, name, id,
      hpost, hcode, hdata, hemail, hname, hid, rfl, getItem_setItem _ "user" _⟩⟩
  · rw [checkSession_invalid p w hex]
    exact ⟨⟨false, none⟩, rfl, Or.inr ⟨rfl, rfl, getItem_removeItem _ "user", hex⟩⟩

/-- C18: when `handleLogout` completes, whether the logout request succeeded or was rejected,
the `user` entry is absent from local storage, `isAuthenticated` is false and `user` is null;
`authService.logout` rethrows the error of a rejected request, and `handleLogout` does not
propagate it. -/
theorem handleLogout_clears_session (p : Platform) (s : AppState) (w : World) :
    (App.handleLogout p s w).1 = .ok ()
    ∧ (App.handleLogout p s w).2.1.isAuthenticated = false
    ∧ (App.handleLogout p s w).2.1.user = none
    ∧ (App.handleLogout p s w).2.2.getItem "user" = none
    ∧ (∀ e, p.post (.obj (formatData p [("logout", .bool true)])) = .error e →
        (authService.logout p w).1 = .error e
        ∧ (authService.logout p w).2.getItem "user" = none) := by
  unfold App.handleLogout authService.logout apiPost
  simp only
  cases hpost : p.post (.obj (formatData p [("logout", .bool true)])) with
  | error e =>
    refine ⟨rfl, rfl, rfl, getItem_removeItem _ "user", ?_⟩
    intro e2 he
    have hee : e = e2 := by simpa using he
    subst hee
    exact ⟨rfl, getItem_removeItem _ "user"⟩
  | ok data =>
    refine ⟨rfl, rfl, rfl, getItem_removeItem _ "user", ?_⟩
    intro e2 he
    simp at he

theorem handleLogout_clears_session_witness :
    (App.handleLogout (rejecting "Network Error") ⟨true, some sampleUser, false⟩
        sampleWorld).1 = .ok ()
    ∧ (App.handleLogout (rejecting "Network Error") ⟨true, some sampleUser, false⟩
        sampleWorld).2.1.isAuthenticated = false
    ∧ (authService.logout (rejecting "Network Error") sampleWorld).1
        = .error (.error "Network Error") :=
  have h := handleLogout_clears_session (rejecting "Network Error")
    ⟨true, some sampleUser, false⟩ sampleWorld
  ⟨h.1, h.2.1, (h.2.2.2.2 (.error "Network Error") rfl).1⟩

/-! ## `AddPassword.handleSubmit` -/

/-- The session check records no effect of its own. -/
theorem checkExpiry_effects (reply : Except JsError JsValue) (w : World) :
    (checkExpiry reply w).2.effects = w.effects := by
  cases reply with
  | error e => rfl
  | ok data =>
    cases hcode : getProp data "code" with
    | error e => rw [checkExpiry_unreadable data e w hcode]
    | ok code =>
      by_cases h : strictEqNum code 401 = true
      · rw [checkExpiry_expired data code w hcode h]
        rfl
      · rw [checkExpiry_pass data code w hcode (by simpa using h)]

/-- What a handler receives from the session check, for an answer whose code is readable: the
answer itself, or the error object when the code is 401. -/
theorem checkExpiry_seen (response code : JsValue) (w : World)
    (hcode : getProp response "code" = .ok code) :
    ∃ seen w1, checkExpiry (.ok response) w = (.ok seen, w1) ∧ w1.effects = w.effects
      ∧ ((code ≠ .num 401 ∧ seen = response ∧ w1 = w)
        ∨ (code = .num 401 ∧ seen = sessionExpired)) := by
  by_cases h : strictEqNum code 401 = true
  · exact ⟨sessionExpired, _, checkExpiry_expired response code w hcode h, rfl,
      Or.inr ⟨(strictEqNum_iff code 401).mp h, rfl⟩⟩
  · have hf : strictEqNum code 401 = false := by simpa using h
    exact ⟨response, w, checkExpiry_pass response code w hcode hf, rfl,
      Or.inl ⟨fun hc => h ((strictEqNum_iff code 401).mpr hc), rfl, rfl⟩⟩

theorem addPassword_eq (p : Platform) (user : User) (formData : FormData) (w : World) :
    passwordService.addPassword p user.id (.str formData.password) (.str formData.platform)
        user.email w
      = checkExpiry (p.post (.obj (formatData p (addRequest user formData))))
          (w.emit (.post (.obj (formatData p (addRequest user formData))))) := rfl

/-- The add request succeeded: code 11 and a `data` whose `id` can be read. -/
theorem submit_success (p : Platform) (user : User) (formData : FormData) (w : World)
    (response data id : JsValue)
    (hpost : p.post (.obj (formatData p (addRequest user formData))) = .ok response)
    (hcode : getProp response "code" = .ok (.num 11))
    (hdata : getProp response "data" = .ok data) (hid : getProp data "id" = .ok id) :
    (AddPassword.submit p user formData w).effects
      = w.effects ++ [.post (.obj (formatData p (addRequest user formData))),
          .onAdd (newPassword id formData), .onClose,
          .toastSuccess (.str "Password added successfully!")] := by
  unfold AddPassword.submit
  rw [addPassword_eq, hpost,
    checkExpiry_pass response (.num 11) _ hcode (by simp [strictEqNum])]
  simp [hcode, strictEqNum, hdata, hid, World.emit]

/-- The add request was answered with a code other than the number 11. -/
theorem submit_other_code (p : Platform) (user : User) (formData : FormData) (w : World)
    (response code : JsValue)
    (hpost : p.post (.obj (formatData p (addRequest user formData))) = .ok response)
    (hcode : getProp response "code" = .ok code) (hne : code ≠ .num 11) :
    (AddPassword.submit p user formData w).effects
      = w.effects ++ [.post (.obj (formatData p (addRequest user formData))),
          .toastError (.str "Failed to add password. Please try again.")] := by
  unfold AddPassword.submit
  rw [addPassword_eq, hpost]
  obtain ⟨seen, w1, hseen, heff, hcase⟩ := checkExpiry_seen response code
    (w.emit (.post (.obj (formatData p (addRequest user formData))))) hcode
  rw [hseen]
  have h11 : strictEqNum code 11 = false := by
    rw [← Bool.not_eq_true]
    exact fun h => hne ((strictEqNum_iff code 11).mp h)
  rcases hcase with ⟨-, hs, -⟩ | ⟨-, hs⟩
  · subst hs
    simp [hcode, h11, World.emit, heff]
  · subst hs
    simp [sessionExpired_code, strictEqNum, World.emit, heff]

/-- The add request was answered with code 11 but without a readable `data`. -/
theorem submit_unreadable (p : Platform) (user : User) (formData : FormData) (w : World)
    (response data : JsValue) (e : JsError)
    (hpost : p.post (.obj (formatData p (addRequest user formData))) = .ok response)
    (hcode : getProp response "code" = .ok (.num 11))
    (hdata : getProp response "data" = .ok data) (hid : getProp data "id" = .error e) :
    (AddPassword.submit p user formData w).effects
      = w.effects ++ [.post (.obj (formatData p (addRequest user formData))),
          .toastError (.str "An error occurred while adding the password")] := by
  unfold AddPassword.submit
  rw [addPassword_eq, hpost,
    checkExpiry_pass response (.num 11) _ hcode (by simp [strictEqNum])]
  simp [hcode, strictEqNum, hdata, hid, World.emit, AddPassword.submitFailed]

/-- The add request was rejected, or its answer has no readable code. -/
theorem submit_rejected (p : Platform) (user : User) (formData : FormData) (w : World)
    (h : (∃ e, p.post (.obj (formatData p (addRequest user formData))) = .error e)
      ∨ ∃ response e, p.post (.obj (formatData p (addRequest user formData))) = .ok response
          ∧ getProp response "code" = .error e) :
    (AddPassword.submit p user formData w).effects
      = w.effects ++ [.post (.obj (formatData p (addRequest user formData))),
          .toastError (.str "An error occurred while adding the password")] := by
  unfold AddPassword.submit
  rw [addPassword_eq]
  rcases h with ⟨e, he⟩ | ⟨response, e, hpost, hcode⟩
  · rw [he, checkExpiry_error]
    simp [World.emit, AddPassword.submitFailed]
  · rw [hpost, checkExpiry_unreadable _ _ _ hcode]
    simp [World.emit, AddPassword.submitFailed]

/-- Whatever the answer, the `try` block posts the add request first, and posts nothing
else. -/
theorem submit_posts (p : Platform) (user : User) (formData : FormData) (w : World) :
    ∃ rest, (AddPassword.submit p user formData w).effects
        = w.effects ++ .post (.obj (formatData p (addRequest user formData))) :: rest
      ∧ ∀ b, Effect.post b ∉ rest := by
  cases hpost : p.post (.obj (formatData p (addRequest user formData))) with
  | error e =>
    exact ⟨_, submit_rejected p user formData w (Or.inl ⟨e, hpost⟩), by simp⟩
  | ok response =>
    cases hcode : getProp response "code" with
    | error e =>
      exact ⟨_, submit_rejected p user formData w (Or.inr ⟨response, e, hpost, hcode⟩),
        by simp⟩
    | ok code =>
      by_cases h11 : code = .num 11
      · subst h11
        obtain ⟨data, hdata⟩ := getProp_ok_of_ok response "code" "data" _ hcode
        cases hid : getProp data "id" with
        | error e =>
          exact ⟨_, submit_unreadable p user formData w response data e hpost hcode hdata hid,
            by simp⟩
        | ok id =>
          exact ⟨_, submit_success p user formData w response data id hpost hcode hdata hid,
            by simp⟩
      · exact ⟨_, submit_other_code p user formData w response code hpost hcode h11, by simp⟩

theorem handleSubmit_empty (p : Platform) (user : User) (s : AddPasswordState) (w : World)
    (h : s.formData.platform = "" ∨ s.formData.email = "" ∨ s.formData.password = "") :
    AddPassword.handleSubmit p user s w
      = (s, (w.emit .preventDefault).emit
          (.toastError (.str "Please fill in all required fields"))) := by
  unfold AddPassword.handleSubmit
  have hb : (s.formData.platform == "" || s.formData.email == ""
      || s.formData.password == "") = true := by
    simpa [or_assoc] using h
  simp only [hb, if_true]

theorem handleSubmit_filled (p : Platform) (user : User) (s : AddPasswordState) (w : World)
    (h : s.formData.platform ≠ "" ∧ s.formData.email ≠ "" ∧ s.formData.password ≠ "") :
    AddPassword.handleSubmit p user s w
      = ({ s with isLoading := false },
          AddPassword.submit p user s.formData (w.emit .preventDefault)) := by
  unfold AddPassword.handleSubmit
  have hb : (s.formData.platform == "" || s.formData.email == ""
      || s.formData.password == "") = false := by
    simp [h.1, h.2.1, h.2.2]
  simp only [hb]
  rfl

/-- C20: `handleSubmit` sends an add request if and only if the platform, the email and the
password of the form are all non-empty.  When one of them is empty it reports
`Please fill in all required fields` and does nothing else: no request, no call of `onAdd` or
`onClose`, and the state, `isLoading` included, stays as it was.  When all are filled in it
posts exactly one request, the add request, and ends with `isLoading` false. -/
theorem handleSubmit_sends_iff_filled (p : Platform) (user : User) (s : AddPasswordState)
    (w : World) :
    ((s.formData.platform = "" ∨ s.formData.email = "" ∨ s.formData.password = "") →
        AddPassword.handleSubmit p user s w
          = (s, { w with effects := w.effects ++
              [.preventDefault, .toastError (.str "Please fill in all required fields")] }))
    ∧ ((s.formData.platform ≠ "" ∧ s.formData.email ≠ "" ∧ s.formData.password ≠ "") →
        (AddPassword.handleSubmit p user s w).1.isLoading = false
        ∧ ∃ rest, (AddPassword.handleSubmit p user s w).2.effects
            = w.effects ++ [.preventDefault,
                .post (.obj (formatData p (addRequest user s.formData)))] ++ rest
          ∧ ∀ b, Effect.post b ∉ rest)
    ∧ (s.isLoading = false → (AddPassword.handleSubmit p user s w).1.isLoading = false)
    ∧ ((∃ b, Effect.post b ∈ (AddPassword.handleSubmit p user s w).2.effects.drop
          w.effects.length)
        ↔ (s.formData.platform ≠ "" ∧ s.formData.email ≠ "" ∧ s.formData.password ≠ "")) := by
  have hempty : (s.formData.platform = "" ∨ s.formData.email = "" ∨ s.formData.password = "") →
      AddPassword.handleSubmit p user s w
        = (s, { w with effects := w.effects ++
            [.preventDefault, .toastError (.str "Please fill in all required fields")] }) := by
    intro h
    rw [handleSubmit_empty p user s w h]
    simp [World.emit]
  have hfilled : (s.formData.platform ≠ "" ∧ s.formData.email ≠ "" ∧ s.formData.password ≠ "") →
      (AddPassword.handleSubmit p user s w).1.isLoading = false
      ∧ ∃ rest, (AddPassword.handleSubmit p user s w).2.effects
          = w.effects ++ [.preventDefault,
              .post (.obj (formatData p (addRequest user s.formData)))] ++ rest
        ∧ ∀ b, Effect.post b ∉ rest := by
    intro h
    rw [handleSubmit_filled p user s w h]
    obtain ⟨rest, hrest, hno⟩ := submit_posts p user s.formData (w.emit .preventDefault)
    refine ⟨rfl, rest, ?_, hno⟩
    show (AddPassword.submit p user s.formData (w.emit .preventDefault)).effects = _
    rw [hrest]
    simp [World.emit]
  refine ⟨hempty, hfilled, ?_, ?_⟩
  · intro hl
    by_cases h : s.formData.platform ≠ "" ∧ s.formData.email ≠ "" ∧ s.formData.password ≠ ""
    · exact (hfilled h).1
    · have h2 : s.formData.platform = "" ∨ s.formData.email = "" ∨ s.formData.password = "" := by
        by_contra hc
        push_neg at hc
        exact h hc
      rw [hempty h2]
      exact hl
  · constructor
    · rintro ⟨b, hb⟩
      by_contra h
      have h2 : s.formData.platform = "" ∨ s.formData.email = "" ∨ s.formData.password = "" := by
        by_contra hc
        push_neg at hc
        exact h hc
      rw [hempty h2] at hb
      simp at hb
    · intro h
      obtain ⟨-, rest, hrest, -⟩ := hfilled h
      refine ⟨.obj (formatData p (addRequest user s.formData)), ?_⟩
      rw [hrest]
      simp

theorem handleSubmit_sends_iff_filled_witness :
    AddPassword.handleSubmit (answering expired) sampleUser
        { sampleForm with formData := ⟨"site", "", "secret", "", ""⟩ } sampleWorld
      = ({ sampleForm with formData := ⟨"site", "", "secret", "", ""⟩ },
          { sampleWorld with effects :=
            [.preventDefault, .toastError (.str "Please fill in all required fields")] })
    ∧ (AddPassword.handleSubmit (answering expired) sampleUser sampleForm
        sampleWorld).1.isLoading = false :=
  ⟨(handleSubmit_sends_iff_filled (answering expired) sampleUser
      { sampleForm with formData := ⟨"site", "", "secret", "", ""⟩ } sampleWorld).1
      (Or.inr (Or.inl rfl)),
    ((handleSubmit_sends_iff_filled (answering expired) sampleUser sampleForm sampleWorld).2.1
      ⟨by decide, by decide, by decide⟩).1⟩

/-! ## Success codes of the dashboard handlers -/

/-- A response whose code is a string passes the session check untouched. -/
theorem checkExpiry_str (response : JsValue) (t : String) (w : World)
    (hcode : getProp response "code" = .ok (.str t)) :
    checkExpiry (.ok response) w = (.ok response, w) :=
  checkExpiry_pass response (.str t) w hcode rfl

/-- What a handler that compares the code with the string `t` receives when the code of the
answer is not `t`: a value whose code is not `t` either. -/
theorem checkExpiry_seen_other (response code : JsValue) (t : String) (w : World)
    (hcode : getProp response "code" = .ok code) (hne : code ≠ .str t) :
    ∃ seen w1 c, checkExpiry (.ok response) w = (.ok seen, w1) ∧ w1.effects = w.effects
      ∧ getProp seen "code" = .ok c ∧ strictEqStr c t = false
      ∧ (seen = sessionExpired ∨ (seen = response ∧ w1 = w)) := by
  obtain ⟨seen, w1, hseen, heff, hcase⟩ := checkExpiry_seen response code w hcode
  rcases hcase with ⟨-, hs, hw⟩ | ⟨-, hs⟩
  · refine ⟨seen, w1, code, hseen, heff, by rw [hs]; exact hcode, ?_, Or.inr ⟨hs, hw⟩⟩
    rw [← Bool.not_eq_true]
    exact fun h => hne ((strictEqStr_iff code t).mp h)
  · exact ⟨seen, w1, .undefined, hseen, heff, by rw [hs]; rfl, rfl, Or.inl hs⟩

theorem update_success (p : Platform) (s : DashboardState) (w : World)
    (passwordData id platform password response : JsValue)
    (hid : getProp passwordData "id" = .ok id)
    (hplatform : getProp passwordData "platform" = .ok platform)
    (hpassword : getProp passwordData "password" = .ok password)
    (hpost : p.post (.obj (formatData p [("id", id), ("name", platform),
      ("password", password), ("update_password", .bool true)])) = .ok response)
    (hcode : getProp response "code" = .ok (.str "150")) :
    Dashboard.handleUpdatePassword p passwordData s w
      = ({ s with editingPassword := .null },
          { w with effects := w.effects ++ [.post (.obj (formatData p [("id", id),
              ("name", platform), ("password", password), ("update_password", .bool true)])),
            .toastSuccess (.str "Password updated successfully"), .fetchPasswords] }) := by
  simp only [Dashboard.handleUpdatePassword, passwordService.updatePassword, hid, hplatform,
    hpassword, apiPost, hpost]
  rw [checkExpiry_str response "150" _ hcode]
  simp [hcode, strictEqStr, World.emit]

theorem update_other_code (p : Platform) (s : DashboardState) (w : World)
    (passwordData id platform password response code : JsValue)
    (hid : getProp passwordData "id" = .ok id)
    (hplatform : getProp passwordData "platform" = .ok platform)
    (hpassword : getProp passwordData "password" = .ok password)
    (hpost : p.post (.obj (formatData p [("id", id), ("name", platform),
      ("password", password), ("update_password", .bool true)])) = .ok response)
    (hcode : getProp response "code" = .ok code) (hne : code ≠ .str "150") :
    (Dashboard.handleUpdatePassword p passwordData s w).1 = s
    ∧ (Dashboard.handleUpdatePassword p passwordData s w).2.effects
      = w.effects ++ [.post (.obj (formatData p [("id", id), ("name", platform),
          ("password", password), ("update_password", .bool true)]))] := by
  simp only [Dashboard.handleUpdatePassword, passwordService.updatePassword, hid, hplatform,
    hpassword, apiPost, hpost]
  obtain ⟨seen, w1, c, hseen, heff, hc, hcf, -⟩ :=
    checkExpiry_seen_other response code "150" (w.emit (.post (.obj (formatData p [("id", id),
      ("name", platform), ("password", password), ("update_password", .bool true)])))) hcode hne
  rw [hseen]
  simp [hc, hcf, heff, World.emit]

theorem delete_success (p : Platform) (s : DashboardState) (w : World)
    (passwordId response : JsValue)
    (hpost : p.post (.obj (formatData p [("delete_password", .bool true),
      ("id", passwordId)])) = .ok response)
    (hcode : getProp response "code" = .ok (.str "160")) :
    Dashboard.handleDeletePassword p passwordId true s w
      = (s, { w with effects := w.effects ++ [.post (.obj (formatData p
            [("delete_password", .bool true), ("id", passwordId)])),
          .toastSuccess (.str "Password deleted successfully"), .fetchPasswords] }) := by
  simp only [Dashboard.handleDeletePassword, passwordService.deletePassword, apiPost, hpost,
    if_true]
  rw [checkExpiry_str response "160" _ hcode]
  simp [hcode, strictEqStr, World.emit]

theorem delete_other_code (p : Platform) (s : DashboardState) (w : World)
    (passwordId response code : JsValue)
    (hpost : p.post (.obj (formatData p [("delete_password", .bool true),
      ("id", passwordId)])) = .ok response)
    (hcode : getProp response "code" = .ok code) (hne : code ≠ .str "160") :
    (Dashboard.handleDeletePassword p passwordId true s w).1 = s
    ∧ (Dashboard.handleDeletePassword p passwordId true s w).2.effects
      = w.effects ++ [.post (.obj (formatData p [("delete_password", .bool true),
          ("id", passwordId)]))] := by
  simp only [Dashboard.handleDeletePassword, passwordService.deletePassword, apiPost, hpost,
    if_true]
  obtain ⟨seen, w1, c, hseen, heff, hc, hcf, -⟩ :=
    checkExpiry_seen_other response code "160" (w.emit (.post (.obj (formatData p
      [("delete_password", .bool true), ("id", passwordId)])))) hcode hne
  rw [hseen]
  simp [hc, hcf, heff, World.emit]

/-- A failed property read throws a `TypeError`. -/
theorem getProp_error (v : JsValue) (key : String) (e : JsError)
    (h : getProp v key = .error e) : e = .typeError := by
  cases v <;> simp [getProp] at h <;> exact h.symm

theorem import_success (p : Platform) (s : DashboardState) (w : World) (u : User)
    (file : File) (csvData : String) (response data imported : JsValue)
    (hfile : (file.type != "text/csv" && !(".csv".data.isSuffixOf file.name.data)) = false)
    (hread : p.readAsText file = some csvData)
    (hpost : p.post (.obj (formatData p [("import_passwords", .bool true),
      ("email", u.email), ("csv_data", .str csvData)])) = .ok response)
    (hcode : getProp response "code" = .ok (.str "172"))
    (hdata : getProp response "data" = .ok data)
    (himported : getProp data "imported" = .ok imported) :
    Dashboard.handleFileChange p (some u) (some file) s w
      = ({ s with isImporting := false },
          { w with effects := w.effects ++ [.post (.obj (formatData p
              [("import_passwords", .bool true), ("email", u.email),
                ("csv_data", .str csvData)])),
            .toastSuccess
              (.str ("Successfully imported " ++ p.toText imported ++ " passwords")),
            .fetchPasswords, .resetFileInput] }) := by
  simp only [Dashboard.handleFileChange, hfile, Dashboard.importFile,
    passwordService.importPasswords, hread, apiPost, hpost]
  rw [checkExpiry_str response "172" _ hcode]
  simp [hcode, strictEqStr, hdata, himported, World.emit]

theorem import_unreadable (p : Platform) (s : DashboardState) (w : World) (u : User)
    (file : File) (csvData : String) (response data : JsValue) (e : JsError)
    (hfile : (file.type != "text/csv" && !(".csv".data.isSuffixOf file.name.data)) = false)
    (hread : p.readAsText file = some csvData)
    (hpost : p.post (.obj (formatData p [("import_passwords", .bool true),
      ("email", u.email), ("csv_data", .str csvData)])) = .ok response)
    (hcode : getProp response "code" = .ok (.str "172"))
    (hdata : getProp response "data" = .ok data)
    (himported : getProp data "imported" = .error e) :
    (Dashboard.handleFileChange p (some u) (some file) s w).2.effects
      = w.effects ++ [.post (.obj (formatData p [("import_passwords", .bool true),
            ("email", u.email), ("csv_data", .str csvData)])),
          .toastError (.str "Failed to import passwords"), .resetFileInput] := by
  have he := getProp_error data "imported" e himported
  subst he
  simp only [Dashboard.handleFileChange, hfile, Dashboard.importFile,
    passwordService.importPasswords, hread, apiPost, hpost]
  rw [checkExpiry_str response "172" _ hcode]
  simp [hcode, strictEqStr, hdata, himported, World.emit, Dashboard.handleError,
    JsError.messageIs]

theorem import_other_code (p : Platform) (s : DashboardState) (w : World) (u : User)
    (file : File) (csvData : String) (response code : JsValue)
    (hfile : (file.type != "text/csv" && !(".csv".data.isSuffixOf file.name.data)) = false)
    (hread : p.readAsText file = some csvData)
    (hpost : p.post (.obj (formatData p [("import_passwords", .bool true),
      ("email", u.email), ("csv_data", .str csvData)])) = .ok response)
    (hcode : getProp response "code" = .ok code) (hne : code ≠ .str "172") :
    ∃ message, (Dashboard.handleFileChange p (some u) (some file) s w).2.effects
      = w.effects ++ [.post (.obj (formatData p [("import_passwords", .bool true),
            ("email", u.email), ("csv_data", .str csvData)])),
          .toastError message, .resetFileInput] := by
  simp only [Dashboard.handleFileChange, hfile, Dashboard.importFile,
    passwordService.importPasswords, hread, apiPost, hpost]
  obtain ⟨seen, w1, c, hseen, heff, hc, hcf, -⟩ :=
    checkExpiry_seen_other response code "172" (w.emit (.post (.obj (formatData p
      [("import_passwords", .bool true), ("email", u.email), ("csv_data", .str csvData)]))))
      hcode hne
  obtain ⟨message, hmessage⟩ := getProp_ok_of_ok seen "code" "message" c hc
  rw [hseen]
  exact ⟨if truthy message then message else .str "Failed to import passwords",
    by simp [hc, hcf, hmessage, heff, World.emit]⟩

theorem generate_other_code (p : Platform) (s : DashboardState) (w : World)
    (response code : JsValue)
    (hpost : p.post (.obj (formatData p [("generate_password", .bool true)])) = .ok response)
    (hcode : getProp response "code" = .ok code) (hne : code ≠ .str "180") :
    (Dashboard.generatePassword p s w).1 = s
    ∧ (Dashboard.generatePassword p s w).2.effects
      = w.effects ++ [.post (.obj (formatData p [("generate_password", .bool true)])),
          .toastError (.str "Failed to generate password")] := by
  simp only [Dashboard.generatePassword, passwordService.generatePassword, apiPost, hpost]
  obtain ⟨seen, w1, c, hseen, heff, hc, hcf, -⟩ :=
    checkExpiry_seen_other response code "180" (w.emit (.post (.obj (formatData p
      [("generate_password", .bool true)])))) hcode hne
  rw [hseen]
  simp [hc, hcf, heff, World.emit, Dashboard.generateFailed]

theorem generate_unreadable (p : Platform) (s : DashboardState) (w : World)
    (response data : JsValue) (e : JsError)
    (hpost : p.post (.obj (formatData p [("generate_password", .bool true)])) = .ok response)
    (hcode : getProp response "code" = .ok (.str "180"))
    (hdata : getProp response "data" = .ok data)
    (hpassword : getProp data "password" = .error e) :
    (Dashboard.generatePassword p s w).1 = s
    ∧ (Dashboard.generatePassword p s w).2.effects
      = w.effects ++ [.post (.obj (formatData p [("generate_password", .bool true)])),
          .toastError (.str "Failed to generate password")] := by
  simp only [Dashboard.generatePassword, passwordService.generatePassword, apiPost, hpost]
  rw [checkExpiry_str response "180" _ hcode]
  simp [hcode, strictEqStr, hdata, hpassword, World.emit, Dashboard.generateFailed]

/-- The `catch` block of the dashboard handlers reports no success. -/
theorem handleError_added (failure : String) (e : JsError) (w : World) :
    ∃ added, (Dashboard.handleError failure e w).effects = w.effects ++ added
      ∧ ∀ x ∈ added, Effect.reportsSuccess x = false := by
  unfold Dashboard.handleError
  split
  · exact ⟨[.toastError (.str "Session expired. Please login again."), .onLogout],
      by simp [World.emit], by simp [Effect.reportsSuccess]⟩
  · exact ⟨[.toastError (.str failure)], by simp [World.emit], by simp [Effect.reportsSuccess]⟩

/-- The `catch` block after the request `body` was posted. -/
theorem handleError_after_post (failure : String) (e : JsError) (w : World) (body : JsValue) :
    ∃ added, (Dashboard.handleError failure e (w.emit (.post body))).effects
        = w.effects ++ added
      ∧ ∀ x ∈ added, Effect.reportsSuccess x = false := by
  obtain ⟨added, h1, h2⟩ := handleError_added failure e (w.emit (.post body))
  refine ⟨.post body :: added, ?_, ?_⟩
  · rw [h1]
    simp [World.emit]
  · intro x hx
    rcases List.mem_cons.mp hx with hx | hx
    · subst hx
      rfl
    · exact h2 x hx

/-- The update handler on every path other than the success path: the record has no readable
fields, the request is rejected, the answer has no readable code, or its code is not
`'150'`. -/
theorem update_failure (p : Platform) (passwordData : JsValue) (s : DashboardState) (w : World)
    (h : ¬ ∃ id platform password response,
      getProp passwordData "id" = .ok id ∧ getProp passwordData "platform" = .ok platform
      ∧ getProp passwordData "password" = .ok password
      ∧ p.post (.obj (formatData p [("id", id), ("name", platform), ("password", password),
          ("update_password", .bool true)])) = .ok response
      ∧ getProp response "code" = .ok (.str "150")) :
    (Dashboard.handleUpdatePassword p passwordData s w).1 = s
    ∧ ∃ added, (Dashboard.handleUpdatePassword p passwordData s w).2.effects
        = w.effects ++ added
      ∧ ∀ x ∈ added, Effect.reportsSuccess x = false := by
  cases hid : getProp passwordData "id" with
  | error e =>
    have he : Dashboard.handleUpdatePassword p passwordData s w
        = (s, Dashboard.handleError "Failed to update password" .typeError w) := by
      simp only [Dashboard.handleUpdatePassword, passwordService.updatePassword, hid]
    rw [he]
    exact ⟨rfl, handleError_added _ _ _⟩
  | ok id =>
    obtain ⟨platform, hplatform⟩ := getProp_ok_of_ok passwordData "id" "platform" id hid
    obtain ⟨password, hpassword⟩ := getProp_ok_of_ok passwordData "id" "password" id hid
    cases hpost : p.post (.obj (formatData p [("id", id), ("name", platform),
        ("password", password), ("update_password", .bool true)])) with
    | error e =>
      have he : Dashboard.handleUpdatePassword p passwordData s w
          = (s, Dashboard.handleError "Failed to update password" e
              (w.emit (.post (.obj (formatData p [("id", id), ("name", platform),
                ("password", password), ("update_password", .bool true)]))))) := by
        simp only [Dashboard.handleUpdatePassword, passwordService.updatePassword, hid,
          hplatform, hpassword, apiPost, hpost, checkExpiry_error]
      rw [he]
      exact ⟨rfl, handleError_after_post _ _ _ _⟩
    | ok response =>
      cases hcode : getProp response "code" with
      | error e =>
        have he : Dashboard.handleUpdatePassword p passwordData s w
            = (s, Dashboard.handleError "Failed to update password" e
                (w.emit (.post (.obj (formatData p [("id", id), ("name", platform),
                  ("password", password), ("update_password", .bool true)]))))) := by
          simp only [Dashboard.handleUpdatePassword, passwordService.updatePassword, hid,
            hplatform, hpassword, apiPost, hpost]
          rw [checkExpiry_unreadable _ _ _ hcode]
        rw [he]
        exact ⟨rfl, handleError_after_post _ _ _ _⟩
      | ok code =>
        have hne : code ≠ .str "150" := by
          intro hc
          subst hc
          exact h ⟨id, platform, password, response, hid, hplatform, hpassword, hpost, hcode⟩
        obtain ⟨h1, h2⟩ := update_other_code p s w passwordData id platform password response
          code hid hplatform hpassword hpost hcode hne
        exact ⟨h1, _, h2, by simp [Effect.reportsSuccess]⟩

/-- The delete handler on every path other than the success path. -/
theorem delete_failure (p : Platform) (passwordId : JsValue) (confirmed : Bool)
    (s : DashboardState) (w : World)
    (h : ¬ (confirmed = true ∧ ∃ response,
      p.post (.obj (formatData p [("delete_password", .bool true), ("id", passwordId)]))
        = .ok response
      ∧ getProp response "code" = .ok (.str "160"))) :
    (Dashboard.handleDeletePassword p passwordId confirmed s w).1 = s
    ∧ ∃ added, (Dashboard.handleDeletePassword p passwordId confirmed s w).2.effects
        = w.effects ++ added
      ∧ ∀ x ∈ added, Effect.reportsSuccess x = false := by
  cases confirmed with
  | false => exact ⟨rfl, [], by simp [Dashboard.handleDeletePassword], by simp⟩
  | true =>
    cases hpost : p.post (.obj (formatData p [("delete_password", .bool true),
        ("id", passwordId)])) with
    | error e =>
      have he : Dashboard.handleDeletePassword p passwordId true s w
          = (s, Dashboard.handleError "Failed to delete password" e
              (w.emit (.post (.obj (formatData p [("delete_password", .bool true),
                ("id", passwordId)]))))) := by
        simp only [Dashboard.handleDeletePassword, passwordService.deletePassword, apiPost,
          hpost, checkExpiry_error, if_true]
      rw [he]
      exact ⟨rfl, handleError_after_post _ _ _ _⟩
    | ok response =>
      cases hcode : getProp response "code" with
      | error e =>
        have he : Dashboard.handleDeletePassword p passwordId true s w
            = (s, Dashboard.handleError "Failed to delete password" e
                (w.emit (.post (.obj (formatData p [("delete_password", .bool true),
                  ("id", passwordId)]))))) := by
          simp only [Dashboard.handleDeletePassword, passwordService.deletePassword, apiPost,
            hpost, if_true]
          rw [checkExpiry_unreadable _ _ _ hcode]
        rw [he]
        exact ⟨rfl, handleError_after_post _ _ _ _⟩
      | ok code =>
        have hne : code ≠ .str "160" := by
          intro hc
          subst hc
          exact h ⟨rfl, response, hpost, hcode⟩
        obtain ⟨h1, h2⟩ := delete_other_code p s w passwordId response code hpost hcode hne
        exact ⟨h1, _, h2, by simp [Effect.reportsSuccess]⟩


/-- The dashboard's `generatePassword` on every path other than the success path. -/
theorem generate_failure (p : Platform) (s : DashboardState) (w : World)
    (h : ¬ ∃ response data password,
      p.post (.obj (formatData p [("generate_password", .bool true)])) = .ok response
      ∧ getProp response "code" = .ok (.str "180")
      ∧ getProp response "data" = .ok data ∧ getProp data "password" = .ok password) :
    (Dashboard.generatePassword p s w).1 = s
    ∧ (Dashboard.generatePassword p s w).2.effects
      = w.effects ++ [.post (.obj (formatData p [("generate_password", .bool true)])),
          .toastError (.str "Failed to generate password")] := by
  cases hpost : p.post (.obj (formatData p [("generate_password", .bool true)])) with
  | error e =>
    have he : Dashboard.generatePassword p s w
        = (s, Dashboard.generateFailed
            (w.emit (.post (.obj (formatData p [("generate_password", .bool true)]))))) := by
      simp only [Dashboard.generatePassword, passwordService.generatePassword, apiPost, hpost,
        checkExpiry_error]
    rw [he]
    exact ⟨rfl, by simp [Dashboard.generateFailed, World.emit]⟩
  | ok response =>
    cases hcode : getProp response "code" with
    | error e =>
      have he : Dashboard.generatePassword p s w
          = (s, Dashboard.generateFailed
              (w.emit (.post (.obj (formatData p [("generate_password", .bool true)]))))) := by
        simp only [Dashboard.generatePassword, passwordService.generatePassword, apiPost, hpost]
        rw [checkExpiry_unreadable _ _ _ hcode]
      rw [he]
      exact ⟨rfl, by simp [Dashboard.generateFailed, World.emit]⟩
    | ok code =>
      by_cases hc : code = .str "180"
      · subst hc
        obtain ⟨data, hdata⟩ := getProp_ok_of_ok response "code" "data" _ hcode
        cases hpassword : getProp data "password" with
        | error e => exact generate_unreadable p s w response data e hpost hcode hdata hpassword
        | ok password => exact absurd ⟨response, data, password, hpost, hcode, hdata, hpassword⟩ h
      · exact generate_other_code p s w response code hpost hcode hc

/-- The import handler on every path other than the success path: no file, a file that is not
CSV, no user, a failed read, a rejected request, an answer without a readable code, a code
other than `'172'`, or a code `'172'` without a readable `data`. -/
theorem import_failure (p : Platform) (user : Option User) (file : Option File)
    (s : DashboardState) (w : World)
    (h : ¬ ∃ u f csvData response data imported,
      user = some u ∧ file = some f
      ∧ (f.type != "text/csv" && !(".csv".data.isSuffixOf f.name.data)) = false
      ∧ p.readAsText f = some csvData
      ∧ p.post (.obj (formatData p [("import_passwords", .bool true), ("email", u.email),
          ("csv_data", .str csvData)])) = .ok response
      ∧ getProp response "code" = .ok (.str "172")
      ∧ getProp response "data" = .ok data ∧ getProp data "imported" = .ok imported) :
    ∃ added, (Dashboard.handleFileChange p user file s w).2.effects = w.effects ++ added
      ∧ ∀ x ∈ added, Effect.reportsSuccess x = false := by
  have hcatch : ∀ (e : JsError) (w1 : World) (pre : List Effect),
      w1.effects = w.effects ++ pre → (∀ x ∈ pre, Effect.reportsSuccess x = false) →
      ∃ added, ((Dashboard.handleError "Failed to import passwords" e w1).emit
          .resetFileInput).effects = w.effects ++ added
        ∧ ∀ x ∈ added, Effect.reportsSuccess x = false := by
    intro e w1 pre hpre hno
    obtain ⟨added, h1, h2⟩ := handleError_added "Failed to import passwords" e w1
    refine ⟨pre ++ added ++ [.resetFileInput], ?_, ?_⟩
    · show (Dashboard.handleError "Failed to import passwords" e w1).effects
        ++ [Effect.resetFileInput] = _
      rw [h1, hpre]
      simp
    · intro x hx
      simp only [List.mem_append, List.mem_singleton] at hx
      rcases hx with (hx | hx) | hx
      · exact hno x hx
      · exact h2 x hx
      · subst hx
        rfl
  cases file with
  | none => exact ⟨[], by simp [Dashboard.handleFileChange], by simp⟩
  | some f =>
    by_cases hfile : (f.type != "text/csv" && !(".csv".data.isSuffixOf f.name.data)) = true
    · refine ⟨[.toastError (.str "Please select a valid CSV file")], ?_,
        by simp [Effect.reportsSuccess]⟩
      simp only [Dashboard.handleFileChange, hfile, if_true]
      rfl
    · have hfile2 : (f.type != "text/csv" && !(".csv".data.isSuffixOf f.name.data)) = false := by
        simpa using hfile
      cases user with
      | none =>
        have he : (Dashboard.handleFileChange p none (some f) s w).2
            = (Dashboard.handleError "Failed to import passwords" .typeError w).emit
                .resetFileInput := by
          simp only [Dashboard.handleFileChange, hfile2, Dashboard.importFile]
          rfl
        rw [he]
        exact hcatch _ w [] (by simp) (by simp)
      | some u =>
        cases hread : p.readAsText f with
        | none =>
          have he : (Dashboard.handleFileChange p (some u) (some f) s w).2
              = (Dashboard.handleError "Failed to import passwords"
                  (.error "Failed to read CSV file") w).emit .resetFileInput := by
            simp only [Dashboard.handleFileChange, hfile2, Dashboard.importFile,
              passwordService.importPasswords, hread]
            rfl
          rw [he]
          exact hcatch _ w [] (by simp) (by simp)
        | some csvData =>
          cases hpost : p.post (.obj (formatData p [("import_passwords", .bool true),
              ("email", u.email), ("csv_data", .str csvData)])) with
          | error e =>
            have he : (Dashboard.handleFileChange p (some u) (some f) s w).2
                = (Dashboard.handleError "Failed to import passwords" e
                    (w.emit (.post (.obj (formatData p [("import_passwords", .bool true),
                      ("email", u.email), ("csv_data", .str csvData)]))))).emit
                    .resetFileInput := by
              simp only [Dashboard.handleFileChange, hfile2, Dashboard.importFile,
                passwordService.importPasswords, hread, apiPost, hpost, checkExpiry_error]
              rfl
            rw [he]
            exact hcatch _ _ [.post (.obj (formatData p [("import_passwords", .bool true),
              ("email", u.email), ("csv_data", .str csvData)]))] rfl (by simp [Effect.reportsSuccess])
          | ok response =>
            cases hcode : getProp response "code" with
            | error e =>
              have he : (Dashboard.handleFileChange p (some u) (some f) s w).2
                  = (Dashboard.handleError "Failed to import passwords" e
                      (w.emit (.post (.obj (formatData p [("import_passwords", .bool true),
                        ("email", u.email), ("csv_data", .str csvData)]))))).emit
                      .resetFileInput := by
                simp only [Dashboard.handleFileChange, hfile2, Dashboard.importFile,
                  passwordService.importPasswords, hread, apiPost, hpost]
                rw [checkExpiry_unreadable _ _ _ hcode]
                rfl
              rw [he]
              exact hcatch _ _ [.post (.obj (formatData p [("import_passwords", .bool true),
                ("email", u.email), ("csv_data", .str csvData)]))] rfl
                (by simp [Effect.reportsSuccess])
            | ok code =>
              by_cases hc : code = .str "172"
              · subst hc
                obtain ⟨data, hdata⟩ := getProp_ok_of_ok response "code" "data" _ hcode
                cases himported : getProp data "imported" with
                | error e =>
                  exact ⟨_, import_unreadable p s w u f csvData response data e hfile2 hread
                    hpost hcode hdata himported, by simp [Effect.reportsSuccess]⟩
                | ok imported =>
                  exact absurd ⟨u, f, csvData, response, data, imported, rfl, rfl, hfile2,
                    hread, hpost, hcode, hdata, himported⟩ h
              · obtain ⟨message, hm⟩ := import_other_code p s w u f csvData response code
                  hfile2 hread hpost hcode hc
                exact ⟨_, hm, by simp [Effect.reportsSuccess]⟩

/-- The add handler on every path other than the success path: a required field is empty, the
request is rejected, the answer has no readable code, its code is not the number 11, or it
has code 11 without a readable `data`. -/
theorem submit_failure (p : Platform) (user : User) (s : AddPasswordState) (w : World)
    (h : ¬ ((s.formData.platform ≠ "" ∧ s.formData.email ≠ "" ∧ s.formData.password ≠ "")
      ∧ ∃ response data id,
        p.post (.obj (formatData p (addRequest user s.formData))) = .ok response
        ∧ getProp response "code" = .ok (.num 11)
        ∧ getProp response "data" = .ok data ∧ getProp data "id" = .ok id)) :
    ∃ added, (AddPassword.handleSubmit p user s w).2.effects = w.effects ++ added
      ∧ ∀ x ∈ added, Effect.reportsSuccess x = false := by
  by_cases hfilled : s.formData.platform ≠ "" ∧ s.formData.email ≠ "" ∧ s.formData.password ≠ ""
  · rw [handleSubmit_filled p user s w hfilled]
    have hmsg : ∀ message, (AddPassword.submit p user s.formData (w.emit .preventDefault)).effects
        = (w.emit .preventDefault).effects
          ++ [.post (.obj (formatData p (addRequest user s.formData))), .toastError message] →
        ∃ added, (AddPassword.submit p user s.formData (w.emit .preventDefault)).effects
          = w.effects ++ added ∧ ∀ x ∈ added, Effect.reportsSuccess x = false := by
      intro message hm
      refine ⟨[.preventDefault, .post (.obj (formatData p (addRequest user s.formData))),
        .toastError message], ?_, by simp [Effect.reportsSuccess]⟩
      rw [hm]
      simp [World.emit]
    cases hpost : p.post (.obj (formatData p (addRequest user s.formData))) with
    | error e => exact hmsg _ (submit_rejected p user s.formData _ (Or.inl ⟨e, hpost⟩))
    | ok response =>
      cases hcode : getProp response "code" with
      | error e =>
        exact hmsg _ (submit_rejected p user s.formData _ (Or.inr ⟨response, e, hpost, hcode⟩))
      | ok code =>
        by_cases h11 : code = .num 11
        · subst h11
          obtain ⟨data, hdata⟩ := getProp_ok_of_ok response "code" "data" _ hcode
          cases hid : getProp data "id" with
          | error e =>
            exact hmsg _ (submit_unreadable p user s.formData _ response data e hpost hcode
              hdata hid)
          | ok id => exact absurd ⟨hfilled, response, data, id, hpost, hcode, hdata, hid⟩ h
        · exact hmsg _ (submit_other_code p user s.formData _ response code hpost hcode h11)
  · have hempty : s.formData.platform = "" ∨ s.formData.email = "" ∨ s.formData.password = "" := by
      by_contra hc
      push_neg at hc
      exact hfilled hc
    rw [handleSubmit_empty p user s w hempty]
    exact ⟨[.preventDefault, .toastError (.str "Please fill in all required fields")],
      by simp [World.emit], by simp [Effect.reportsSuccess]⟩

/-- C19, as stated, fails: on an answer of code 11 that carries no `data`, `handleSubmit` calls
neither `onAdd` nor `onClose` and reports an error, although the code is the success code of
add. -/
theorem handleSubmit_code_11_without_data :
    getProp (.obj [("code", .num 11)]) "code" = .ok (.num 11)
    ∧ (AddPassword.handleSubmit (answering (.obj [("code", .num 11)])) sampleUser sampleForm
        sampleWorld).2.effects
      = [.preventDefault,
         .post (.obj (formatData (answering (.obj [("code", .num 11)]))
           (addRequest sampleUser sampleForm.formData))),
         .toastError (.str "An error occurred while adding the password")] :=
  ⟨rfl, rfl⟩

/-- C19, amended: each of the five handlers takes its success path exactly when its request is
answered, the `code` of the answer is the success code of the operation (the number 11 for
add, the strings `'150'`, `'160'`, `'172'`, `'180'` for update, delete, import and generate)
and, for add, import and generate, the `data` of the answer is neither `null` nor missing.
On add success `onAdd` is called once with the record made of `data.id` and the form's
platform, email, password, notes and parsed tags, then `onClose`, then the success
notification.  In every other case, whether the request is rejected, the answer has no
readable code, the code is another one, the `data` is missing or no request is sent at all,
the handler performs no effect that reports success: no success notification, no reload of the
list, neither `onAdd` nor `onClose`; update, delete and generate then leave the state as it
was, and generate reports `Failed to generate password`. -/
theorem client_success_codes (p : Platform) (w : World) :
    (∀ user s,
      (∀ response data id,
        (s.formData.platform ≠ "" ∧ s.formData.email ≠ "" ∧ s.formData.password ≠ "") →
        p.post (.obj (formatData p (addRequest user s.formData))) = .ok response →
        getProp response "code" = .ok (.num 11) →
        getProp response "data" = .ok data → getProp data "id" = .ok id →
        (AddPassword.handleSubmit p user s w).2.effects
          = w.effects ++ [.preventDefault,
              .post (.obj (formatData p (addRequest user s.formData))),
              .onAdd (newPassword id s.formData), .onClose,
              .toastSuccess (.str "Password added successfully!")])
      ∧ (¬ ((s.formData.platform ≠ "" ∧ s.formData.email ≠ "" ∧ s.formData.password ≠ "")
          ∧ ∃ response data id,
            p.post (.obj (formatData p (addRequest user s.formData))) = .ok response
            ∧ getProp response "code" = .ok (.num 11)
            ∧ getProp response "data" = .ok data ∧ getProp data "id" = .ok id) →
        ∃ added, (AddPassword.handleSubmit p user s w).2.effects = w.effects ++ added
          ∧ ∀ x ∈ added, Effect.reportsSuccess x = false))
    ∧ (∀ passwordData s,
      (∀ id platform password response,
        getProp passwordData "id" = .ok id →
        getProp passwordData "platform" = .ok platform →
        getProp passwordData "password" = .ok password →
        p.post (.obj (formatData p [("id", id), ("name", platform), ("password", password),
          ("update_password", .bool true)])) = .ok response →
        getProp response "code" = .ok (.str "150") →
        Dashboard.handleUpdatePassword p passwordData s w
          = ({ s with editingPassword := .null },
              { w with effects := w.effects ++ [.post (.obj (formatData p [("id", id),
                  ("name", platform), ("password", password),
                  ("update_password", .bool true)])),
                .toastSuccess (.str "Password updated successfully"), .fetchPasswords] }))
      ∧ ((¬ ∃ id platform password response,
          getProp passwordData "id" = .ok id ∧ getProp passwordData "platform" = .ok platform
          ∧ getProp passwordData "password" = .ok password
          ∧ p.post (.obj (formatData p [("id", id), ("name", platform),
              ("password", password), ("update_password", .bool true)])) = .ok response
          ∧ getProp response "code" = .ok (.str "150")) →
        (Dashboard.handleUpdatePassword p passwordData s w).1 = s
        ∧ ∃ added, (Dashboard.handleUpdatePassword p passwordData s w).2.effects
            = w.effects ++ added
          ∧ ∀ x ∈ added, Effect.reportsSuccess x = false))
    ∧ (∀ passwordId confirmed s,
      (∀ response, confirmed = true →
        p.post (.obj (formatData p [("delete_password", .bool true), ("id", passwordId)]))
          = .ok response →
        getProp response "code" = .ok (.str "160") →
        Dashboard.handleDeletePassword p passwordId confirmed s w
          = (s, { w with effects := w.effects ++ [.post (.obj (formatData p
                [("delete_password", .bool true), ("id", passwordId)])),
              .toastSuccess (.str "Password deleted successfully"), .fetchPasswords] }))
      ∧ (¬ (confirmed = true ∧ ∃ response,
          p.post (.obj (formatData p [("delete_password", .bool true), ("id", passwordId)]))
            = .ok response
          ∧ getProp response "code" = .ok (.str "160")) →
        (Dashboard.handleDeletePassword p passwordId confirmed s w).1 = s
        ∧ ∃ added, (Dashboard.handleDeletePassword p passwordId confirmed s w).2.effects
            = w.effects ++ added
          ∧ ∀ x ∈ added, Effect.reportsSuccess x = false))
    ∧ (∀ (user : Option User) (file : Option File) s,
      (∀ (u : User) (f : File) (csvData : String) response data imported,
        user = some u → file = some f →
        (f.type != "text/csv" && !(".csv".data.isSuffixOf f.name.data)) = false →
        p.readAsText f = some csvData →
        p.post (.obj (formatData p [("import_passwords", .bool true), ("email", u.email),
          ("csv_data", .str csvData)])) = .ok response →
        getProp response "code" = .ok (.str "172") →
        getProp response "data" = .ok data → getProp data "imported" = .ok imported →
        (Dashboard.handleFileChange p user file s w).2.effects
          = w.effects ++ [.post (.obj (formatData p [("import_passwords", .bool true),
                ("email", u.email), ("csv_data", .str csvData)])),
              .toastSuccess
                (.str ("Successfully imported " ++ p.toText imported ++ " passwords")),
              .fetchPasswords, .resetFileInput])
      ∧ ((¬ ∃ u f csvData response data imported,
          user = some u ∧ file = some f
          ∧ (f.type != "text/csv" && !(".csv".data.isSuffixOf f.name.data)) = false
          ∧ p.readAsText f = some csvData
          ∧ p.post (.obj (formatData p [("import_passwords", .bool true), ("email", u.email),
              ("csv_data", .str csvData)])) = .ok response
          ∧ getProp response "code" = .ok (.str "172")
          ∧ getProp response "data" = .ok data ∧ getProp data "imported" = .ok imported) →
        ∃ added, (Dashboard.handleFileChange p user file s w).2.effects = w.effects ++ added
          ∧ ∀ x ∈ added, Effect.reportsSuccess x = false))
    ∧ (∀ s,
      (∀ response data password strength,
        p.post (.obj (formatData p [("generate_password", .bool true)])) = .ok response →
        getProp response "code" = .ok (.str "180") →
        getProp response "data" = .ok data →
        getProp data "password" = .ok password → getProp data "strength" = .ok strength →
        Dashboard.generatePassword p s w
          = ({ s with suggestedPassword := password, passwordStrength := strength },
              w.emit (.post (.obj (formatData p [("generate_password", .bool true)])))))
      ∧ ((¬ ∃ response data password,
          p.post (.obj (formatData p [("generate_password", .bool true)])) = .ok response
          ∧ getProp response "code" = .ok (.str "180")
          ∧ getProp response "data" = .ok data ∧ getProp data "password" = .ok password) →
        (Dashboard.generatePassword p s w).1 = s
        ∧ (Dashboard.generatePassword p s w).2.effects
          = w.effects ++ [.post (.obj (formatData p [("generate_password", .bool true)])),
              .toastError (.str "Failed to generate password")])) := by
  refine ⟨?_, ?_, ?_, ?_, ?_⟩
  · intro user s
    refine ⟨?_, submit_failure p user s w⟩
    intro response data id hfilled hpost hcode hdata hid
    rw [handleSubmit_filled p user s w hfilled]
    show (AddPassword.submit p user s.formData (w.emit .preventDefault)).effects = _
    rw [submit_success p user s.formData _ response data id hpost hcode hdata hid]
    simp [World.emit]
  · intro passwordData s
    refine ⟨?_, update_failure p passwordData s w⟩
    intro id platform password response hid hplatform hpassword hpost hcode
    exact update_success p s w passwordData id platform password response hid hplatform
      hpassword hpost hcode
  · intro passwordId confirmed s
    refine ⟨?_, delete_failure p passwordId confirmed s w⟩
    intro response hconfirmed hpost hcode
    subst hconfirmed
    exact delete_success p s w passwordId response hpost hcode
  · intro user file s
    refine ⟨?_, import_failure p user file s w⟩
    intro u f csvData response data imported huser hf hfile hread hpost hcode hdata himported
    subst huser
    subst hf
    rw [import_success p s w u f csvData response data imported hfile hread hpost hcode
      hdata himported]
  · intro s
    refine ⟨?_, generate_failure p s w⟩
    intro response data password strength hpost hcode hdata hpassword hstrength
    exact dashboard_generate_replaced p s w response data password strength hpost hcode
      hdata hpassword hstrength

theorem client_success_codes_witness :
    (AddPassword.handleSubmit
          (answering (.obj [("code", .num 11), ("data", .obj [("id", .num 42)])])) sampleUser
          sampleForm sampleWorld).2.effects
      = [.preventDefault,
         .post (.obj (formatData
           (answering (.obj [("code", .num 11), ("data", .obj [("id", .num 42)])]))
           (addRequest sampleUser sampleForm.formData))),
         .onAdd (newPassword (.num 42) sampleForm.formData), .onClose,
         .toastSuccess (.str "Password added successfully!")]
    ∧ ((Dashboard.handleUpdatePassword (rejecting "Network Error") sampleRecord
          sampleDashboard sampleWorld).1 = sampleDashboard
      ∧ ∃ added, (Dashboard.handleUpdatePassword (rejecting "Network Error") sampleRecord
            sampleDashboard sampleWorld).2.effects = sampleWorld.effects ++ added
          ∧ ∀ x ∈ added, Effect.reportsSuccess x = false) :=
  ⟨((client_success_codes
      (answering (.obj [("code", .num 11), ("data", .obj [("id", .num 42)])]))
      sampleWorld).1 sampleUser sampleForm).1
        (.obj [("code", .num 11), ("data", .obj [("id", .num 42)])]) (.obj [("id", .num 42)])
        (.num 42) ⟨by decide, by decide, by decide⟩ rfl rfl rfl rfl,
    ((client_success_codes (rejecting "Network Error") sampleWorld).2.1 sampleRecord
      sampleDashboard).2
        (fun h => match h with
          | ⟨_, _, _, _, _, _, _, hpost, _⟩ => Except.noConfusion hpost)⟩

/-! ## The route table -/

/-- C21: once loading has finished, for every state of `AppRoutes`: when `isAuthenticated` is
false the routes `/dashboard` and `/add-password` render a redirect to `/login`, and no route
renders the `Dashboard` or the `AddPassword` component; when `isAuthenticated` is true the
routes `/`, `/login`, `/register` and `/forgot-password` render a redirect to `/dashboard`, and
no route renders the `Login`, `Register` or `ForgotPassword` component. -/
theorem routes_guard (s : AppState) (hloaded : s.isLoading = false) :
    (s.isAuthenticated = false →
        AppRoutes.render s "/dashboard" = some (.navigate "/login" true)
        ∧ AppRoutes.render s "/add-password" = some (.navigate "/login" true)
        ∧ ∀ path user, AppRoutes.render s path ≠ some (.dashboard user)
            ∧ AppRoutes.render s path ≠ some (.addPassword user))
    ∧ (s.isAuthenticated = true →
        AppRoutes.render s "/" = some (.navigate "/dashboard" true)
        ∧ AppRoutes.render s "/login" = some (.navigate "/dashboard" true)
        ∧ AppRoutes.render s "/register" = some (.navigate "/dashboard" true)
        ∧ AppRoutes.render s "/forgot-password" = some (.navigate "/dashboard" true)
        ∧ ∀ path, AppRoutes.render s path ≠ some .login
            ∧ AppRoutes.render s path ≠ some .register
            ∧ AppRoutes.render s path ≠ some .forgotPassword) := by
  constructor
  · intro hauth
    refine ⟨?_, ?_, ?_⟩
    · simp [AppRoutes.render, hloaded, AppRoutes.routes, hauth, List.lookup]
    · simp [AppRoutes.render, hloaded, AppRoutes.routes, hauth, List.lookup]
    · intro path user
      simp only [AppRoutes.render, hloaded, AppRoutes.routes, hauth, List.lookup,
        Bool.false_eq_true, if_false]
      constructor <;> (repeat' split) <;> simp
  · intro hauth
    refine ⟨?_, ?_, ?_, ?_, ?_⟩
    · simp [AppRoutes.render, hloaded, AppRoutes.routes, hauth, List.lookup]
    · simp [AppRoutes.render, hloaded, AppRoutes.routes, hauth, List.lookup]
    · simp [AppRoutes.render, hloaded, AppRoutes.routes, hauth, List.lookup]
    · simp [AppRoutes.render, hloaded, AppRoutes.routes, hauth, List.lookup]
    · intro path
      simp only [AppRoutes.render, hloaded, AppRoutes.routes, hauth, List.lookup,
        Bool.false_eq_true, if_false, if_true]
      refine ⟨?_, ?_, ?_⟩ <;> (repeat' split) <;> simp

theorem routes_guard_witness :
    AppRoutes.render ⟨false, none, false⟩ "/dashboard" = some (.navigate "/login" true)
    ∧ AppRoutes.render ⟨true, some sampleUser, false⟩ "/login"
        = some (.navigate "/dashboard" true) :=
  ⟨((routes_guard ⟨false, none, false⟩ rfl).1 rfl).1,
    ((routes_guard ⟨true, some sampleUser, false⟩ rfl).2 rfl).2.1⟩

/-! ## The tag list of `handleSubmit` -/

theorem splitOnComma_ne_nil (l : List Char) : splitOnComma l ≠ [] := by
  cases l with
  | nil => simp [splitOnComma]
  | cons c cs =>
    unfold splitOnComma
    split
    · simp
    · split <;> simp

/-- Joining the segments with commas gives the text back. -/
theorem intercalate_splitOnComma (l : List Char) :
    [','].intercalate (splitOnComma l) = l := by
  induction l with
  | nil => rfl
  | cons c cs ih =>
    have hne := splitOnComma_ne_nil cs
    unfold splitOnComma
    split
    · next hc =>
      subst hc
      obtain ⟨seg, rest, hsplit⟩ := List.exists_cons_of_ne_nil hne
      rw [hsplit] at ih ⊢
      simp only [List.intercalate, List.intersperse_cons₂, List.flatten_cons, List.nil_append,
        List.singleton_append] at ih ⊢
      rw [ih]
    · split
      · next h => exact absurd h hne
      · next seg rest hsplit =>
        rw [hsplit] at ih
        cases rest with
        | nil =>
          simp only [List.intercalate, List.intersperse, List.flatten_cons, List.flatten_nil,
            List.append_nil] at ih ⊢
          rw [ih]
        | cons seg2 rest2 =>
          simp only [List.intercalate, List.intersperse_cons₂, List.flatten_cons,
            List.cons_append] at ih ⊢
          rw [ih]

/-- No segment contains a comma. -/
theorem splitOnComma_no_comma (l : List Char) : ∀ seg ∈ splitOnComma l, ',' ∉ seg := by
  induction l with
  | nil => simp [splitOnComma]
  | cons c cs ih =>
    unfold splitOnComma
    split
    · intro seg hseg
      rcases List.mem_cons.mp hseg with h | h
      · rw [h]; simp
      · exact ih seg h
    · next hc =>
      split
      · next h => exact absurd h (splitOnComma_ne_nil cs)
      · next seg0 rest hsplit =>
        intro seg hseg
        rw [hsplit] at ih
        rcases List.mem_cons.mp hseg with h | h
        · rw [h]
          intro hmem
          rcases List.mem_cons.mp hmem with h2 | h2
          · exact hc h2.symm
          · exact ih seg0 (List.mem_cons_self _ _) h2
        · exact ih seg (List.mem_cons_of_mem _ h)

theorem trim_data (s : String) :
    (trim s).data = (s.data.dropWhile isTrimChar).rdropWhile isTrimChar := rfl

/-- `trim` removes a run of white space at each end and nothing else. -/
theorem trim_decompose (s : String) :
    s.data = s.data.takeWhile isTrimChar ++ (trim s).data
      ++ (s.data.dropWhile isTrimChar).rtakeWhile isTrimChar := by
  have h1 := List.takeWhile_append_dropWhile isTrimChar s.data
  have h2 : (s.data.dropWhile isTrimChar).rdropWhile isTrimChar
      ++ (s.data.dropWhile isTrimChar).rtakeWhile isTrimChar = s.data.dropWhile isTrimChar := by
    have h3 := congrArg List.reverse
      (List.takeWhile_append_dropWhile isTrimChar (s.data.dropWhile isTrimChar).reverse)
    rw [List.reverse_append, List.reverse_reverse] at h3
    exact h3
  rw [trim_data, List.append_assoc, h2, h1]

theorem trim_head (s : String) (c : Char) (h : (trim s).data.head? = some c) :
    isTrimChar c = false := by
  rw [trim_data] at h
  have hne : (s.data.dropWhile isTrimChar).rdropWhile isTrimChar ≠ [] := by
    intro he; rw [he] at h; simp at h
  have hpre := List.rdropWhile_prefix isTrimChar (s.data.dropWhile isTrimChar)
  have hne2 : s.data.dropWhile isTrimChar ≠ [] := by
    intro he; rw [he] at hne; simp [List.rdropWhile] at hne
  rw [List.head?_eq_head hne, hpre.head hne] at h
  have hc : c = (s.data.dropWhile isTrimChar).head hne2 := by
    simpa using h.symm
  rw [hc]
  exact List.head_dropWhile_not isTrimChar s.data hne2

theorem trim_last (s : String) (c : Char) (h : (trim s).data.getLast? = some c) :
    isTrimChar c = false := by
  rw [trim_data] at h
  have hne : (s.data.dropWhile isTrimChar).rdropWhile isTrimChar ≠ [] := by
    intro he; rw [he] at h; simp at h
  rw [List.getLast?_eq_getLast _ hne] at h
  have hc : c = ((s.data.dropWhile isTrimChar).rdropWhile isTrimChar).getLast hne := by
    simpa using h.symm
  rw [hc]
  simpa using List.rdropWhile_last_not isTrimChar (s.data.dropWhile isTrimChar) hne

/-- C23: for every tags string, the tag list built by `handleSubmit` is made of the
comma-separated segments of the string (joined by commas they give the string back, and none
contains a comma), each trimmed, `trim` removing a run of white space at each end and nothing
else, the empty results dropped and the order kept; so no tag of the result is empty or starts
or ends with white space, the empty string gives the empty list and `work, email, social`
gives `work`, `email`, `social`. -/
theorem tagList_spec (tags : String) :
    [','].intercalate (splitOnComma tags.data) = tags.data
    ∧ (∀ segment ∈ splitOnComma tags.data, ',' ∉ segment)
    ∧ tagList tags
        = ((splitOnComma tags.data).map (fun segment => trim ⟨segment⟩)).filter
            (fun tag => tag != "")
    ∧ (∀ s : String, ∃ leading trailing, s.data = leading ++ (trim s).data ++ trailing
        ∧ (∀ c ∈ leading, isTrimChar c = true) ∧ (∀ c ∈ trailing, isTrimChar c = true))
    ∧ (∀ tag ∈ tagList tags, tag ≠ ""
        ∧ (∀ c, tag.data.head? = some c → isTrimChar c = false)
        ∧ (∀ c, tag.data.getLast? = some c → isTrimChar c = false))
    ∧ tagList "" = []
    ∧ tagList "work, email, social" = ["work", "email", "social"] := by
  refine ⟨intercalate_splitOnComma tags.data, splitOnComma_no_comma tags.data, rfl, ?_, ?_,
    by decide, by decide⟩
  · intro s
    exact ⟨_, _, trim_decompose s, fun c hc => List.mem_takeWhile_imp hc,
      fun c hc => List.mem_rtakeWhile_imp hc⟩
  · intro tag htag
    unfold tagList at htag
    rw [List.mem_filter, List.mem_map] at htag
    obtain ⟨⟨segment, -, hseg⟩, hne⟩ := htag
    refine ⟨by simpa using hne, ?_, ?_⟩
    · intro c hc
      rw [← hseg] at hc
      exact trim_head _ c hc
    · intro c hc
      rw [← hseg] at hc
      exact trim_last _ c hc

theorem tagList_spec_witness :
    tagList " a ,, b c ,"
      = ((splitOnComma " a ,, b c ,".data).map (fun segment => trim ⟨segment⟩)).filter
          (fun tag => tag != "")
    ∧ tagList " a ,, b c ," = ["a", "b c"] :=
  ⟨(tagList_spec " a ,, b c ,").2.2.1, by decide⟩

/-! ## The search filter of the dashboard -/

theorem includes_empty (text : String) : includes text "" = true := by
  unfold includes
  simp

/-- On an array of strings `some` finds a tag exactly when one of them includes the query. -/
theorem someTagIncludes_strings (toLowerCase : String → String) (searchQuery : String)
    (items : List JsValue)
    (h : items.all (fun tag => match tag with | .str _ => true | _ => false) = true) :
    someTagIncludes toLowerCase searchQuery items
      = .ok ((items.map textOf).any
          (fun tag => includes (toLowerCase tag) (toLowerCase searchQuery))) := by
  induction items with
  | nil => rfl
  | cons tag rest ih =>
    rw [List.all_cons, Bool.and_eq_true] at h
    cases tag with
    | str t =>
      unfold someTagIncludes
      by_cases hin : includes (toLowerCase t) (toLowerCase searchQuery) = true
      · simp [hin, textOf]
      · simp only [hin]
        rw [ih h.2]
        simp [textOf, hin]
    | _ => simp at h

theorem lowerOrEmpty_text (toLowerCase : String → String) (hlower : toLowerCase "" = "")
    (v : JsValue) (h : isTextOrMissing v = true) :
    lowerOrEmpty toLowerCase v = .ok (toLowerCase (textOf v)) := by
  cases v <;> simp [isTextOrMissing] at h <;> simp [lowerOrEmpty, textOf, hlower]

theorem tagsInclude_tags (toLowerCase : String → String) (searchQuery : String) (v : JsValue)
    (h : isTagsOrMissing v = true) :
    tagsInclude toLowerCase searchQuery v
      = .ok ((tagsOf v).any
          (fun tag => includes (toLowerCase tag) (toLowerCase searchQuery))) := by
  cases v with
  | arr items =>
    simp only [isTagsOrMissing] at h
    simp only [tagsInclude, tagsOf]
    exact someTagIncludes_strings toLowerCase searchQuery items h
  | undefined => rfl
  | null => rfl
  | bool b => simp [isTagsOrMissing] at h
  | num n => simp [isTagsOrMissing] at h
  | str s => simp [isTagsOrMissing] at h
  | obj props => simp [isTagsOrMissing] at h

/-- On a well-formed entry the callback of the filter returns the selection of the claim. -/
theorem matchesSearch_entry (toLowerCase : String → String) (hlower : toLowerCase "" = "")
    (searchQuery : String) (pass : JsValue) (h : isPasswordEntry pass = true) :
    Dashboard.matchesSearch toLowerCase searchQuery pass
      = .ok (containsQuery toLowerCase searchQuery pass) := by
  cases pass with
  | obj props =>
    simp only [isPasswordEntry, Bool.and_eq_true] at h
    obtain ⟨⟨hp, he⟩, ht⟩ := h
    simp only [Dashboard.matchesSearch, getProp, containsQuery, fieldOf,
      lowerOrEmpty_text toLowerCase hlower _ hp, lowerOrEmpty_text toLowerCase hlower _ he,
      tagsInclude_tags toLowerCase searchQuery _ ht]
    by_cases h1 : includes (toLowerCase (textOf ((List.lookup "platform" props).getD .undefined)))
        (toLowerCase searchQuery) = true
    · simp [h1]
    · by_cases h2 : includes (toLowerCase (textOf ((List.lookup "email" props).getD .undefined)))
          (toLowerCase searchQuery) = true
      · simp [h1, h2]
      · simp [h1, h2]
  | undefined => simp [isPasswordEntry] at h
  | null => simp [isPasswordEntry] at h
  | bool b => simp [isPasswordEntry] at h
  | num n => simp [isPasswordEntry] at h
  | str s => simp [isPasswordEntry] at h
  | arr items => simp [isPasswordEntry] at h

theorem filteredPasswords_entries (toLowerCase : String → String)
    (hlower : toLowerCase "" = "") (searchQuery : String) (passwords : List JsValue)
    (h : ∀ pass ∈ passwords, isPasswordEntry pass = true) :
    Dashboard.filteredPasswords toLowerCase searchQuery passwords
      = .ok (passwords.filter (containsQuery toLowerCase searchQuery)) := by
  induction passwords with
  | nil => rfl
  | cons pass rest ih =>
    have hp := h pass (List.mem_cons_self _ _)
    have hr := ih (fun q hq => h q (List.mem_cons_of_mem _ hq))
    unfold Dashboard.filteredPasswords
    rw [matchesSearch_entry toLowerCase hlower searchQuery pass hp, hr]
    by_cases hk : containsQuery toLowerCase searchQuery pass = true
    · simp [hk, List.filter_cons]
    · simp [hk, List.filter_cons]

/-- C22, as stated, fails: when the backend sends a record whose name is the number 5,
`fetchPasswords` stores an entry whose platform is 5, on which `filteredPasswords` throws a
`TypeError` instead of giving a list, even for the empty query. -/
theorem filteredPasswords_numeric_platform :
    (Dashboard.fetchPasswords
        (answering (.obj [("code", .str "130"),
          ("data", .arr [.obj [("id", .num 1), ("name", .num 5)]])]))
        (some sampleUser) sampleDashboard sampleWorld).1.passwords
      = [.obj [("id", .num 1), ("platform", .num 5), ("email", .undefined),
          ("password", .undefined), ("created_at", .undefined)]]
    ∧ Dashboard.filteredPasswords (fun s => s) ""
        [.obj [("id", .num 1), ("platform", .num 5), ("email", .undefined),
          ("password", .undefined), ("created_at", .undefined)]]
      = .error .typeError :=
  ⟨rfl, rfl⟩

/-- C22, amended: for every list of entries whose platform and email are strings or missing
and whose tags are an array of strings or missing, and every search query, `filteredPasswords`
is the list of the entries whose platform, email or some tag contains the query ignoring
letter case, in their original order, a missing field counting as empty; so the empty query
returns the whole list.  Lower-casing is `toLowerCase`, which maps the empty string to
itself. -/
theorem filteredPasswords_spec (toLowerCase : String → String)
    (hlower : toLowerCase "" = "") (searchQuery : String) (passwords : List JsValue)
    (h : ∀ pass ∈ passwords, isPasswordEntry pass = true) :
    Dashboard.filteredPasswords toLowerCase searchQuery passwords
      = .ok (passwords.filter (containsQuery toLowerCase searchQuery))
    ∧ (passwords.filter (containsQuery toLowerCase searchQuery)).Sublist passwords
    ∧ (∀ pass, pass ∈ passwords.filter (containsQuery toLowerCase searchQuery)
        ↔ pass ∈ passwords ∧ containsQuery toLowerCase searchQuery pass = true)
    ∧ (searchQuery = "" →
        Dashboard.filteredPasswords toLowerCase searchQuery passwords = .ok passwords) := by
  have hmain := filteredPasswords_entries toLowerCase hlower searchQuery passwords h
  refine ⟨hmain, List.filter_sublist passwords, fun pass => List.mem_filter, ?_⟩
  intro hq
  rw [hmain]
  congr 1
  rw [List.filter_eq_self]
  intro pass _
  simp [containsQuery, hq, hlower, includes_empty]

theorem filteredPasswords_spec_witness :
    Dashboard.filteredPasswords (fun s => s) "mail"
        [.obj [("platform", .str "mail"), ("email", .null)],
         .obj [("platform", .str "bank"), ("tags", .arr [.str "money"])],
         .obj [("email", .str "me@mail.org")]]
      = .ok [.obj [("platform", .str "mail"), ("email", .null)],
         .obj [("email", .str "me@mail.org")]] := by
  have h := (filteredPasswords_spec (fun s => s) rfl "mail"
    [.obj [("platform", .str "mail"), ("email", .null)],
     .obj [("platform", .str "bank"), ("tags", .arr [.str "money"])],
     .obj [("email", .str "me@mail.org")]]
    (by
      intro pass hpass
      simp only [List.mem_cons, List.mem_singleton, List.not_mem_nil, or_false] at hpass
      rcases hpass with h | h | h <;> rw [h] <;> rfl)).1
  rw [h]
  rfl

/-! ## The frame of `generatePassword` and the content of the add request -/

/-- C24: `generatePassword` of `AddPassword` changes only the password of the form: for every
prior state, the platform, email, notes and tags of `formData` and the four generator settings
are the same after the call as before it, as are `showPassword` and `isLoading`; the new
password is the generated one. -/
theorem generatePassword_frame (random : Nat → ℚ) (s : AddPasswordState) :
    ∃ s', AddPassword.generatePassword random s = .ok s'
      ∧ s'.formData.platform = s.formData.platform
      ∧ s'.formData.email = s.formData.email
      ∧ s'.formData.notes = s.formData.notes
      ∧ s'.formData.tags = s.formData.tags
      ∧ s'.generatorSettings.length = s.generatorSettings.length
      ∧ s'.generatorSettings.includeUppercase = s.generatorSettings.includeUppercase
      ∧ s'.generatorSettings.includeNumbers = s.generatorSettings.includeNumbers
      ∧ s'.generatorSettings.includeSymbols = s.generatorSettings.includeSymbols
      ∧ s'.showPassword = s.showPassword
      ∧ s'.isLoading = s.isLoading
      ∧ s'.formData.password = generatedPassword s.generatorSettings random
      ∧ s' = { s with formData := { s.formData with
          password := generatedPassword s.generatorSettings random } } :=
  ⟨_, rfl, rfl, rfl, rfl, rfl, rfl, rfl, rfl, rfl, rfl, rfl, rfl, rfl⟩

theorem requests_append (a b : List Effect) : requests (a ++ b) = requests a ++ requests b := by
  unfold requests
  exact List.filterMap_append a b _

theorem requests_of_no_post (rest : List Effect) (h : ∀ b, Effect.post b ∉ rest) :
    requests rest = [] := by
  induction rest with
  | nil => rfl
  | cons e rest ih =>
    have hrest := ih (fun b hb => h b (List.mem_cons_of_mem _ hb))
    cases e with
    | post body => exact absurd (List.mem_cons_self _ _) (h body)
    | _ => simpa [requests] using hrest

/-- The requests of a run of `handleSubmit` on a filled-in form: the add request alone. -/
theorem handleSubmit_requests_filled (p : Platform) (user : User) (s : AddPasswordState)
    (w : World)
    (h : s.formData.platform ≠ "" ∧ s.formData.email ≠ "" ∧ s.formData.password ≠ "") :
    requests (AddPassword.handleSubmit p user s w).2.effects
      = requests w.effects ++ [.obj (formatData p (addRequest user s.formData))] := by
  rw [handleSubmit_filled p user s w h]
  obtain ⟨rest, hrest, hno⟩ := submit_posts p user s.formData (w.emit .preventDefault)
  show requests (AddPassword.submit p user s.formData (w.emit .preventDefault)).effects = _
  rw [hrest, requests_append]
  have h0 : requests (w.emit .preventDefault).effects = requests w.effects := by
    show requests (w.effects ++ [Effect.preventDefault]) = _
    rw [requests_append]
    simp [requests]
  have h1 : requests (.post (.obj (formatData p (addRequest user s.formData))) :: rest)
      = [.obj (formatData p (addRequest user s.formData))] := by
    have h2 := requests_of_no_post rest hno
    have h3 : requests (.post (.obj (formatData p (addRequest user s.formData))) :: rest)
        = .obj (formatData p (addRequest user s.formData)) :: requests rest := rfl
    rw [h3, h2]
  rw [h0, h1]

/-- The requests of a run of `handleSubmit` on a form with an empty required field: none. -/
theorem handleSubmit_requests_empty (p : Platform) (user : User) (s : AddPasswordState)
    (w : World)
    (h : s.formData.platform = "" ∨ s.formData.email = "" ∨ s.formData.password = "") :
    requests (AddPassword.handleSubmit p user s w).2.effects = requests w.effects := by
  rw [handleSubmit_empty p user s w h]
  show requests ((w.effects ++ [Effect.preventDefault]) ++ [_]) = _
  rw [requests_append, requests_append]
  simp [requests]

/-- C25: for two form states with the same platform and password and non-empty emails, the same
logged-in user and the same world, the arguments passed to `passwordService.addPassword` are
identical and so are the requests sent by `handleSubmit`, whatever the email, notes and tags
typed into the form; the `email` of the request is `user.email`, its `user_id`, `pass` and
`name` are `user.id`, the password and the platform. -/
theorem add_request_independent (p : Platform) (user : User) (s1 s2 : AddPasswordState)
    (w : World)
    (hplatform : s1.formData.platform = s2.formData.platform)
    (hpassword : s1.formData.password = s2.formData.password)
    (hemail1 : s1.formData.email ≠ "") (hemail2 : s2.formData.email ≠ "") :
    (user.id, JsValue.str s1.formData.password, JsValue.str s1.formData.platform, user.email)
      = (user.id, JsValue.str s2.formData.password, JsValue.str s2.formData.platform,
          user.email)
    ∧ addRequest user s1.formData = addRequest user s2.formData
    ∧ requests (AddPassword.handleSubmit p user s1 w).2.effects
        = requests (AddPassword.handleSubmit p user s2 w).2.effects
    ∧ ((s1.formData.platform ≠ "" ∧ s1.formData.password ≠ "") →
        requests (AddPassword.handleSubmit p user s1 w).2.effects
          = requests w.effects ++ [.obj (formatData p (addRequest user s1.formData))])
    ∧ getProp (.obj (formatData p (addRequest user s1.formData))) "email" = .ok user.email
    ∧ getProp (.obj (formatData p (addRequest user s1.formData))) "user_id" = .ok user.id
    ∧ getProp (.obj (formatData p (addRequest user s1.formData))) "pass"
        = .ok (.str s1.formData.password)
    ∧ getProp (.obj (formatData p (addRequest user s1.formData))) "name"
        = .ok (.str s1.formData.platform) := by
  have hreq : addRequest user s1.formData = addRequest user s2.formData := by
    simp [addRequest, hplatform, hpassword]
  have hfield : ∀ key, key ≠ "api_key" →
      getProp (.obj (formatData p (addRequest user s1.formData))) key
        = .ok (((addRequest user s1.formData).lookup key).getD .undefined) := by
    intro key hkey
    simp only [getProp, formatData]
    rw [lookup_setProp_ne _ "api_key" key _ hkey]
  refine ⟨by rw [hplatform, hpassword], hreq, ?_, ?_, ?_, ?_, ?_, ?_⟩
  · by_cases hfilled : s1.formData.platform ≠ "" ∧ s1.formData.password ≠ ""
    · have hfilled2 : s2.formData.platform ≠ "" ∧ s2.formData.password ≠ "" := by
        rw [← hplatform, ← hpassword]; exact hfilled
      rw [handleSubmit_requests_filled p user s1 w ⟨hfilled.1, hemail1, hfilled.2⟩,
        handleSubmit_requests_filled p user s2 w ⟨hfilled2.1, hemail2, hfilled2.2⟩, hreq]
    · have hempty1 : s1.formData.platform = "" ∨ s1.formData.email = ""
          ∨ s1.formData.password = "" := by
        by_contra hc
        push_neg at hc
        exact hfilled ⟨hc.1, hc.2.2⟩
      have hempty2 : s2.formData.platform = "" ∨ s2.formData.email = ""
          ∨ s2.formData.password = "" := by
        rw [← hplatform, ← hpassword]
        rcases hempty1 with h | h | h
        · exact Or.inl h
        · exact absurd h hemail1
        · exact Or.inr (Or.inr h)
      rw [handleSubmit_requests_empty p user s1 w hempty1,
        handleSubmit_requests_empty p user s2 w hempty2]
  · intro hfilled
    exact handleSubmit_requests_filled p user s1 w ⟨hfilled.1, hemail1, hfilled.2⟩
  · rw [hfield "email" (by decide)]; rfl
  · rw [hfield "user_id" (by decide)]; rfl
  · rw [hfield "pass" (by decide)]; rfl
  · rw [hfield "name" (by decide)]; rfl

theorem add_request_independent_witness :
    requests (AddPassword.handleSubmit (answering expired) sampleUser sampleForm
        sampleWorld).2.effects
      = requests (AddPassword.handleSubmit (answering expired) sampleUser
          { sampleForm with formData := ⟨"site", "other@example.com", "secret", "note", "x"⟩ }
          sampleWorld).2.effects
    ∧ getProp (.obj (formatData (answering expired) (addRequest sampleUser sampleForm.formData)))
        "email" = .ok (.str "me@example.com") :=
  have h := add_request_independent (answering expired) sampleUser sampleForm
    { sampleForm with formData := ⟨"site", "other@example.com", "secret", "note", "x"⟩ }
    sampleWorld rfl rfl (by decide) (by decide)
  ⟨h.2.2.1, h.2.2.2.2.1⟩

end Lockbox
